import Mathlib

/-!
Verification development for the configuration resolution engine
(`src/configuration/resolve_config.rs`) and the ignore-comment scanner
(`src/utils/file_text_has_ignore_comment.rs`) of dprint-plugin-typescript.

The option map, diagnostics, value-extraction primitives and option enums live
in `dprint_core::configuration` and the plugin's `types`/`builder` modules,
which are not part of the two source files; they are modelled from the spec
(sections 3, 4.1-4.3, 8) and marked as such.  `resolve_config` itself is a
direct transcription of the source.
-/

/-- Modelled from the spec: `OptionValue` tagged union {Bool, Int, String}
(spec section 3, `ConfigKeyValue` of dprint_core). -/
inductive ConfigKeyValue where
  | bool (b : Bool)
  | number (n : Int)
  | str (s : String)
deriving DecidableEq, Repr

/-- Modelled from the spec: `RawOptionMap`, a mapping from option key to
`OptionValue` with unique keys (spec section 3, `ConfigKeyMap` of dprint_core),
represented as an association list. -/
abbrev ConfigKeyMap := List (String × ConfigKeyValue)

/-- Lookup of a key in the option map (first match). -/
def ck_lookup : ConfigKeyMap → String → Option ConfigKeyValue
  | [], _ => none
  | kv :: rest, key => if kv.1 = key then some kv.2 else ck_lookup rest key

/-- Removal (consumption) of a key from the option map. -/
def ck_remove (config : ConfigKeyMap) (key : String) : ConfigKeyMap :=
  config.filter (fun kv => kv.1 ≠ key)

/-- Presence test for a key. -/
def ck_contains (config : ConfigKeyMap) (key : String) : Bool :=
  (ck_lookup config key).isSome

/-- Modelled from the spec: a diagnostic produced during resolution (spec
sections 3 and 7: the taxonomy TypeMismatch / UnknownKey / Deprecated,
`ConfigurationDiagnostic` of dprint_core). -/
inductive ConfigurationDiagnostic where
  | deprecated (oldKey newKey : String)
  | typeMismatch (key : String)
  | unknownKey (key : String)
deriving DecidableEq, Repr

/-- Modelled from the spec: the Value Extractor `extract_nullable` (spec 4.1,
`get_nullable_value` of dprint_core): a matched key is removed from the map
whether its value was valid or invalid; a malformed value appends a
type-mismatch diagnostic; absence yields `none` with no diagnostic. -/
def get_nullable_value (parse : ConfigKeyValue → Option α) (config : ConfigKeyMap)
    (key : String) (diagnostics : List ConfigurationDiagnostic) :
    Option α × ConfigKeyMap × List ConfigurationDiagnostic :=
  match ck_lookup config key with
  | none => (none, config, diagnostics)
  | some raw =>
    let config := ck_remove config key
    match parse raw with
    | some v => (some v, config, diagnostics)
    | none => (none, config, diagnostics ++ [ConfigurationDiagnostic.typeMismatch key])

/-- Modelled from the spec: the Value Extractor `extract` (spec 4.1,
`get_value` of dprint_core): identical to `get_nullable_value` but falling
back to the supplied default on absence or type mismatch. -/
def get_value (parse : ConfigKeyValue → Option α) (config : ConfigKeyMap)
    (key : String) (default : α) (diagnostics : List ConfigurationDiagnostic) :
    α × ConfigKeyMap × List ConfigurationDiagnostic :=
  let (v, config, diagnostics) := get_nullable_value parse config key diagnostics
  (v.getD default, config, diagnostics)

/-- Modelled from the spec: the Deprecation Redirector (spec 4.2,
`handle_renamed_config_property` of dprint_core): if the old key is present it
is removed, its value moves to the new key only when the new key is absent,
and one deprecation diagnostic naming both keys is appended. -/
def handle_renamed_config_property (config : ConfigKeyMap) (oldKey newKey : String)
    (diagnostics : List ConfigurationDiagnostic) :
    ConfigKeyMap × List ConfigurationDiagnostic :=
  match ck_lookup config oldKey with
  | none => (config, diagnostics)
  | some v =>
    let config := ck_remove config oldKey
    let config := if ck_contains config newKey then config else config ++ [(newKey, v)]
    (config, diagnostics ++ [ConfigurationDiagnostic.deprecated oldKey newKey])

/-- Modelled from the spec: the Unknown Key Reporter (spec 4.5,
`get_unknown_property_diagnostics` of dprint_core): one unknown-key diagnostic
per entry still present in the map. -/
def get_unknown_property_diagnostics (config : ConfigKeyMap) :
    List ConfigurationDiagnostic :=
  config.map (fun kv => ConfigurationDiagnostic.unknownKey kv.1)

/- Option enums.  The enum types and their string forms live in the plugin's
`types` module and dprint_core, which are not in src; variants are modelled
from the spec (e.g. spec section 8 enumerates {"always","prefer","absent"} for
semiColons) and the camelCase naming convention evident from the source. -/

/-- Modelled from the spec: the semiColons option values (spec section 8). -/
inductive SemiColons where
  | Always | Prefer | Absent
deriving DecidableEq, Repr, Fintype

/-- Modelled from the spec: brace position option values. -/
inductive BracePosition where
  | Maintain | SameLine | NextLine | SameLineUnlessHanging
deriving DecidableEq, Repr, Fintype

/-- Modelled from the spec: next control flow position option values. -/
inductive NextControlFlowPosition where
  | Maintain | SameLine | NextLine
deriving DecidableEq, Repr, Fintype

/-- Modelled from the spec: operator position option values. -/
inductive OperatorPosition where
  | Maintain | SameLine | NextLine
deriving DecidableEq, Repr, Fintype

/-- Modelled from the spec: same-or-next-line position option values. -/
inductive SameOrNextLinePosition where
  | Maintain | SameLine | NextLine
deriving DecidableEq, Repr, Fintype

/-- Modelled from the spec: trailing commas option values. -/
inductive TrailingCommas where
  | Always | Never | OnlyMultiLine
deriving DecidableEq, Repr, Fintype

/-- Modelled from the spec: use braces option values. -/
inductive UseBraces where
  | Maintain | WhenNotSingleLine | Always | PreferNone
deriving DecidableEq, Repr, Fintype

/-- Modelled from the spec: granular prefer-hanging option values. -/
inductive PreferHanging where
  | Never | OnlySingleItem | Always
deriving DecidableEq, Repr, Fintype

/-- Modelled from the spec: semicolon-or-comma separator kind option values. -/
inductive SemiColonOrComma where
  | SemiColon | Comma
deriving DecidableEq, Repr, Fintype

/-- Modelled from the spec: quote style option values. -/
inductive QuoteStyle where
  | AlwaysDouble | AlwaysSingle | PreferDouble | PreferSingle
deriving DecidableEq, Repr, Fintype

/-- Modelled from the spec: quote props option values. -/
inductive QuoteProps where
  | Preserve | AsNeeded
deriving DecidableEq, Repr, Fintype

/-- Modelled from the spec: JSX quote style option values. -/
inductive JsxQuoteStyle where
  | PreferDouble | PreferSingle
deriving DecidableEq, Repr, Fintype

/-- Modelled from the spec: JSX multi-line parens option values. -/
inductive JsxMultiLineParens where
  | Never | Prefer | Always
deriving DecidableEq, Repr, Fintype

/-- Modelled from the spec: enum member spacing option values. -/
inductive MemberSpacing where
  | Maintain | BlankLine | NewLine
deriving DecidableEq, Repr, Fintype

/-- Modelled from the spec: arrow-function parentheses option values. -/
inductive UseParentheses where
  | Maintain | Force | PreferNone
deriving DecidableEq, Repr, Fintype

/-- Modelled from the spec: sort order option values. -/
inductive SortOrder where
  | Maintain | CaseSensitive | CaseInsensitive
deriving DecidableEq, Repr, Fintype

/-- Modelled from the spec: type-only import/export ordering option values. -/
inductive NamedTypeImportsExportsOrder where
  | None | First | Last
deriving DecidableEq, Repr, Fintype

/-- Modelled from the spec: force-multi-line option values. -/
inductive ForceMultiLine where
  | Never | WhenMultiple | Always
deriving DecidableEq, Repr, Fintype

/-- Modelled from the spec: new line kind option values (dprint_core). -/
inductive NewLineKind where
  | Auto | LineFeed | CarriageReturnLineFeed | System
deriving DecidableEq, Repr, Fintype

/-- Modelled from the spec: conversion of a quote style to the JSX quote style
used as the situational default of "jsx.quoteStyle" (`to_jsx_quote_style`). -/
def QuoteStyle.to_jsx_quote_style : QuoteStyle → JsxQuoteStyle
  | .AlwaysDouble => .PreferDouble
  | .PreferDouble => .PreferDouble
  | .AlwaysSingle => .PreferSingle
  | .PreferSingle => .PreferSingle

/- Parsing of raw option values for each value shape (spec 4.1: a string not
among the enumerated variants, or a wrong primitive kind, is a mismatch). -/

/-- Parse a raw value as a boolean. -/
def parse_bool : ConfigKeyValue → Option Bool
  | .bool b => some b
  | _ => none

/-- Parse a raw value as a non-negative integer. -/
def parse_nat : ConfigKeyValue → Option Nat
  | .number n => if 0 ≤ n then some n.toNat else none
  | _ => none

/-- Parse a raw value as a string. -/
def parse_string : ConfigKeyValue → Option String
  | .str s => some s
  | _ => none

/-- The serialized key string of each semiColons value (spec section 8). -/
def SemiColons.key_string : SemiColons → String
  | .Always => "always"
  | .Prefer => "prefer"
  | .Absent => "absent"

/-- Parse a raw value as a semiColons option. -/
def parse_semi_colons : ConfigKeyValue → Option SemiColons
  | .str "always" => some .Always
  | .str "prefer" => some .Prefer
  | .str "absent" => some .Absent
  | _ => none

/-- The serialized key string of each brace position value. -/
def BracePosition.key_string : BracePosition → String
  | .Maintain => "maintain"
  | .SameLine => "sameLine"
  | .NextLine => "nextLine"
  | .SameLineUnlessHanging => "sameLineUnlessHanging"

/-- Parse a raw value as a brace position. -/
def parse_brace_position : ConfigKeyValue → Option BracePosition
  | .str "maintain" => some .Maintain
  | .str "sameLine" => some .SameLine
  | .str "nextLine" => some .NextLine
  | .str "sameLineUnlessHanging" => some .SameLineUnlessHanging
  | _ => none

/-- The serialized key string of each next control flow position value. -/
def NextControlFlowPosition.key_string : NextControlFlowPosition → String
  | .Maintain => "maintain"
  | .SameLine => "sameLine"
  | .NextLine => "nextLine"

/-- Parse a raw value as a next control flow position. -/
def parse_next_control_flow_position : ConfigKeyValue → Option NextControlFlowPosition
  | .str "maintain" => some .Maintain
  | .str "sameLine" => some .SameLine
  | .str "nextLine" => some .NextLine
  | _ => none

/-- The serialized key string of each operator position value. -/
def OperatorPosition.key_string : OperatorPosition → String
  | .Maintain => "maintain"
  | .SameLine => "sameLine"
  | .NextLine => "nextLine"

/-- Parse a raw value as an operator position. -/
def parse_operator_position : ConfigKeyValue → Option OperatorPosition
  | .str "maintain" => some .Maintain
  | .str "sameLine" => some .SameLine
  | .str "nextLine" => some .NextLine
  | _ => none

/-- The serialized key string of each same-or-next-line position value. -/
def SameOrNextLinePosition.key_string : SameOrNextLinePosition → String
  | .Maintain => "maintain"
  | .SameLine => "sameLine"
  | .NextLine => "nextLine"

/-- Parse a raw value as a same-or-next-line position. -/
def parse_same_or_next_line_position : ConfigKeyValue → Option SameOrNextLinePosition
  | .str "maintain" => some .Maintain
  | .str "sameLine" => some .SameLine
  | .str "nextLine" => some .NextLine
  | _ => none

/-- The serialized key string of each trailing commas value. -/
def TrailingCommas.key_string : TrailingCommas → String
  | .Always => "always"
  | .Never => "never"
  | .OnlyMultiLine => "onlyMultiLine"

/-- Parse a raw value as a trailing commas option. -/
def parse_trailing_commas : ConfigKeyValue → Option TrailingCommas
  | .str "always" => some .Always
  | .str "never" => some .Never
  | .str "onlyMultiLine" => some .OnlyMultiLine
  | _ => none

/-- The serialized key string of each use braces value. -/
def UseBraces.key_string : UseBraces → String
  | .Maintain => "maintain"
  | .WhenNotSingleLine => "whenNotSingleLine"
  | .Always => "always"
  | .PreferNone => "preferNone"

/-- Parse a raw value as a use braces option. -/
def parse_use_braces : ConfigKeyValue → Option UseBraces
  | .str "maintain" => some .Maintain
  | .str "whenNotSingleLine" => some .WhenNotSingleLine
  | .str "always" => some .Always
  | .str "preferNone" => some .PreferNone
  | _ => none

/-- The serialized key string of each granular prefer-hanging value. -/
def PreferHanging.key_string : PreferHanging → String
  | .Never => "never"
  | .OnlySingleItem => "onlySingleItem"
  | .Always => "always"

/-- Parse a raw value as a granular prefer-hanging option. -/
def parse_prefer_hanging : ConfigKeyValue → Option PreferHanging
  | .str "never" => some .Never
  | .str "onlySingleItem" => some .OnlySingleItem
  | .str "always" => some .Always
  | _ => none

/-- The serialized key string of each separator kind value. -/
def SemiColonOrComma.key_string : SemiColonOrComma → String
  | .SemiColon => "semiColon"
  | .Comma => "comma"

/-- Parse a raw value as a separator kind. -/
def parse_semi_colon_or_comma : ConfigKeyValue → Option SemiColonOrComma
  | .str "semiColon" => some .SemiColon
  | .str "comma" => some .Comma
  | _ => none

/-- The serialized key string of each quote style value. -/
def QuoteStyle.key_string : QuoteStyle → String
  | .AlwaysDouble => "alwaysDouble"
  | .AlwaysSingle => "alwaysSingle"
  | .PreferDouble => "preferDouble"
  | .PreferSingle => "preferSingle"

/-- Parse a raw value as a quote style. -/
def parse_quote_style : ConfigKeyValue → Option QuoteStyle
  | .str "alwaysDouble" => some .AlwaysDouble
  | .str "alwaysSingle" => some .AlwaysSingle
  | .str "preferDouble" => some .PreferDouble
  | .str "preferSingle" => some .PreferSingle
  | _ => none

/-- Parse a raw value as a quote props option. -/
def parse_quote_props : ConfigKeyValue → Option QuoteProps
  | .str "preserve" => some .Preserve
  | .str "asNeeded" => some .AsNeeded
  | _ => none

/-- Parse a raw value as a JSX quote style. -/
def parse_jsx_quote_style : ConfigKeyValue → Option JsxQuoteStyle
  | .str "preferDouble" => some .PreferDouble
  | .str "preferSingle" => some .PreferSingle
  | _ => none

/-- Parse a raw value as a JSX multi-line parens option. -/
def parse_jsx_multi_line_parens : ConfigKeyValue → Option JsxMultiLineParens
  | .str "never" => some .Never
  | .str "prefer" => some .Prefer
  | .str "always" => some .Always
  | _ => none

/-- Parse a raw value as a member spacing option. -/
def parse_member_spacing : ConfigKeyValue → Option MemberSpacing
  | .str "maintain" => some .Maintain
  | .str "blankLine" => some .BlankLine
  | .str "newLine" => some .NewLine
  | _ => none

/-- Parse a raw value as a use parentheses option. -/
def parse_use_parentheses : ConfigKeyValue → Option UseParentheses
  | .str "maintain" => some .Maintain
  | .str "force" => some .Force
  | .str "preferNone" => some .PreferNone
  | _ => none

/-- Parse a raw value as a sort order. -/
def parse_sort_order : ConfigKeyValue → Option SortOrder
  | .str "maintain" => some .Maintain
  | .str "caseSensitive" => some .CaseSensitive
  | .str "caseInsensitive" => some .CaseInsensitive
  | _ => none

/-- Parse a raw value as a type-only import/export ordering. -/
def parse_named_type_imports_exports_order : ConfigKeyValue → Option NamedTypeImportsExportsOrder
  | .str "none" => some .None
  | .str "first" => some .First
  | .str "last" => some .Last
  | _ => none

/-- Parse a raw value as a force-multi-line option. -/
def parse_force_multi_line : ConfigKeyValue → Option ForceMultiLine
  | .str "never" => some .Never
  | .str "whenMultiple" => some .WhenMultiple
  | .str "always" => some .Always
  | _ => none

/-- Parse a raw value as a new line kind. -/
def parse_new_line_kind : ConfigKeyValue → Option NewLineKind
  | .str "auto" => some .Auto
  | .str "lf" => some .LineFeed
  | .str "crlf" => some .CarriageReturnLineFeed
  | .str "system" => some .System
  | _ => none

/-- Modelled from the spec: `GlobalDefaults`, the immutable externally
resolved global configuration (spec section 3, `GlobalConfiguration` of
dprint_core). -/
structure GlobalConfiguration where
  line_width : Option Nat := none
  use_tabs : Option Bool := none
  indent_width : Option Nat := none
  new_line_kind : Option NewLineKind := none
deriving DecidableEq, Repr

/-- Modelled from the spec: the hard-coded recommended global baseline (spec
section 8: width=120, indent=2, tabs=false; line feed newline). -/
structure RecommendedGlobal where
  line_width : Nat
  use_tabs : Bool
  indent_width : Nat
  new_line_kind : NewLineKind

/-- Modelled from the spec: `RECOMMENDED_GLOBAL_CONFIGURATION` of dprint_core. -/
def RECOMMENDED_GLOBAL_CONFIGURATION : RecommendedGlobal :=
  { line_width := 120, use_tabs := false, indent_width := 2, new_line_kind := .LineFeed }

/-- The default (all-unset) global configuration, as produced by
`GlobalConfiguration::default()`. -/
def default_global_config : GlobalConfiguration := {}

/-- The values resolved by the extraction pass for the global, situational, sorting and ignore-comment fields (src lines 68-137). -/
structure Part1Values where
  line_width : Nat
  use_tabs : Bool
  indent_width : Nat
  new_line_kind : NewLineKind
  file_indent_level : Nat
  arrow_function_use_parentheses : UseParentheses
  binary_expression_line_per_expression : Bool
  conditional_expression_line_per_expression : Bool
  jsx_quote_style : JsxQuoteStyle
  jsx_multi_line_parens : JsxMultiLineParens
  jsx_force_new_lines_surrounding_content : Bool
  jsx_opening_element_bracket_position : SameOrNextLinePosition
  jsx_self_closing_element_bracket_position : SameOrNextLinePosition
  member_expression_line_per_expression : Bool
  type_literal_separator_kind_single_line : SemiColonOrComma
  type_literal_separator_kind_multi_line : SemiColonOrComma
  module_sort_import_declarations : SortOrder
  module_sort_export_declarations : SortOrder
  import_declaration_sort_named_imports : SortOrder
  export_declaration_sort_named_exports : SortOrder
  import_declaration_sort_type_only_imports : NamedTypeImportsExportsOrder
  export_declaration_sort_type_only_exports : NamedTypeImportsExportsOrder
  ignore_node_comment_text : String
  ignore_file_comment_text : String

/-- The values resolved by the extraction pass for the brace position fields (src lines 138-160). -/
structure Part2Values where
  arrow_function_brace_position : BracePosition
  class_declaration_brace_position : BracePosition
  class_expression_brace_position : BracePosition
  constructor_brace_position : BracePosition
  do_while_statement_brace_position : BracePosition
  enum_declaration_brace_position : BracePosition
  for_statement_brace_position : BracePosition
  for_in_statement_brace_position : BracePosition
  for_of_statement_brace_position : BracePosition
  get_accessor_brace_position : BracePosition
  if_statement_brace_position : BracePosition
  interface_declaration_brace_position : BracePosition
  function_declaration_brace_position : BracePosition
  function_expression_brace_position : BracePosition
  method_brace_position : BracePosition
  module_declaration_brace_position : BracePosition
  set_accessor_brace_position : BracePosition
  static_block_brace_position : BracePosition
  switch_case_brace_position : BracePosition
  switch_statement_brace_position : BracePosition
  try_statement_brace_position : BracePosition
  while_statement_brace_position : BracePosition

/-- The values resolved by the extraction pass for the prefer hanging fields (src lines 161-185). -/
structure Part3Values where
  arguments_prefer_hanging : PreferHanging
  array_expression_prefer_hanging : PreferHanging
  array_pattern_prefer_hanging : Bool
  do_while_statement_prefer_hanging : Bool
  export_declaration_prefer_hanging : Bool
  extends_clause_prefer_hanging : Bool
  for_in_statement_prefer_hanging : Bool
  for_of_statement_prefer_hanging : Bool
  for_statement_prefer_hanging : Bool
  if_statement_prefer_hanging : Bool
  implements_clause_prefer_hanging : Bool
  import_declaration_prefer_hanging : Bool
  jsx_attributes_prefer_hanging : Bool
  object_expression_prefer_hanging : Bool
  object_pattern_prefer_hanging : Bool
  parameters_prefer_hanging : PreferHanging
  sequence_expression_prefer_hanging : Bool
  switch_statement_prefer_hanging : Bool
  tuple_type_prefer_hanging : PreferHanging
  type_literal_prefer_hanging : Bool
  type_parameters_prefer_hanging : PreferHanging
  union_and_intersection_type_prefer_hanging : Bool
  variable_statement_prefer_hanging : Bool
  while_statement_prefer_hanging : Bool

/-- The values resolved by the extraction pass for the member spacing, control-flow/operator/body position, trailing comma and use-braces fields (src lines 186-230). -/
structure Part4Values where
  enum_declaration_member_spacing : MemberSpacing
  if_statement_next_control_flow_position : NextControlFlowPosition
  try_statement_next_control_flow_position : NextControlFlowPosition
  do_while_statement_next_control_flow_position : NextControlFlowPosition
  binary_expression_operator_position : OperatorPosition
  conditional_expression_operator_position : OperatorPosition
  conditional_type_operator_position : OperatorPosition
  if_statement_single_body_position : SameOrNextLinePosition
  for_statement_single_body_position : SameOrNextLinePosition
  for_in_statement_single_body_position : SameOrNextLinePosition
  for_of_statement_single_body_position : SameOrNextLinePosition
  while_statement_single_body_position : SameOrNextLinePosition
  arguments_trailing_commas : TrailingCommas
  parameters_trailing_commas : TrailingCommas
  array_expression_trailing_commas : TrailingCommas
  array_pattern_trailing_commas : TrailingCommas
  enum_declaration_trailing_commas : TrailingCommas
  export_declaration_trailing_commas : TrailingCommas
  import_declaration_trailing_commas : TrailingCommas
  object_expression_trailing_commas : TrailingCommas
  object_pattern_trailing_commas : TrailingCommas
  tuple_type_trailing_commas : TrailingCommas
  type_literal_trailing_commas : TrailingCommas
  type_parameters_trailing_commas : TrailingCommas
  if_statement_use_braces : UseBraces
  for_statement_use_braces : UseBraces
  for_in_statement_use_braces : UseBraces
  for_of_statement_use_braces : UseBraces
  while_statement_use_braces : UseBraces

/-- The values resolved by the extraction pass for the prefer/force single line and force multi line fields (src lines 231-271). -/
structure Part5Values where
  array_expression_prefer_single_line : Bool
  array_pattern_prefer_single_line : Bool
  arguments_prefer_single_line : Bool
  binary_expression_prefer_single_line : Bool
  computed_prefer_single_line : Bool
  conditional_expression_prefer_single_line : Bool
  conditional_type_prefer_single_line : Bool
  decorators_prefer_single_line : Bool
  export_declaration_prefer_single_line : Bool
  for_statement_prefer_single_line : Bool
  import_declaration_prefer_single_line : Bool
  jsx_attributes_prefer_single_line : Bool
  jsx_element_prefer_single_line : Bool
  mapped_type_prefer_single_line : Bool
  member_expression_prefer_single_line : Bool
  object_expression_prefer_single_line : Bool
  object_pattern_prefer_single_line : Bool
  parameters_prefer_single_line : Bool
  parentheses_prefer_single_line : Bool
  tuple_type_prefer_single_line : Bool
  type_literal_prefer_single_line : Bool
  type_parameters_prefer_single_line : Bool
  union_and_intersection_type_prefer_single_line : Bool
  variable_statement_prefer_single_line : Bool
  import_declaration_force_single_line : Bool
  export_declaration_force_single_line : Bool
  import_declaration_force_multi_line : ForceMultiLine
  export_declaration_force_multi_line : ForceMultiLine

/-- The values resolved by the extraction pass for the keyword/parenthesis/property spacing fields (src lines 272-321). -/
structure Part6Values where
  binary_expression_space_surrounding_bitwise_and_arithmetic_operator : Bool
  comment_line_force_space_after_slashes : Bool
  construct_signature_space_after_new_keyword : Bool
  constructor_space_before_parentheses : Bool
  constructor_type_space_after_new_keyword : Bool
  do_while_statement_space_after_while_keyword : Bool
  export_declaration_space_surrounding_named_exports : Bool
  for_statement_space_after_for_keyword : Bool
  for_statement_space_after_semi_colons : Bool
  for_in_statement_space_after_for_keyword : Bool
  for_of_statement_space_after_for_keyword : Bool
  function_declaration_space_before_parentheses : Bool
  function_expression_space_before_parentheses : Bool
  function_expression_space_after_function_keyword : Bool
  get_accessor_space_before_parentheses : Bool
  if_statement_space_after_if_keyword : Bool
  import_declaration_space_surrounding_named_imports : Bool
  jsx_expression_container_space_surrounding_expression : Bool
  jsx_self_closing_element_space_before_slash : Bool
  method_space_before_parentheses : Bool
  object_expression_space_surrounding_properties : Bool
  object_pattern_space_surrounding_properties : Bool
  set_accessor_space_before_parentheses : Bool
  tagged_template_space_before_literal : Bool
  type_annotation_space_before_colon : Bool
  type_assertion_space_before_expression : Bool
  type_literal_space_surrounding_properties : Bool
  while_statement_space_after_while_keyword : Bool

/-- The values resolved by the extraction pass for the space-around fields (src lines 322-335). -/
structure Part7Values where
  arguments_space_around : Bool
  array_expression_space_around : Bool
  array_pattern_space_around : Bool
  catch_clause_space_around : Bool
  do_while_statement_space_around : Bool
  for_in_statement_space_around : Bool
  for_of_statement_space_around : Bool
  for_statement_space_around : Bool
  if_statement_space_around : Bool
  parameters_space_around : Bool
  paren_expression_space_around : Bool
  switch_statement_space_around : Bool
  tuple_type_space_around : Bool
  while_statement_space_around : Bool

/-- The fully resolved typescript configuration, transcribed from the
`Configuration` struct literal built in `resolve_config`
(src/configuration/resolve_config.rs lines 67-336).  The source's struct is
flat; here its fields are grouped by the extraction passes, with one flat
accessor per source field defined below, so every field holds a concrete
value by construction. -/
structure Configuration where
  part1 : Part1Values
  quote_style : QuoteStyle
  quote_props : QuoteProps
  semi_colons : SemiColons
  part2 : Part2Values
  part3 : Part3Values
  part4 : Part4Values
  part5 : Part5Values
  part6 : Part6Values
  space_surrounding_properties : Bool
  part7 : Part7Values

/-- The result of configuration resolution: the resolved configuration plus
the ordered diagnostics (`ResolveConfigurationResult` of dprint_core). -/
structure ResolveConfigurationResult where
  config : Configuration
  diagnostics : List ConfigurationDiagnostic

/-- Modelled from the spec: the deno preset's fixed table
(`ConfigurationBuilder::new().deno().config`, in the builder module which is
not in src; spec 4.3 describes it only as a fixed table of predetermined
values, so a small representative table is used). -/
def deno_preset_table : ConfigKeyMap :=
  [ ("lineWidth", ConfigKeyValue.number 80)
  , ("indentWidth", ConfigKeyValue.number 2)
  , ("useTabs", ConfigKeyValue.bool false)
  , ("semiColons", ConfigKeyValue.str "prefer")
  , ("quoteStyle", ConfigKeyValue.str "preferDouble")
  , ("newLineKind", ConfigKeyValue.str "lf")
  ]

/-- Insertion of the entries of `table` that are absent from `config`
(the loop body of `fill_deno_config`, src lines 345-351). -/
def fill_config : ConfigKeyMap → ConfigKeyMap → ConfigKeyMap
  | [], config => config
  | kv :: rest, config =>
    fill_config rest (if ck_contains config kv.1 then config else config ++ [kv])

/-- `fill_deno_config` (src lines 345-351): for each (key, value) of the deno
preset table, insert it only if the key is currently absent from the map. -/
def fill_deno_config (config : ConfigKeyMap) : ConfigKeyMap :=
  fill_config deno_preset_table config

/-- Modelled from the spec: ASCII whitespace test used by the character
iterator (CharIterator is in the utils module, not in src). -/
def is_whitespace (c : Char) : Bool :=
  c == ' ' || c == '\t' || c == '\n' || c == '\r'

/-- Modelled from the spec: skip characters from the front while the
predicate holds (the skip_while helper of CharIterator). -/
def skip_while (p : Char → Bool) : List Char → List Char
  | [] => []
  | c :: cs => if p c then skip_while p cs else c :: cs

/-- Modelled from the spec: `skip_all_until_new_line` of CharIterator: skip
to the next line feed and consume it. -/
def skip_all_until_new_line (cs : List Char) : List Char :=
  (skip_while (fun c => c != '\n') cs).tail

/-- Modelled from the spec: `check_text` of CharIterator: consume characters
while they match the expected text, answering whether all of it matched
(consumption happens even on the mismatching character). -/
def check_text : List Char → List Char → Bool × List Char
  | [], cs => (true, cs)
  | _ :: _, [] => (false, [])
  | t :: ts, c :: cs => if c = t then check_text ts cs else (false, cs)

/-- The scan for the end of a block comment (the while loop of
`check_multi_line_comment`, src/utils/file_text_has_ignore_comment.rs lines
50-55): consume up to and including the first "*/". -/
def skip_past_comment_end : List Char → List Char
  | [] => []
  | c :: cs =>
    if (c == '*') && (cs.head? == some '/') then cs.tail
    else skip_past_comment_end cs

lemma skip_while_length_le (p : Char → Bool) (cs : List Char) :
    (skip_while p cs).length ≤ cs.length := by
  induction cs with
  | nil => simp [skip_while]
  | cons c cs ih =>
    by_cases h : p c <;> simp [skip_while, h] <;> omega

lemma skip_all_until_new_line_length_le (cs : List Char) :
    (skip_all_until_new_line cs).length ≤ cs.length := by
  have h := skip_while_length_le (fun c => c != '\n') cs
  simp only [skip_all_until_new_line, List.length_tail]
  omega

lemma check_text_length_le (t : List Char) : ∀ cs : List Char,
    (check_text t cs).2.length ≤ cs.length := by
  induction t with
  | nil => intro cs; simp [check_text]
  | cons a ts ih =>
    intro cs
    cases cs with
    | nil => simp [check_text]
    | cons c cs =>
      by_cases h : c = a
      · simpa [check_text, h] using Nat.le_succ_of_le (ih cs)
      · simp [check_text, h]

lemma skip_past_comment_end_length_le (cs : List Char) :
    (skip_past_comment_end cs).length ≤ cs.length := by
  induction cs with
  | nil => simp [skip_past_comment_end]
  | cons c cs ih =>
    by_cases h : (c == '*') && (cs.head? == some '/')
    · simp only [skip_past_comment_end, if_pos h, List.length_tail, List.length_cons]
      omega
    · simp only [skip_past_comment_end, if_neg h, List.length_cons]
      omega

/-- The comment-scanning loop of `file_text_has_ignore_comment`
(src/utils/file_text_has_ignore_comment.rs lines 12-58): skip whitespace,
require a comment opener, and search the comment for the ignore text at the
start of its content, continuing with the next candidate otherwise. -/
def has_ignore_comment_loop (ignore_text : List Char) : List Char → Bool
  | [] => false
  | c :: cs =>
    match hsw : skip_while is_whitespace (c :: cs) with
    | [] => false
    | '/' :: '/' :: cs3 =>
      if (check_text ignore_text (skip_while (fun c2 => c2 == ' ') cs3)).1 then true
      else has_ignore_comment_loop ignore_text
        (skip_all_until_new_line (check_text ignore_text (skip_while (fun c2 => c2 == ' ') cs3)).2)
    | '/' :: '*' :: cs3 =>
      if (check_text ignore_text (skip_while is_whitespace cs3)).1 then true
      else has_ignore_comment_loop ignore_text
        (skip_past_comment_end (check_text ignore_text (skip_while is_whitespace cs3)).2)
    | _ :: _ => false
  termination_by cs => cs.length
  decreasing_by
  · have h1 := skip_while_length_le is_whitespace (c :: cs)
    rw [hsw] at h1
    have h2 := skip_all_until_new_line_length_le
      (check_text ignore_text (skip_while (fun c2 => c2 == ' ') cs3)).2
    have h3 := check_text_length_le ignore_text (skip_while (fun c2 => c2 == ' ') cs3)
    have h4 := skip_while_length_le (fun c2 => c2 == ' ') cs3
    simp only [List.length_cons] at h1 ⊢
    omega
  · have h1 := skip_while_length_le is_whitespace (c :: cs)
    rw [hsw] at h1
    have h2 := skip_past_comment_end_length_le
      (check_text ignore_text (skip_while is_whitespace cs3)).2
    have h3 := check_text_length_le ignore_text (skip_while is_whitespace cs3)
    have h4 := skip_while_length_le is_whitespace cs3
    simp only [List.length_cons] at h1 ⊢
    omega

/-- The characters of the file after the optional "#!" shebang first line
(src/utils/file_text_has_ignore_comment.rs lines 4-9). -/
def post_shebang_chars (file_text : String) : List Char :=
  match file_text.data with
  | '#' :: '!' :: rest => skip_all_until_new_line rest
  | _ => file_text.data

/-- `file_text_has_ignore_comment` (src/utils/file_text_has_ignore_comment.rs
lines 1-59): skip the optional shebang line, then scan the leading comments
for the ignore text. -/
def file_text_has_ignore_comment (file_text ignore_text : String) : Bool :=
  has_ignore_comment_loop ignore_text.data (post_shebang_chars file_text)

/-- The first line of a character stream split from the rest (content before
the first line feed, and the characters after it). -/
def split_line : List Char → List Char × List Char
  | [] => ([], [])
  | c :: cs =>
    if c = '\n' then ([], cs)
    else (c :: (split_line cs).1, (split_line cs).2)

/-- A block comment body split from the rest (content before the first "*/",
and the characters after it; an unterminated block runs to the end). -/
def split_block_end : List Char → List Char × List Char
  | [] => ([], [])
  | c :: cs =>
    if (c == '*') && (cs.head? == some '/') then ([], cs.tail)
    else (c :: (split_block_end cs).1, (split_block_end cs).2)

lemma split_line_snd_length_le (cs : List Char) :
    (split_line cs).2.length ≤ cs.length := by
  induction cs with
  | nil => simp [split_line]
  | cons c cs ih =>
    by_cases h : c = '\n' <;> simp [split_line, h] <;> omega

lemma split_block_end_snd_length_le (cs : List Char) :
    (split_block_end cs).2.length ≤ cs.length := by
  induction cs with
  | nil => simp [split_block_end]
  | cons c cs ih =>
    by_cases h : (c == '*') && (cs.head? == some '/')
    · simp only [split_block_end, if_pos h, List.length_tail, List.length_cons]
      omega
    · simp only [split_block_end, if_neg h, List.length_cons]
      omega

/-- The claim C10 as stated, following its words: the ignore text occurs at
the start of the content of a comment in the initial run of comments (leading
spaces of a line comment and leading whitespace of a block comment skipped),
where the run consists of consecutive comments separated only by whitespace. -/
def ignore_in_initial_comment_run (ignore_text : List Char) : List Char → Bool
  | [] => false
  | c :: cs =>
    match hsw : skip_while is_whitespace (c :: cs) with
    | [] => false
    | '/' :: '/' :: cs3 =>
      if ignore_text.isPrefixOf (skip_while (fun c2 => c2 == ' ') (split_line cs3).1) then true
      else ignore_in_initial_comment_run ignore_text (split_line cs3).2
    | '/' :: '*' :: cs3 =>
      if ignore_text.isPrefixOf (skip_while is_whitespace (split_block_end cs3).1) then true
      else ignore_in_initial_comment_run ignore_text (split_block_end cs3).2
    | _ :: _ => false
  termination_by cs => cs.length
  decreasing_by
  · have h1 := skip_while_length_le is_whitespace (c :: cs)
    rw [hsw] at h1
    have h2 := split_line_snd_length_le cs3
    simp only [List.length_cons] at h1 ⊢
    omega
  · have h1 := skip_while_length_le is_whitespace (c :: cs)
    rw [hsw] at h1
    have h2 := split_block_end_snd_length_le cs3
    simp only [List.length_cons] at h1 ⊢
    omega

/-- The claim C10 as stated, at the level of strings: after the optional
shebang line, the ignore text must head the content of one of the leading
comments. -/
def has_ignore_comment_spec (file_text ignore_text : String) : Bool :=
  ignore_in_initial_comment_run ignore_text.data (post_shebang_chars file_text)

/-- The category and situational values pre-extracted before the field
extractions (src lines 49-65), together with the derived granular and
single-line fallbacks (src lines 57-59). -/
structure PreValues where
  semi_colons : SemiColons
  brace_position : BracePosition
  next_control_flow_position : NextControlFlowPosition
  operator_position : OperatorPosition
  single_body_position : SameOrNextLinePosition
  trailing_commas : TrailingCommas
  use_braces : UseBraces
  prefer_hanging : Bool
  prefer_hanging_granular : PreferHanging
  prefer_single_line_nullable : Option Bool
  prefer_single_line : Bool
  space_surrounding_properties : Bool
  type_literal_separator_kind : SemiColonOrComma
  quote_style : QuoteStyle
  quote_props : QuoteProps
  space_around : Bool
  jsx_bracket_position : SameOrNextLinePosition

set_option maxRecDepth 4096 in
/-- The opening passes of `resolve_config` (src lines 31-65): preset flag
extraction and expansion, deprecation redirects, and the category and
situational pre-extractions, in source order. -/
def resolve_pre (config : ConfigKeyMap) (diagnostics : List ConfigurationDiagnostic) :
    PreValues × ConfigKeyMap × List ConfigurationDiagnostic :=
  let (deno, config, diagnostics) := get_value parse_bool config "deno" false diagnostics
  let config := if deno then fill_deno_config config else config
  let (config, diagnostics) := handle_renamed_config_property config
    "jsxElement.spaceBeforeSelfClosingTagSlash" "jsxSelfClosingElement.spaceBeforeSlash" diagnostics
  let (config, diagnostics) := handle_renamed_config_property config
    "jsx.spaceBeforeSelfClosingTagSlash" "jsxSelfClosingElement.spaceBeforeSlash" diagnostics
  let (semi_colons, config, diagnostics) := get_value parse_semi_colons config "semiColons" SemiColons.Prefer diagnostics
  let (brace_position, config, diagnostics) := get_value parse_brace_position config "bracePosition" BracePosition.SameLineUnlessHanging diagnostics
  let (next_control_flow_position, config, diagnostics) := get_value parse_next_control_flow_position config "nextControlFlowPosition" NextControlFlowPosition.SameLine diagnostics
  let (operator_position, config, diagnostics) := get_value parse_operator_position config "operatorPosition" OperatorPosition.NextLine diagnostics
  let (single_body_position, config, diagnostics) := get_value parse_same_or_next_line_position config "singleBodyPosition" SameOrNextLinePosition.Maintain diagnostics
  let (trailing_commas, config, diagnostics) := get_value parse_trailing_commas config "trailingCommas" TrailingCommas.OnlyMultiLine diagnostics
  let (use_braces, config, diagnostics) := get_value parse_use_braces config "useBraces" UseBraces.WhenNotSingleLine diagnostics
  let (prefer_hanging, config, diagnostics) := get_value parse_bool config "preferHanging" false diagnostics
  let prefer_hanging_granular := if prefer_hanging then PreferHanging.Always else PreferHanging.Never
  let (prefer_single_line_nullable, config, diagnostics) := get_nullable_value parse_bool config "preferSingleLine" diagnostics
  let prefer_single_line := prefer_single_line_nullable.getD false
  let (space_surrounding_properties, config, diagnostics) := get_value parse_bool config "spaceSurroundingProperties" true diagnostics
  let (type_literal_separator_kind, config, diagnostics) := get_value parse_semi_colon_or_comma config "typeLiteral.separatorKind" SemiColonOrComma.SemiColon diagnostics
  let (quote_style, config, diagnostics) := get_value parse_quote_style config "quoteStyle" QuoteStyle.AlwaysDouble diagnostics
  let (quote_props, config, diagnostics) := get_value parse_quote_props config "quoteProps" QuoteProps.Preserve diagnostics
  let (space_around, config, diagnostics) := get_value parse_bool config "spaceAround" false diagnostics
  let (jsx_bracket_position, config, diagnostics) := get_value parse_same_or_next_line_position config "jsx.bracketPosition" SameOrNextLinePosition.NextLine diagnostics
  ({ semi_colons, brace_position, next_control_flow_position, operator_position,
     single_body_position, trailing_commas, use_braces, prefer_hanging,
     prefer_hanging_granular, prefer_single_line_nullable, prefer_single_line,
     space_surrounding_properties, type_literal_separator_kind, quote_style,
     quote_props, space_around, jsx_bracket_position }, config, diagnostics)

set_option maxRecDepth 4096 in
/-- The extraction pass for the global, situational, sorting and ignore-comment fields (src lines 68-137), in source order. -/
def resolve_part1 (pre : PreValues) (global_config : GlobalConfiguration) (config : ConfigKeyMap)
    (diagnostics : List ConfigurationDiagnostic) :
    Part1Values × ConfigKeyMap × List ConfigurationDiagnostic :=
  let (line_width, config, diagnostics) := get_value parse_nat config "lineWidth" (global_config.line_width.getD RECOMMENDED_GLOBAL_CONFIGURATION.line_width) diagnostics
  let (use_tabs, config, diagnostics) := get_value parse_bool config "useTabs" (global_config.use_tabs.getD RECOMMENDED_GLOBAL_CONFIGURATION.use_tabs) diagnostics
  let (indent_width, config, diagnostics) := get_value parse_nat config "indentWidth" (global_config.indent_width.getD RECOMMENDED_GLOBAL_CONFIGURATION.indent_width) diagnostics
  let (new_line_kind, config, diagnostics) := get_value parse_new_line_kind config "newLineKind" (global_config.new_line_kind.getD RECOMMENDED_GLOBAL_CONFIGURATION.new_line_kind) diagnostics
  let (file_indent_level, config, diagnostics) := get_value parse_nat config "fileIndentLevel" 0 diagnostics
  let (arrow_function_use_parentheses, config, diagnostics) := get_value parse_use_parentheses config "arrowFunction.useParentheses" UseParentheses.Maintain diagnostics
  let (binary_expression_line_per_expression, config, diagnostics) := get_value parse_bool config "binaryExpression.linePerExpression" false diagnostics
  let (conditional_expression_line_per_expression, config, diagnostics) := get_value parse_bool config "conditionalExpression.linePerExpression" true diagnostics
  let (jsx_quote_style, config, diagnostics) := get_value parse_jsx_quote_style config "jsx.quoteStyle" pre.quote_style.to_jsx_quote_style diagnostics
  let (jsx_multi_line_parens, config, diagnostics) := get_value parse_jsx_multi_line_parens config "jsx.multiLineParens" JsxMultiLineParens.Prefer diagnostics
  let (jsx_force_new_lines_surrounding_content, config, diagnostics) := get_value parse_bool config "jsx.forceNewLinesSurroundingContent" false diagnostics
  let (jsx_opening_element_bracket_position, config, diagnostics) := get_value parse_same_or_next_line_position config "jsxOpeningElement.bracketPosition" pre.jsx_bracket_position diagnostics
  let (jsx_self_closing_element_bracket_position, config, diagnostics) := get_value parse_same_or_next_line_position config "jsxSelfClosingElement.bracketPosition" pre.jsx_bracket_position diagnostics
  let (member_expression_line_per_expression, config, diagnostics) := get_value parse_bool config "memberExpression.linePerExpression" false diagnostics
  let (type_literal_separator_kind_single_line, config, diagnostics) := get_value parse_semi_colon_or_comma config "typeLiteral.separatorKind.singleLine" pre.type_literal_separator_kind diagnostics
  let (type_literal_separator_kind_multi_line, config, diagnostics) := get_value parse_semi_colon_or_comma config "typeLiteral.separatorKind.multiLine" pre.type_literal_separator_kind diagnostics
  let (module_sort_import_declarations, config, diagnostics) := get_value parse_sort_order config "module.sortImportDeclarations" SortOrder.CaseInsensitive diagnostics
  let (module_sort_export_declarations, config, diagnostics) := get_value parse_sort_order config "module.sortExportDeclarations" SortOrder.CaseInsensitive diagnostics
  let (import_declaration_sort_named_imports, config, diagnostics) := get_value parse_sort_order config "importDeclaration.sortNamedImports" SortOrder.CaseInsensitive diagnostics
  let (export_declaration_sort_named_exports, config, diagnostics) := get_value parse_sort_order config "exportDeclaration.sortNamedExports" SortOrder.CaseInsensitive diagnostics
  let (import_declaration_sort_type_only_imports, config, diagnostics) := get_value parse_named_type_imports_exports_order config "importDeclaration.sortTypeOnlyImports" NamedTypeImportsExportsOrder.None diagnostics
  let (export_declaration_sort_type_only_exports, config, diagnostics) := get_value parse_named_type_imports_exports_order config "exportDeclaration.sortTypeOnlyExports" NamedTypeImportsExportsOrder.None diagnostics
  let (ignore_node_comment_text, config, diagnostics) := get_value parse_string config "ignoreNodeCommentText" "dprint-ignore" diagnostics
  let (ignore_file_comment_text, config, diagnostics) := get_value parse_string config "ignoreFileCommentText" "dprint-ignore-file" diagnostics
  ({ line_width, use_tabs, indent_width, new_line_kind, file_indent_level, arrow_function_use_parentheses, binary_expression_line_per_expression, conditional_expression_line_per_expression, jsx_quote_style, jsx_multi_line_parens, jsx_force_new_lines_surrounding_content, jsx_opening_element_bracket_position, jsx_self_closing_element_bracket_position, member_expression_line_per_expression, type_literal_separator_kind_single_line, type_literal_separator_kind_multi_line, module_sort_import_declarations, module_sort_export_declarations, import_declaration_sort_named_imports, export_declaration_sort_named_exports, import_declaration_sort_type_only_imports, export_declaration_sort_type_only_exports, ignore_node_comment_text, ignore_file_comment_text }, config, diagnostics)

set_option maxRecDepth 4096 in
/-- The extraction pass for the brace position fields (src lines 138-160), in source order. -/
def resolve_part2 (pre : PreValues) (config : ConfigKeyMap)
    (diagnostics : List ConfigurationDiagnostic) :
    Part2Values × ConfigKeyMap × List ConfigurationDiagnostic :=
  let (arrow_function_brace_position, config, diagnostics) := get_value parse_brace_position config "arrowFunction.bracePosition" pre.brace_position diagnostics
  let (class_declaration_brace_position, config, diagnostics) := get_value parse_brace_position config "classDeclaration.bracePosition" pre.brace_position diagnostics
  let (class_expression_brace_position, config, diagnostics) := get_value parse_brace_position config "classExpression.bracePosition" pre.brace_position diagnostics
  let (constructor_brace_position, config, diagnostics) := get_value parse_brace_position config "constructor.bracePosition" pre.brace_position diagnostics
  let (do_while_statement_brace_position, config, diagnostics) := get_value parse_brace_position config "doWhileStatement.bracePosition" pre.brace_position diagnostics
  let (enum_declaration_brace_position, config, diagnostics) := get_value parse_brace_position config "enumDeclaration.bracePosition" pre.brace_position diagnostics
  let (for_statement_brace_position, config, diagnostics) := get_value parse_brace_position config "forStatement.bracePosition" pre.brace_position diagnostics
  let (for_in_statement_brace_position, config, diagnostics) := get_value parse_brace_position config "forInStatement.bracePosition" pre.brace_position diagnostics
  let (for_of_statement_brace_position, config, diagnostics) := get_value parse_brace_position config "forOfStatement.bracePosition" pre.brace_position diagnostics
  let (get_accessor_brace_position, config, diagnostics) := get_value parse_brace_position config "getAccessor.bracePosition" pre.brace_position diagnostics
  let (if_statement_brace_position, config, diagnostics) := get_value parse_brace_position config "ifStatement.bracePosition" pre.brace_position diagnostics
  let (interface_declaration_brace_position, config, diagnostics) := get_value parse_brace_position config "interfaceDeclaration.bracePosition" pre.brace_position diagnostics
  let (function_declaration_brace_position, config, diagnostics) := get_value parse_brace_position config "functionDeclaration.bracePosition" pre.brace_position diagnostics
  let (function_expression_brace_position, config, diagnostics) := get_value parse_brace_position config "functionExpression.bracePosition" pre.brace_position diagnostics
  let (method_brace_position, config, diagnostics) := get_value parse_brace_position config "method.bracePosition" pre.brace_position diagnostics
  let (module_declaration_brace_position, config, diagnostics) := get_value parse_brace_position config "moduleDeclaration.bracePosition" pre.brace_position diagnostics
  let (set_accessor_brace_position, config, diagnostics) := get_value parse_brace_position config "setAccessor.bracePosition" pre.brace_position diagnostics
  let (static_block_brace_position, config, diagnostics) := get_value parse_brace_position config "staticBlock.bracePosition" pre.brace_position diagnostics
  let (switch_case_brace_position, config, diagnostics) := get_value parse_brace_position config "switchCase.bracePosition" pre.brace_position diagnostics
  let (switch_statement_brace_position, config, diagnostics) := get_value parse_brace_position config "switchStatement.bracePosition" pre.brace_position diagnostics
  let (try_statement_brace_position, config, diagnostics) := get_value parse_brace_position config "tryStatement.bracePosition" pre.brace_position diagnostics
  let (while_statement_brace_position, config, diagnostics) := get_value parse_brace_position config "whileStatement.bracePosition" pre.brace_position diagnostics
  ({ arrow_function_brace_position, class_declaration_brace_position, class_expression_brace_position, constructor_brace_position, do_while_statement_brace_position, enum_declaration_brace_position, for_statement_brace_position, for_in_statement_brace_position, for_of_statement_brace_position, get_accessor_brace_position, if_statement_brace_position, interface_declaration_brace_position, function_declaration_brace_position, function_expression_brace_position, method_brace_position, module_declaration_brace_position, set_accessor_brace_position, static_block_brace_position, switch_case_brace_position, switch_statement_brace_position, try_statement_brace_position, while_statement_brace_position }, config, diagnostics)

set_option maxRecDepth 4096 in
/-- The extraction pass for the prefer hanging fields (src lines 161-185), in source order. -/
def resolve_part3 (pre : PreValues) (config : ConfigKeyMap)
    (diagnostics : List ConfigurationDiagnostic) :
    Part3Values × ConfigKeyMap × List ConfigurationDiagnostic :=
  let (arguments_prefer_hanging, config, diagnostics) := get_value parse_prefer_hanging config "arguments.preferHanging" pre.prefer_hanging_granular diagnostics
  let (array_expression_prefer_hanging, config, diagnostics) := get_value parse_prefer_hanging config "arrayExpression.preferHanging" pre.prefer_hanging_granular diagnostics
  let (array_pattern_prefer_hanging, config, diagnostics) := get_value parse_bool config "arrayPattern.preferHanging" pre.prefer_hanging diagnostics
  let (do_while_statement_prefer_hanging, config, diagnostics) := get_value parse_bool config "doWhileStatement.preferHanging" pre.prefer_hanging diagnostics
  let (export_declaration_prefer_hanging, config, diagnostics) := get_value parse_bool config "exportDeclaration.preferHanging" pre.prefer_hanging diagnostics
  let (extends_clause_prefer_hanging, config, diagnostics) := get_value parse_bool config "extendsClause.preferHanging" pre.prefer_hanging diagnostics
  let (for_in_statement_prefer_hanging, config, diagnostics) := get_value parse_bool config "forInStatement.preferHanging" pre.prefer_hanging diagnostics
  let (for_of_statement_prefer_hanging, config, diagnostics) := get_value parse_bool config "forOfStatement.preferHanging" pre.prefer_hanging diagnostics
  let (for_statement_prefer_hanging, config, diagnostics) := get_value parse_bool config "forStatement.preferHanging" pre.prefer_hanging diagnostics
  let (if_statement_prefer_hanging, config, diagnostics) := get_value parse_bool config "ifStatement.preferHanging" pre.prefer_hanging diagnostics
  let (implements_clause_prefer_hanging, config, diagnostics) := get_value parse_bool config "implementsClause.preferHanging" pre.prefer_hanging diagnostics
  let (import_declaration_prefer_hanging, config, diagnostics) := get_value parse_bool config "importDeclaration.preferHanging" pre.prefer_hanging diagnostics
  let (jsx_attributes_prefer_hanging, config, diagnostics) := get_value parse_bool config "jsxAttributes.preferHanging" pre.prefer_hanging diagnostics
  let (object_expression_prefer_hanging, config, diagnostics) := get_value parse_bool config "objectExpression.preferHanging" pre.prefer_hanging diagnostics
  let (object_pattern_prefer_hanging, config, diagnostics) := get_value parse_bool config "objectPattern.preferHanging" pre.prefer_hanging diagnostics
  let (parameters_prefer_hanging, config, diagnostics) := get_value parse_prefer_hanging config "parameters.preferHanging" pre.prefer_hanging_granular diagnostics
  let (sequence_expression_prefer_hanging, config, diagnostics) := get_value parse_bool config "sequenceExpression.preferHanging" pre.prefer_hanging diagnostics
  let (switch_statement_prefer_hanging, config, diagnostics) := get_value parse_bool config "switchStatement.preferHanging" pre.prefer_hanging diagnostics
  let (tuple_type_prefer_hanging, config, diagnostics) := get_value parse_prefer_hanging config "tupleType.preferHanging" pre.prefer_hanging_granular diagnostics
  let (type_literal_prefer_hanging, config, diagnostics) := get_value parse_bool config "typeLiteral.preferHanging" pre.prefer_hanging diagnostics
  let (type_parameters_prefer_hanging, config, diagnostics) := get_value parse_prefer_hanging config "typeParameters.preferHanging" pre.prefer_hanging_granular diagnostics
  let (union_and_intersection_type_prefer_hanging, config, diagnostics) := get_value parse_bool config "unionAndIntersectionType.preferHanging" pre.prefer_hanging diagnostics
  let (variable_statement_prefer_hanging, config, diagnostics) := get_value parse_bool config "variableStatement.preferHanging" pre.prefer_hanging diagnostics
  let (while_statement_prefer_hanging, config, diagnostics) := get_value parse_bool config "whileStatement.preferHanging" pre.prefer_hanging diagnostics
  ({ arguments_prefer_hanging, array_expression_prefer_hanging, array_pattern_prefer_hanging, do_while_statement_prefer_hanging, export_declaration_prefer_hanging, extends_clause_prefer_hanging, for_in_statement_prefer_hanging, for_of_statement_prefer_hanging, for_statement_prefer_hanging, if_statement_prefer_hanging, implements_clause_prefer_hanging, import_declaration_prefer_hanging, jsx_attributes_prefer_hanging, object_expression_prefer_hanging, object_pattern_prefer_hanging, parameters_prefer_hanging, sequence_expression_prefer_hanging, switch_statement_prefer_hanging, tuple_type_prefer_hanging, type_literal_prefer_hanging, type_parameters_prefer_hanging, union_and_intersection_type_prefer_hanging, variable_statement_prefer_hanging, while_statement_prefer_hanging }, config, diagnostics)

set_option maxRecDepth 4096 in
/-- The extraction pass for the member spacing, control-flow/operator/body position, trailing comma and use-braces fields (src lines 186-230), in source order. -/
def resolve_part4 (pre : PreValues) (config : ConfigKeyMap)
    (diagnostics : List ConfigurationDiagnostic) :
    Part4Values × ConfigKeyMap × List ConfigurationDiagnostic :=
  let (enum_declaration_member_spacing, config, diagnostics) := get_value parse_member_spacing config "enumDeclaration.memberSpacing" MemberSpacing.Maintain diagnostics
  let (if_statement_next_control_flow_position, config, diagnostics) := get_value parse_next_control_flow_position config "ifStatement.nextControlFlowPosition" pre.next_control_flow_position diagnostics
  let (try_statement_next_control_flow_position, config, diagnostics) := get_value parse_next_control_flow_position config "tryStatement.nextControlFlowPosition" pre.next_control_flow_position diagnostics
  let (do_while_statement_next_control_flow_position, config, diagnostics) := get_value parse_next_control_flow_position config "doWhileStatement.nextControlFlowPosition" pre.next_control_flow_position diagnostics
  let (binary_expression_operator_position, config, diagnostics) := get_value parse_operator_position config "binaryExpression.operatorPosition" pre.operator_position diagnostics
  let (conditional_expression_operator_position, config, diagnostics) := get_value parse_operator_position config "conditionalExpression.operatorPosition" pre.operator_position diagnostics
  let (conditional_type_operator_position, config, diagnostics) := get_value parse_operator_position config "conditionalType.operatorPosition" pre.operator_position diagnostics
  let (if_statement_single_body_position, config, diagnostics) := get_value parse_same_or_next_line_position config "ifStatement.singleBodyPosition" pre.single_body_position diagnostics
  let (for_statement_single_body_position, config, diagnostics) := get_value parse_same_or_next_line_position config "forStatement.singleBodyPosition" pre.single_body_position diagnostics
  let (for_in_statement_single_body_position, config, diagnostics) := get_value parse_same_or_next_line_position config "forInStatement.singleBodyPosition" pre.single_body_position diagnostics
  let (for_of_statement_single_body_position, config, diagnostics) := get_value parse_same_or_next_line_position config "forOfStatement.singleBodyPosition" pre.single_body_position diagnostics
  let (while_statement_single_body_position, config, diagnostics) := get_value parse_same_or_next_line_position config "whileStatement.singleBodyPosition" pre.single_body_position diagnostics
  let (arguments_trailing_commas, config, diagnostics) := get_value parse_trailing_commas config "arguments.trailingCommas" pre.trailing_commas diagnostics
  let (parameters_trailing_commas, config, diagnostics) := get_value parse_trailing_commas config "parameters.trailingCommas" pre.trailing_commas diagnostics
  let (array_expression_trailing_commas, config, diagnostics) := get_value parse_trailing_commas config "arrayExpression.trailingCommas" pre.trailing_commas diagnostics
  let (array_pattern_trailing_commas, config, diagnostics) := get_value parse_trailing_commas config "arrayPattern.trailingCommas" pre.trailing_commas diagnostics
  let (enum_declaration_trailing_commas, config, diagnostics) := get_value parse_trailing_commas config "enumDeclaration.trailingCommas" pre.trailing_commas diagnostics
  let (export_declaration_trailing_commas, config, diagnostics) := get_value parse_trailing_commas config "exportDeclaration.trailingCommas" pre.trailing_commas diagnostics
  let (import_declaration_trailing_commas, config, diagnostics) := get_value parse_trailing_commas config "importDeclaration.trailingCommas" pre.trailing_commas diagnostics
  let (object_expression_trailing_commas, config, diagnostics) := get_value parse_trailing_commas config "objectExpression.trailingCommas" pre.trailing_commas diagnostics
  let (object_pattern_trailing_commas, config, diagnostics) := get_value parse_trailing_commas config "objectPattern.trailingCommas" pre.trailing_commas diagnostics
  let (tuple_type_trailing_commas, config, diagnostics) := get_value parse_trailing_commas config "tupleType.trailingCommas" pre.trailing_commas diagnostics
  let (type_literal_trailing_commas, config, diagnostics) := get_value parse_trailing_commas config "typeLiteral.trailingCommas" pre.trailing_commas diagnostics
  let (type_parameters_trailing_commas, config, diagnostics) := get_value parse_trailing_commas config "typeParameters.trailingCommas" pre.trailing_commas diagnostics
  let (if_statement_use_braces, config, diagnostics) := get_value parse_use_braces config "ifStatement.useBraces" pre.use_braces diagnostics
  let (for_statement_use_braces, config, diagnostics) := get_value parse_use_braces config "forStatement.useBraces" pre.use_braces diagnostics
  let (for_in_statement_use_braces, config, diagnostics) := get_value parse_use_braces config "forInStatement.useBraces" pre.use_braces diagnostics
  let (for_of_statement_use_braces, config, diagnostics) := get_value parse_use_braces config "forOfStatement.useBraces" pre.use_braces diagnostics
  let (while_statement_use_braces, config, diagnostics) := get_value parse_use_braces config "whileStatement.useBraces" pre.use_braces diagnostics
  ({ enum_declaration_member_spacing, if_statement_next_control_flow_position, try_statement_next_control_flow_position, do_while_statement_next_control_flow_position, binary_expression_operator_position, conditional_expression_operator_position, conditional_type_operator_position, if_statement_single_body_position, for_statement_single_body_position, for_in_statement_single_body_position, for_of_statement_single_body_position, while_statement_single_body_position, arguments_trailing_commas, parameters_trailing_commas, array_expression_trailing_commas, array_pattern_trailing_commas, enum_declaration_trailing_commas, export_declaration_trailing_commas, import_declaration_trailing_commas, object_expression_trailing_commas, object_pattern_trailing_commas, tuple_type_trailing_commas, type_literal_trailing_commas, type_parameters_trailing_commas, if_statement_use_braces, for_statement_use_braces, for_in_statement_use_braces, for_of_statement_use_braces, while_statement_use_braces }, config, diagnostics)

set_option maxRecDepth 4096 in
/-- The extraction pass for the prefer/force single line and force multi line fields (src lines 231-271), in source order. -/
def resolve_part5 (pre : PreValues) (config : ConfigKeyMap)
    (diagnostics : List ConfigurationDiagnostic) :
    Part5Values × ConfigKeyMap × List ConfigurationDiagnostic :=
  let (array_expression_prefer_single_line, config, diagnostics) := get_value parse_bool config "arrayExpression.preferSingleLine" pre.prefer_single_line diagnostics
  let (array_pattern_prefer_single_line, config, diagnostics) := get_value parse_bool config "arrayPattern.preferSingleLine" pre.prefer_single_line diagnostics
  let (arguments_prefer_single_line, config, diagnostics) := get_value parse_bool config "arguments.preferSingleLine" pre.prefer_single_line diagnostics
  let (binary_expression_prefer_single_line, config, diagnostics) := get_value parse_bool config "binaryExpression.preferSingleLine" pre.prefer_single_line diagnostics
  let (computed_prefer_single_line, config, diagnostics) := get_value parse_bool config "computed.preferSingleLine" pre.prefer_single_line diagnostics
  let (conditional_expression_prefer_single_line, config, diagnostics) := get_value parse_bool config "conditionalExpression.preferSingleLine" pre.prefer_single_line diagnostics
  let (conditional_type_prefer_single_line, config, diagnostics) := get_value parse_bool config "conditionalType.preferSingleLine" pre.prefer_single_line diagnostics
  let (decorators_prefer_single_line, config, diagnostics) := get_value parse_bool config "decorators.preferSingleLine" pre.prefer_single_line diagnostics
  let (export_declaration_prefer_single_line, config, diagnostics) := get_value parse_bool config "exportDeclaration.preferSingleLine" (pre.prefer_single_line_nullable.getD true) diagnostics
  let (for_statement_prefer_single_line, config, diagnostics) := get_value parse_bool config "forStatement.preferSingleLine" pre.prefer_single_line diagnostics
  let (import_declaration_prefer_single_line, config, diagnostics) := get_value parse_bool config "importDeclaration.preferSingleLine" (pre.prefer_single_line_nullable.getD true) diagnostics
  let (jsx_attributes_prefer_single_line, config, diagnostics) := get_value parse_bool config "jsxAttributes.preferSingleLine" pre.prefer_single_line diagnostics
  let (jsx_element_prefer_single_line, config, diagnostics) := get_value parse_bool config "jsxElement.preferSingleLine" pre.prefer_single_line diagnostics
  let (mapped_type_prefer_single_line, config, diagnostics) := get_value parse_bool config "mappedType.preferSingleLine" pre.prefer_single_line diagnostics
  let (member_expression_prefer_single_line, config, diagnostics) := get_value parse_bool config "memberExpression.preferSingleLine" pre.prefer_single_line diagnostics
  let (object_expression_prefer_single_line, config, diagnostics) := get_value parse_bool config "objectExpression.preferSingleLine" pre.prefer_single_line diagnostics
  let (object_pattern_prefer_single_line, config, diagnostics) := get_value parse_bool config "objectPattern.preferSingleLine" pre.prefer_single_line diagnostics
  let (parameters_prefer_single_line, config, diagnostics) := get_value parse_bool config "parameters.preferSingleLine" pre.prefer_single_line diagnostics
  let (parentheses_prefer_single_line, config, diagnostics) := get_value parse_bool config "parentheses.preferSingleLine" pre.prefer_single_line diagnostics
  let (tuple_type_prefer_single_line, config, diagnostics) := get_value parse_bool config "tupleType.preferSingleLine" pre.prefer_single_line diagnostics
  let (type_literal_prefer_single_line, config, diagnostics) := get_value parse_bool config "typeLiteral.preferSingleLine" pre.prefer_single_line diagnostics
  let (type_parameters_prefer_single_line, config, diagnostics) := get_value parse_bool config "typeParameters.preferSingleLine" pre.prefer_single_line diagnostics
  let (union_and_intersection_type_prefer_single_line, config, diagnostics) := get_value parse_bool config "unionAndIntersectionType.preferSingleLine" pre.prefer_single_line diagnostics
  let (variable_statement_prefer_single_line, config, diagnostics) := get_value parse_bool config "variableStatement.preferSingleLine" pre.prefer_single_line diagnostics
  let (import_declaration_force_single_line, config, diagnostics) := get_value parse_bool config "importDeclaration.forceSingleLine" false diagnostics
  let (export_declaration_force_single_line, config, diagnostics) := get_value parse_bool config "exportDeclaration.forceSingleLine" false diagnostics
  let (import_declaration_force_multi_line, config, diagnostics) := get_value parse_force_multi_line config "importDeclaration.forceMultiLine" ForceMultiLine.Never diagnostics
  let (export_declaration_force_multi_line, config, diagnostics) := get_value parse_force_multi_line config "exportDeclaration.forceMultiLine" ForceMultiLine.Never diagnostics
  ({ array_expression_prefer_single_line, array_pattern_prefer_single_line, arguments_prefer_single_line, binary_expression_prefer_single_line, computed_prefer_single_line, conditional_expression_prefer_single_line, conditional_type_prefer_single_line, decorators_prefer_single_line, export_declaration_prefer_single_line, for_statement_prefer_single_line, import_declaration_prefer_single_line, jsx_attributes_prefer_single_line, jsx_element_prefer_single_line, mapped_type_prefer_single_line, member_expression_prefer_single_line, object_expression_prefer_single_line, object_pattern_prefer_single_line, parameters_prefer_single_line, parentheses_prefer_single_line, tuple_type_prefer_single_line, type_literal_prefer_single_line, type_parameters_prefer_single_line, union_and_intersection_type_prefer_single_line, variable_statement_prefer_single_line, import_declaration_force_single_line, export_declaration_force_single_line, import_declaration_force_multi_line, export_declaration_force_multi_line }, config, diagnostics)

set_option maxRecDepth 4096 in
/-- The extraction pass for the keyword/parenthesis/property spacing fields (src lines 272-321), in source order. -/
def resolve_part6 (pre : PreValues) (config : ConfigKeyMap)
    (diagnostics : List ConfigurationDiagnostic) :
    Part6Values × ConfigKeyMap × List ConfigurationDiagnostic :=
  let (binary_expression_space_surrounding_bitwise_and_arithmetic_operator, config, diagnostics) := get_value parse_bool config "binaryExpression.spaceSurroundingBitwiseAndArithmeticOperator" true diagnostics
  let (comment_line_force_space_after_slashes, config, diagnostics) := get_value parse_bool config "commentLine.forceSpaceAfterSlashes" true diagnostics
  let (construct_signature_space_after_new_keyword, config, diagnostics) := get_value parse_bool config "constructSignature.spaceAfterNewKeyword" false diagnostics
  let (constructor_space_before_parentheses, config, diagnostics) := get_value parse_bool config "constructor.spaceBeforeParentheses" false diagnostics
  let (constructor_type_space_after_new_keyword, config, diagnostics) := get_value parse_bool config "constructorType.spaceAfterNewKeyword" false diagnostics
  let (do_while_statement_space_after_while_keyword, config, diagnostics) := get_value parse_bool config "doWhileStatement.spaceAfterWhileKeyword" true diagnostics
  let (export_declaration_space_surrounding_named_exports, config, diagnostics) := get_value parse_bool config "exportDeclaration.spaceSurroundingNamedExports" true diagnostics
  let (for_statement_space_after_for_keyword, config, diagnostics) := get_value parse_bool config "forStatement.spaceAfterForKeyword" true diagnostics
  let (for_statement_space_after_semi_colons, config, diagnostics) := get_value parse_bool config "forStatement.spaceAfterSemiColons" true diagnostics
  let (for_in_statement_space_after_for_keyword, config, diagnostics) := get_value parse_bool config "forInStatement.spaceAfterForKeyword" true diagnostics
  let (for_of_statement_space_after_for_keyword, config, diagnostics) := get_value parse_bool config "forOfStatement.spaceAfterForKeyword" true diagnostics
  let (function_declaration_space_before_parentheses, config, diagnostics) := get_value parse_bool config "functionDeclaration.spaceBeforeParentheses" false diagnostics
  let (function_expression_space_before_parentheses, config, diagnostics) := get_value parse_bool config "functionExpression.spaceBeforeParentheses" false diagnostics
  let (function_expression_space_after_function_keyword, config, diagnostics) := get_value parse_bool config "functionExpression.spaceAfterFunctionKeyword" false diagnostics
  let (get_accessor_space_before_parentheses, config, diagnostics) := get_value parse_bool config "getAccessor.spaceBeforeParentheses" false diagnostics
  let (if_statement_space_after_if_keyword, config, diagnostics) := get_value parse_bool config "ifStatement.spaceAfterIfKeyword" true diagnostics
  let (import_declaration_space_surrounding_named_imports, config, diagnostics) := get_value parse_bool config "importDeclaration.spaceSurroundingNamedImports" true diagnostics
  let (jsx_expression_container_space_surrounding_expression, config, diagnostics) := get_value parse_bool config "jsxExpressionContainer.spaceSurroundingExpression" false diagnostics
  let (jsx_self_closing_element_space_before_slash, config, diagnostics) := get_value parse_bool config "jsxSelfClosingElement.spaceBeforeSlash" true diagnostics
  let (method_space_before_parentheses, config, diagnostics) := get_value parse_bool config "method.spaceBeforeParentheses" false diagnostics
  let (object_expression_space_surrounding_properties, config, diagnostics) := get_value parse_bool config "objectExpression.spaceSurroundingProperties" pre.space_surrounding_properties diagnostics
  let (object_pattern_space_surrounding_properties, config, diagnostics) := get_value parse_bool config "objectPattern.spaceSurroundingProperties" pre.space_surrounding_properties diagnostics
  let (set_accessor_space_before_parentheses, config, diagnostics) := get_value parse_bool config "setAccessor.spaceBeforeParentheses" false diagnostics
  let (tagged_template_space_before_literal, config, diagnostics) := get_value parse_bool config "taggedTemplate.spaceBeforeLiteral" false diagnostics
  let (type_annotation_space_before_colon, config, diagnostics) := get_value parse_bool config "typeAnnotation.spaceBeforeColon" false diagnostics
  let (type_assertion_space_before_expression, config, diagnostics) := get_value parse_bool config "typeAssertion.spaceBeforeExpression" true diagnostics
  let (type_literal_space_surrounding_properties, config, diagnostics) := get_value parse_bool config "typeLiteral.spaceSurroundingProperties" pre.space_surrounding_properties diagnostics
  let (while_statement_space_after_while_keyword, config, diagnostics) := get_value parse_bool config "whileStatement.spaceAfterWhileKeyword" true diagnostics
  ({ binary_expression_space_surrounding_bitwise_and_arithmetic_operator, comment_line_force_space_after_slashes, construct_signature_space_after_new_keyword, constructor_space_before_parentheses, constructor_type_space_after_new_keyword, do_while_statement_space_after_while_keyword, export_declaration_space_surrounding_named_exports, for_statement_space_after_for_keyword, for_statement_space_after_semi_colons, for_in_statement_space_after_for_keyword, for_of_statement_space_after_for_keyword, function_declaration_space_before_parentheses, function_expression_space_before_parentheses, function_expression_space_after_function_keyword, get_accessor_space_before_parentheses, if_statement_space_after_if_keyword, import_declaration_space_surrounding_named_imports, jsx_expression_container_space_surrounding_expression, jsx_self_closing_element_space_before_slash, method_space_before_parentheses, object_expression_space_surrounding_properties, object_pattern_space_surrounding_properties, set_accessor_space_before_parentheses, tagged_template_space_before_literal, type_annotation_space_before_colon, type_assertion_space_before_expression, type_literal_space_surrounding_properties, while_statement_space_after_while_keyword }, config, diagnostics)

set_option maxRecDepth 4096 in
/-- The extraction pass for the space-around fields (src lines 322-335), in source order. -/
def resolve_part7 (pre : PreValues) (config : ConfigKeyMap)
    (diagnostics : List ConfigurationDiagnostic) :
    Part7Values × ConfigKeyMap × List ConfigurationDiagnostic :=
  let (arguments_space_around, config, diagnostics) := get_value parse_bool config "arguments.spaceAround" pre.space_around diagnostics
  let (array_expression_space_around, config, diagnostics) := get_value parse_bool config "arrayExpression.spaceAround" pre.space_around diagnostics
  let (array_pattern_space_around, config, diagnostics) := get_value parse_bool config "arrayPattern.spaceAround" pre.space_around diagnostics
  let (catch_clause_space_around, config, diagnostics) := get_value parse_bool config "catchClause.spaceAround" pre.space_around diagnostics
  let (do_while_statement_space_around, config, diagnostics) := get_value parse_bool config "doWhileStatement.spaceAround" pre.space_around diagnostics
  let (for_in_statement_space_around, config, diagnostics) := get_value parse_bool config "forInStatement.spaceAround" pre.space_around diagnostics
  let (for_of_statement_space_around, config, diagnostics) := get_value parse_bool config "forOfStatement.spaceAround" pre.space_around diagnostics
  let (for_statement_space_around, config, diagnostics) := get_value parse_bool config "forStatement.spaceAround" pre.space_around diagnostics
  let (if_statement_space_around, config, diagnostics) := get_value parse_bool config "ifStatement.spaceAround" pre.space_around diagnostics
  let (parameters_space_around, config, diagnostics) := get_value parse_bool config "parameters.spaceAround" pre.space_around diagnostics
  let (paren_expression_space_around, config, diagnostics) := get_value parse_bool config "parenExpression.spaceAround" pre.space_around diagnostics
  let (switch_statement_space_around, config, diagnostics) := get_value parse_bool config "switchStatement.spaceAround" pre.space_around diagnostics
  let (tuple_type_space_around, config, diagnostics) := get_value parse_bool config "tupleType.spaceAround" pre.space_around diagnostics
  let (while_statement_space_around, config, diagnostics) := get_value parse_bool config "whileStatement.spaceAround" pre.space_around diagnostics
  ({ arguments_space_around, array_expression_space_around, array_pattern_space_around, catch_clause_space_around, do_while_statement_space_around, for_in_statement_space_around, for_of_statement_space_around, for_statement_space_around, if_statement_space_around, parameters_space_around, paren_expression_space_around, switch_statement_space_around, tuple_type_space_around, while_statement_space_around }, config, diagnostics)

set_option maxRecDepth 4096 in
/-- `resolve_config` (src/configuration/resolve_config.rs lines 27-352):
resolves a raw option map against the global configuration.  The extraction
sequence is transcribed in source order, split into passes that follow the
source's comment groups; the unknown-key report and result assembly close the
pipeline (src lines 338-343). -/
def resolve_config (config : ConfigKeyMap) (global_config : GlobalConfiguration) :
    ResolveConfigurationResult :=
  let diagnostics : List ConfigurationDiagnostic := []
  let (pre, config, diagnostics) := resolve_pre config diagnostics
  let (p1, config, diagnostics) := resolve_part1 pre global_config config diagnostics
  let (p2, config, diagnostics) := resolve_part2 pre config diagnostics
  let (p3, config, diagnostics) := resolve_part3 pre config diagnostics
  let (p4, config, diagnostics) := resolve_part4 pre config diagnostics
  let (p5, config, diagnostics) := resolve_part5 pre config diagnostics
  let (p6, config, diagnostics) := resolve_part6 pre config diagnostics
  let (p7, config, diagnostics) := resolve_part7 pre config diagnostics
  let resolved_config : Configuration :=
    { part1 := p1, quote_style := pre.quote_style, quote_props := pre.quote_props,
      semi_colons := pre.semi_colons, part2 := p2, part3 := p3, part4 := p4,
      part5 := p5, part6 := p6,
      space_surrounding_properties := pre.space_surrounding_properties, part7 := p7 }
  let diagnostics := diagnostics ++ get_unknown_property_diagnostics config
  { config := resolved_config, diagnostics := diagnostics }

/- Flat field accessors mirroring the source's flat `Configuration`
struct: one per source field. -/
def Configuration.line_width (c : Configuration) : Nat := c.part1.line_width
def Configuration.use_tabs (c : Configuration) : Bool := c.part1.use_tabs
def Configuration.indent_width (c : Configuration) : Nat := c.part1.indent_width
def Configuration.new_line_kind (c : Configuration) : NewLineKind := c.part1.new_line_kind
def Configuration.file_indent_level (c : Configuration) : Nat := c.part1.file_indent_level
def Configuration.arrow_function_use_parentheses (c : Configuration) : UseParentheses := c.part1.arrow_function_use_parentheses
def Configuration.binary_expression_line_per_expression (c : Configuration) : Bool := c.part1.binary_expression_line_per_expression
def Configuration.conditional_expression_line_per_expression (c : Configuration) : Bool := c.part1.conditional_expression_line_per_expression
def Configuration.jsx_quote_style (c : Configuration) : JsxQuoteStyle := c.part1.jsx_quote_style
def Configuration.jsx_multi_line_parens (c : Configuration) : JsxMultiLineParens := c.part1.jsx_multi_line_parens
def Configuration.jsx_force_new_lines_surrounding_content (c : Configuration) : Bool := c.part1.jsx_force_new_lines_surrounding_content
def Configuration.jsx_opening_element_bracket_position (c : Configuration) : SameOrNextLinePosition := c.part1.jsx_opening_element_bracket_position
def Configuration.jsx_self_closing_element_bracket_position (c : Configuration) : SameOrNextLinePosition := c.part1.jsx_self_closing_element_bracket_position
def Configuration.member_expression_line_per_expression (c : Configuration) : Bool := c.part1.member_expression_line_per_expression
def Configuration.type_literal_separator_kind_single_line (c : Configuration) : SemiColonOrComma := c.part1.type_literal_separator_kind_single_line
def Configuration.type_literal_separator_kind_multi_line (c : Configuration) : SemiColonOrComma := c.part1.type_literal_separator_kind_multi_line
def Configuration.module_sort_import_declarations (c : Configuration) : SortOrder := c.part1.module_sort_import_declarations
def Configuration.module_sort_export_declarations (c : Configuration) : SortOrder := c.part1.module_sort_export_declarations
def Configuration.import_declaration_sort_named_imports (c : Configuration) : SortOrder := c.part1.import_declaration_sort_named_imports
def Configuration.export_declaration_sort_named_exports (c : Configuration) : SortOrder := c.part1.export_declaration_sort_named_exports
def Configuration.import_declaration_sort_type_only_imports (c : Configuration) : NamedTypeImportsExportsOrder := c.part1.import_declaration_sort_type_only_imports
def Configuration.export_declaration_sort_type_only_exports (c : Configuration) : NamedTypeImportsExportsOrder := c.part1.export_declaration_sort_type_only_exports
def Configuration.ignore_node_comment_text (c : Configuration) : String := c.part1.ignore_node_comment_text
def Configuration.ignore_file_comment_text (c : Configuration) : String := c.part1.ignore_file_comment_text
def Configuration.arrow_function_brace_position (c : Configuration) : BracePosition := c.part2.arrow_function_brace_position
def Configuration.class_declaration_brace_position (c : Configuration) : BracePosition := c.part2.class_declaration_brace_position
def Configuration.class_expression_brace_position (c : Configuration) : BracePosition := c.part2.class_expression_brace_position
def Configuration.constructor_brace_position (c : Configuration) : BracePosition := c.part2.constructor_brace_position
def Configuration.do_while_statement_brace_position (c : Configuration) : BracePosition := c.part2.do_while_statement_brace_position
def Configuration.enum_declaration_brace_position (c : Configuration) : BracePosition := c.part2.enum_declaration_brace_position
def Configuration.for_statement_brace_position (c : Configuration) : BracePosition := c.part2.for_statement_brace_position
def Configuration.for_in_statement_brace_position (c : Configuration) : BracePosition := c.part2.for_in_statement_brace_position
def Configuration.for_of_statement_brace_position (c : Configuration) : BracePosition := c.part2.for_of_statement_brace_position
def Configuration.get_accessor_brace_position (c : Configuration) : BracePosition := c.part2.get_accessor_brace_position
def Configuration.if_statement_brace_position (c : Configuration) : BracePosition := c.part2.if_statement_brace_position
def Configuration.interface_declaration_brace_position (c : Configuration) : BracePosition := c.part2.interface_declaration_brace_position
def Configuration.function_declaration_brace_position (c : Configuration) : BracePosition := c.part2.function_declaration_brace_position
def Configuration.function_expression_brace_position (c : Configuration) : BracePosition := c.part2.function_expression_brace_position
def Configuration.method_brace_position (c : Configuration) : BracePosition := c.part2.method_brace_position
def Configuration.module_declaration_brace_position (c : Configuration) : BracePosition := c.part2.module_declaration_brace_position
def Configuration.set_accessor_brace_position (c : Configuration) : BracePosition := c.part2.set_accessor_brace_position
def Configuration.static_block_brace_position (c : Configuration) : BracePosition := c.part2.static_block_brace_position
def Configuration.switch_case_brace_position (c : Configuration) : BracePosition := c.part2.switch_case_brace_position
def Configuration.switch_statement_brace_position (c : Configuration) : BracePosition := c.part2.switch_statement_brace_position
def Configuration.try_statement_brace_position (c : Configuration) : BracePosition := c.part2.try_statement_brace_position
def Configuration.while_statement_brace_position (c : Configuration) : BracePosition := c.part2.while_statement_brace_position
def Configuration.arguments_prefer_hanging (c : Configuration) : PreferHanging := c.part3.arguments_prefer_hanging
def Configuration.array_expression_prefer_hanging (c : Configuration) : PreferHanging := c.part3.array_expression_prefer_hanging
def Configuration.array_pattern_prefer_hanging (c : Configuration) : Bool := c.part3.array_pattern_prefer_hanging
def Configuration.do_while_statement_prefer_hanging (c : Configuration) : Bool := c.part3.do_while_statement_prefer_hanging
def Configuration.export_declaration_prefer_hanging (c : Configuration) : Bool := c.part3.export_declaration_prefer_hanging
def Configuration.extends_clause_prefer_hanging (c : Configuration) : Bool := c.part3.extends_clause_prefer_hanging
def Configuration.for_in_statement_prefer_hanging (c : Configuration) : Bool := c.part3.for_in_statement_prefer_hanging
def Configuration.for_of_statement_prefer_hanging (c : Configuration) : Bool := c.part3.for_of_statement_prefer_hanging
def Configuration.for_statement_prefer_hanging (c : Configuration) : Bool := c.part3.for_statement_prefer_hanging
def Configuration.if_statement_prefer_hanging (c : Configuration) : Bool := c.part3.if_statement_prefer_hanging
def Configuration.implements_clause_prefer_hanging (c : Configuration) : Bool := c.part3.implements_clause_prefer_hanging
def Configuration.import_declaration_prefer_hanging (c : Configuration) : Bool := c.part3.import_declaration_prefer_hanging
def Configuration.jsx_attributes_prefer_hanging (c : Configuration) : Bool := c.part3.jsx_attributes_prefer_hanging
def Configuration.object_expression_prefer_hanging (c : Configuration) : Bool := c.part3.object_expression_prefer_hanging
def Configuration.object_pattern_prefer_hanging (c : Configuration) : Bool := c.part3.object_pattern_prefer_hanging
def Configuration.parameters_prefer_hanging (c : Configuration) : PreferHanging := c.part3.parameters_prefer_hanging
def Configuration.sequence_expression_prefer_hanging (c : Configuration) : Bool := c.part3.sequence_expression_prefer_hanging
def Configuration.switch_statement_prefer_hanging (c : Configuration) : Bool := c.part3.switch_statement_prefer_hanging
def Configuration.tuple_type_prefer_hanging (c : Configuration) : PreferHanging := c.part3.tuple_type_prefer_hanging
def Configuration.type_literal_prefer_hanging (c : Configuration) : Bool := c.part3.type_literal_prefer_hanging
def Configuration.type_parameters_prefer_hanging (c : Configuration) : PreferHanging := c.part3.type_parameters_prefer_hanging
def Configuration.union_and_intersection_type_prefer_hanging (c : Configuration) : Bool := c.part3.union_and_intersection_type_prefer_hanging
def Configuration.variable_statement_prefer_hanging (c : Configuration) : Bool := c.part3.variable_statement_prefer_hanging
def Configuration.while_statement_prefer_hanging (c : Configuration) : Bool := c.part3.while_statement_prefer_hanging
def Configuration.enum_declaration_member_spacing (c : Configuration) : MemberSpacing := c.part4.enum_declaration_member_spacing
def Configuration.if_statement_next_control_flow_position (c : Configuration) : NextControlFlowPosition := c.part4.if_statement_next_control_flow_position
def Configuration.try_statement_next_control_flow_position (c : Configuration) : NextControlFlowPosition := c.part4.try_statement_next_control_flow_position
def Configuration.do_while_statement_next_control_flow_position (c : Configuration) : NextControlFlowPosition := c.part4.do_while_statement_next_control_flow_position
def Configuration.binary_expression_operator_position (c : Configuration) : OperatorPosition := c.part4.binary_expression_operator_position
def Configuration.conditional_expression_operator_position (c : Configuration) : OperatorPosition := c.part4.conditional_expression_operator_position
def Configuration.conditional_type_operator_position (c : Configuration) : OperatorPosition := c.part4.conditional_type_operator_position
def Configuration.if_statement_single_body_position (c : Configuration) : SameOrNextLinePosition := c.part4.if_statement_single_body_position
def Configuration.for_statement_single_body_position (c : Configuration) : SameOrNextLinePosition := c.part4.for_statement_single_body_position
def Configuration.for_in_statement_single_body_position (c : Configuration) : SameOrNextLinePosition := c.part4.for_in_statement_single_body_position
def Configuration.for_of_statement_single_body_position (c : Configuration) : SameOrNextLinePosition := c.part4.for_of_statement_single_body_position
def Configuration.while_statement_single_body_position (c : Configuration) : SameOrNextLinePosition := c.part4.while_statement_single_body_position
def Configuration.arguments_trailing_commas (c : Configuration) : TrailingCommas := c.part4.arguments_trailing_commas
def Configuration.parameters_trailing_commas (c : Configuration) : TrailingCommas := c.part4.parameters_trailing_commas
def Configuration.array_expression_trailing_commas (c : Configuration) : TrailingCommas := c.part4.array_expression_trailing_commas
def Configuration.array_pattern_trailing_commas (c : Configuration) : TrailingCommas := c.part4.array_pattern_trailing_commas
def Configuration.enum_declaration_trailing_commas (c : Configuration) : TrailingCommas := c.part4.enum_declaration_trailing_commas
def Configuration.export_declaration_trailing_commas (c : Configuration) : TrailingCommas := c.part4.export_declaration_trailing_commas
def Configuration.import_declaration_trailing_commas (c : Configuration) : TrailingCommas := c.part4.import_declaration_trailing_commas
def Configuration.object_expression_trailing_commas (c : Configuration) : TrailingCommas := c.part4.object_expression_trailing_commas
def Configuration.object_pattern_trailing_commas (c : Configuration) : TrailingCommas := c.part4.object_pattern_trailing_commas
def Configuration.tuple_type_trailing_commas (c : Configuration) : TrailingCommas := c.part4.tuple_type_trailing_commas
def Configuration.type_literal_trailing_commas (c : Configuration) : TrailingCommas := c.part4.type_literal_trailing_commas
def Configuration.type_parameters_trailing_commas (c : Configuration) : TrailingCommas := c.part4.type_parameters_trailing_commas
def Configuration.if_statement_use_braces (c : Configuration) : UseBraces := c.part4.if_statement_use_braces
def Configuration.for_statement_use_braces (c : Configuration) : UseBraces := c.part4.for_statement_use_braces
def Configuration.for_in_statement_use_braces (c : Configuration) : UseBraces := c.part4.for_in_statement_use_braces
def Configuration.for_of_statement_use_braces (c : Configuration) : UseBraces := c.part4.for_of_statement_use_braces
def Configuration.while_statement_use_braces (c : Configuration) : UseBraces := c.part4.while_statement_use_braces
def Configuration.array_expression_prefer_single_line (c : Configuration) : Bool := c.part5.array_expression_prefer_single_line
def Configuration.array_pattern_prefer_single_line (c : Configuration) : Bool := c.part5.array_pattern_prefer_single_line
def Configuration.arguments_prefer_single_line (c : Configuration) : Bool := c.part5.arguments_prefer_single_line
def Configuration.binary_expression_prefer_single_line (c : Configuration) : Bool := c.part5.binary_expression_prefer_single_line
def Configuration.computed_prefer_single_line (c : Configuration) : Bool := c.part5.computed_prefer_single_line
def Configuration.conditional_expression_prefer_single_line (c : Configuration) : Bool := c.part5.conditional_expression_prefer_single_line
def Configuration.conditional_type_prefer_single_line (c : Configuration) : Bool := c.part5.conditional_type_prefer_single_line
def Configuration.decorators_prefer_single_line (c : Configuration) : Bool := c.part5.decorators_prefer_single_line
def Configuration.export_declaration_prefer_single_line (c : Configuration) : Bool := c.part5.export_declaration_prefer_single_line
def Configuration.for_statement_prefer_single_line (c : Configuration) : Bool := c.part5.for_statement_prefer_single_line
def Configuration.import_declaration_prefer_single_line (c : Configuration) : Bool := c.part5.import_declaration_prefer_single_line
def Configuration.jsx_attributes_prefer_single_line (c : Configuration) : Bool := c.part5.jsx_attributes_prefer_single_line
def Configuration.jsx_element_prefer_single_line (c : Configuration) : Bool := c.part5.jsx_element_prefer_single_line
def Configuration.mapped_type_prefer_single_line (c : Configuration) : Bool := c.part5.mapped_type_prefer_single_line
def Configuration.member_expression_prefer_single_line (c : Configuration) : Bool := c.part5.member_expression_prefer_single_line
def Configuration.object_expression_prefer_single_line (c : Configuration) : Bool := c.part5.object_expression_prefer_single_line
def Configuration.object_pattern_prefer_single_line (c : Configuration) : Bool := c.part5.object_pattern_prefer_single_line
def Configuration.parameters_prefer_single_line (c : Configuration) : Bool := c.part5.parameters_prefer_single_line
def Configuration.parentheses_prefer_single_line (c : Configuration) : Bool := c.part5.parentheses_prefer_single_line
def Configuration.tuple_type_prefer_single_line (c : Configuration) : Bool := c.part5.tuple_type_prefer_single_line
def Configuration.type_literal_prefer_single_line (c : Configuration) : Bool := c.part5.type_literal_prefer_single_line
def Configuration.type_parameters_prefer_single_line (c : Configuration) : Bool := c.part5.type_parameters_prefer_single_line
def Configuration.union_and_intersection_type_prefer_single_line (c : Configuration) : Bool := c.part5.union_and_intersection_type_prefer_single_line
def Configuration.variable_statement_prefer_single_line (c : Configuration) : Bool := c.part5.variable_statement_prefer_single_line
def Configuration.import_declaration_force_single_line (c : Configuration) : Bool := c.part5.import_declaration_force_single_line
def Configuration.export_declaration_force_single_line (c : Configuration) : Bool := c.part5.export_declaration_force_single_line
def Configuration.import_declaration_force_multi_line (c : Configuration) : ForceMultiLine := c.part5.import_declaration_force_multi_line
def Configuration.export_declaration_force_multi_line (c : Configuration) : ForceMultiLine := c.part5.export_declaration_force_multi_line
def Configuration.binary_expression_space_surrounding_bitwise_and_arithmetic_operator (c : Configuration) : Bool := c.part6.binary_expression_space_surrounding_bitwise_and_arithmetic_operator
def Configuration.comment_line_force_space_after_slashes (c : Configuration) : Bool := c.part6.comment_line_force_space_after_slashes
def Configuration.construct_signature_space_after_new_keyword (c : Configuration) : Bool := c.part6.construct_signature_space_after_new_keyword
def Configuration.constructor_space_before_parentheses (c : Configuration) : Bool := c.part6.constructor_space_before_parentheses
def Configuration.constructor_type_space_after_new_keyword (c : Configuration) : Bool := c.part6.constructor_type_space_after_new_keyword
def Configuration.do_while_statement_space_after_while_keyword (c : Configuration) : Bool := c.part6.do_while_statement_space_after_while_keyword
def Configuration.export_declaration_space_surrounding_named_exports (c : Configuration) : Bool := c.part6.export_declaration_space_surrounding_named_exports
def Configuration.for_statement_space_after_for_keyword (c : Configuration) : Bool := c.part6.for_statement_space_after_for_keyword
def Configuration.for_statement_space_after_semi_colons (c : Configuration) : Bool := c.part6.for_statement_space_after_semi_colons
def Configuration.for_in_statement_space_after_for_keyword (c : Configuration) : Bool := c.part6.for_in_statement_space_after_for_keyword
def Configuration.for_of_statement_space_after_for_keyword (c : Configuration) : Bool := c.part6.for_of_statement_space_after_for_keyword
def Configuration.function_declaration_space_before_parentheses (c : Configuration) : Bool := c.part6.function_declaration_space_before_parentheses
def Configuration.function_expression_space_before_parentheses (c : Configuration) : Bool := c.part6.function_expression_space_before_parentheses
def Configuration.function_expression_space_after_function_keyword (c : Configuration) : Bool := c.part6.function_expression_space_after_function_keyword
def Configuration.get_accessor_space_before_parentheses (c : Configuration) : Bool := c.part6.get_accessor_space_before_parentheses
def Configuration.if_statement_space_after_if_keyword (c : Configuration) : Bool := c.part6.if_statement_space_after_if_keyword
def Configuration.import_declaration_space_surrounding_named_imports (c : Configuration) : Bool := c.part6.import_declaration_space_surrounding_named_imports
def Configuration.jsx_expression_container_space_surrounding_expression (c : Configuration) : Bool := c.part6.jsx_expression_container_space_surrounding_expression
def Configuration.jsx_self_closing_element_space_before_slash (c : Configuration) : Bool := c.part6.jsx_self_closing_element_space_before_slash
def Configuration.method_space_before_parentheses (c : Configuration) : Bool := c.part6.method_space_before_parentheses
def Configuration.object_expression_space_surrounding_properties (c : Configuration) : Bool := c.part6.object_expression_space_surrounding_properties
def Configuration.object_pattern_space_surrounding_properties (c : Configuration) : Bool := c.part6.object_pattern_space_surrounding_properties
def Configuration.set_accessor_space_before_parentheses (c : Configuration) : Bool := c.part6.set_accessor_space_before_parentheses
def Configuration.tagged_template_space_before_literal (c : Configuration) : Bool := c.part6.tagged_template_space_before_literal
def Configuration.type_annotation_space_before_colon (c : Configuration) : Bool := c.part6.type_annotation_space_before_colon
def Configuration.type_assertion_space_before_expression (c : Configuration) : Bool := c.part6.type_assertion_space_before_expression
def Configuration.type_literal_space_surrounding_properties (c : Configuration) : Bool := c.part6.type_literal_space_surrounding_properties
def Configuration.while_statement_space_after_while_keyword (c : Configuration) : Bool := c.part6.while_statement_space_after_while_keyword
def Configuration.arguments_space_around (c : Configuration) : Bool := c.part7.arguments_space_around
def Configuration.array_expression_space_around (c : Configuration) : Bool := c.part7.array_expression_space_around
def Configuration.array_pattern_space_around (c : Configuration) : Bool := c.part7.array_pattern_space_around
def Configuration.catch_clause_space_around (c : Configuration) : Bool := c.part7.catch_clause_space_around
def Configuration.do_while_statement_space_around (c : Configuration) : Bool := c.part7.do_while_statement_space_around
def Configuration.for_in_statement_space_around (c : Configuration) : Bool := c.part7.for_in_statement_space_around
def Configuration.for_of_statement_space_around (c : Configuration) : Bool := c.part7.for_of_statement_space_around
def Configuration.for_statement_space_around (c : Configuration) : Bool := c.part7.for_statement_space_around
def Configuration.if_statement_space_around (c : Configuration) : Bool := c.part7.if_statement_space_around
def Configuration.parameters_space_around (c : Configuration) : Bool := c.part7.parameters_space_around
def Configuration.paren_expression_space_around (c : Configuration) : Bool := c.part7.paren_expression_space_around
def Configuration.switch_statement_space_around (c : Configuration) : Bool := c.part7.switch_statement_space_around
def Configuration.tuple_type_space_around (c : Configuration) : Bool := c.part7.tuple_type_space_around
def Configuration.while_statement_space_around (c : Configuration) : Bool := c.part7.while_statement_space_around

/-- The configuration resolved from a map against the default (all-unset)
global configuration. -/
def cfg_of (m : ConfigKeyMap) : Configuration :=
  (resolve_config m default_global_config).config

/-- The diagnostics resolved from a map against the default (all-unset)
global configuration. -/
def diags_of (m : ConfigKeyMap) : List ConfigurationDiagnostic :=
  (resolve_config m default_global_config).diagnostics

/-- The pipeline phase that produces each diagnostic kind, per the spec's
claimed ordering (deprecations first, then type mismatches, then unknown
keys). -/
def diagnostic_phase_rank : ConfigurationDiagnostic → Nat
  | .deprecated _ _ => 0
  | .typeMismatch _ => 1
  | .unknownKey _ => 2

/-- Whether a list of phase ranks is non-decreasing. -/
def ranks_sorted : List Nat → Bool
  | [] => true
  | [_] => true
  | a :: b :: rest => a ≤ b && ranks_sorted (b :: rest)

set_option maxHeartbeats 2000000 in
/-- Helper for C1 (c1_brace_position_category). -/
lemma c1_brace_position_category :
    ∀ v : BracePosition,
      (cfg_of [("bracePosition", ConfigKeyValue.str v.key_string)]).arrow_function_brace_position = v
      ∧ (cfg_of [("bracePosition", ConfigKeyValue.str v.key_string)]).class_declaration_brace_position = v
      ∧ (cfg_of [("bracePosition", ConfigKeyValue.str v.key_string)]).class_expression_brace_position = v
      ∧ (cfg_of [("bracePosition", ConfigKeyValue.str v.key_string)]).constructor_brace_position = v
      ∧ (cfg_of [("bracePosition", ConfigKeyValue.str v.key_string)]).do_while_statement_brace_position = v
      ∧ (cfg_of [("bracePosition", ConfigKeyValue.str v.key_string)]).enum_declaration_brace_position = v
      ∧ (cfg_of [("bracePosition", ConfigKeyValue.str v.key_string)]).for_statement_brace_position = v
      ∧ (cfg_of [("bracePosition", ConfigKeyValue.str v.key_string)]).for_in_statement_brace_position = v
      ∧ (cfg_of [("bracePosition", ConfigKeyValue.str v.key_string)]).for_of_statement_brace_position = v
      ∧ (cfg_of [("bracePosition", ConfigKeyValue.str v.key_string)]).get_accessor_brace_position = v
      ∧ (cfg_of [("bracePosition", ConfigKeyValue.str v.key_string)]).if_statement_brace_position = v
      ∧ (cfg_of [("bracePosition", ConfigKeyValue.str v.key_string)]).interface_declaration_brace_position = v
      ∧ (cfg_of [("bracePosition", ConfigKeyValue.str v.key_string)]).function_declaration_brace_position = v
      ∧ (cfg_of [("bracePosition", ConfigKeyValue.str v.key_string)]).function_expression_brace_position = v
      ∧ (cfg_of [("bracePosition", ConfigKeyValue.str v.key_string)]).method_brace_position = v
      ∧ (cfg_of [("bracePosition", ConfigKeyValue.str v.key_string)]).module_declaration_brace_position = v
      ∧ (cfg_of [("bracePosition", ConfigKeyValue.str v.key_string)]).set_accessor_brace_position = v
      ∧ (cfg_of [("bracePosition", ConfigKeyValue.str v.key_string)]).static_block_brace_position = v
      ∧ (cfg_of [("bracePosition", ConfigKeyValue.str v.key_string)]).switch_case_brace_position = v
      ∧ (cfg_of [("bracePosition", ConfigKeyValue.str v.key_string)]).switch_statement_brace_position = v
      ∧ (cfg_of [("bracePosition", ConfigKeyValue.str v.key_string)]).try_statement_brace_position = v
      ∧ (cfg_of [("bracePosition", ConfigKeyValue.str v.key_string)]).while_statement_brace_position = v := by decide

set_option maxHeartbeats 2000000 in
/-- Helper for C1 (c1_brace_position_leaf_wins). -/
lemma c1_brace_position_leaf_wins :
    ∀ v1 v2 : BracePosition,
      (cfg_of [("bracePosition", ConfigKeyValue.str v1.key_string), ("ifStatement.bracePosition", ConfigKeyValue.str v2.key_string)]).if_statement_brace_position = v2 := by decide

set_option maxHeartbeats 2000000 in
/-- Helper for C1 (c1_brace_position_leaf_wins_all). -/
lemma c1_brace_position_leaf_wins_all :
    (cfg_of [("bracePosition", ConfigKeyValue.str (BracePosition.SameLine).key_string), ("arrowFunction.bracePosition", ConfigKeyValue.str (BracePosition.NextLine).key_string)]).arrow_function_brace_position = (BracePosition.NextLine)
      ∧ (cfg_of [("bracePosition", ConfigKeyValue.str (BracePosition.SameLine).key_string), ("classDeclaration.bracePosition", ConfigKeyValue.str (BracePosition.NextLine).key_string)]).class_declaration_brace_position = (BracePosition.NextLine)
      ∧ (cfg_of [("bracePosition", ConfigKeyValue.str (BracePosition.SameLine).key_string), ("classExpression.bracePosition", ConfigKeyValue.str (BracePosition.NextLine).key_string)]).class_expression_brace_position = (BracePosition.NextLine)
      ∧ (cfg_of [("bracePosition", ConfigKeyValue.str (BracePosition.SameLine).key_string), ("constructor.bracePosition", ConfigKeyValue.str (BracePosition.NextLine).key_string)]).constructor_brace_position = (BracePosition.NextLine)
      ∧ (cfg_of [("bracePosition", ConfigKeyValue.str (BracePosition.SameLine).key_string), ("doWhileStatement.bracePosition", ConfigKeyValue.str (BracePosition.NextLine).key_string)]).do_while_statement_brace_position = (BracePosition.NextLine)
      ∧ (cfg_of [("bracePosition", ConfigKeyValue.str (BracePosition.SameLine).key_string), ("enumDeclaration.bracePosition", ConfigKeyValue.str (BracePosition.NextLine).key_string)]).enum_declaration_brace_position = (BracePosition.NextLine)
      ∧ (cfg_of [("bracePosition", ConfigKeyValue.str (BracePosition.SameLine).key_string), ("forStatement.bracePosition", ConfigKeyValue.str (BracePosition.NextLine).key_string)]).for_statement_brace_position = (BracePosition.NextLine)
      ∧ (cfg_of [("bracePosition", ConfigKeyValue.str (BracePosition.SameLine).key_string), ("forInStatement.bracePosition", ConfigKeyValue.str (BracePosition.NextLine).key_string)]).for_in_statement_brace_position = (BracePosition.NextLine)
      ∧ (cfg_of [("bracePosition", ConfigKeyValue.str (BracePosition.SameLine).key_string), ("forOfStatement.bracePosition", ConfigKeyValue.str (BracePosition.NextLine).key_string)]).for_of_statement_brace_position = (BracePosition.NextLine)
      ∧ (cfg_of [("bracePosition", ConfigKeyValue.str (BracePosition.SameLine).key_string), ("getAccessor.bracePosition", ConfigKeyValue.str (BracePosition.NextLine).key_string)]).get_accessor_brace_position = (BracePosition.NextLine)
      ∧ (cfg_of [("bracePosition", ConfigKeyValue.str (BracePosition.SameLine).key_string), ("ifStatement.bracePosition", ConfigKeyValue.str (BracePosition.NextLine).key_string)]).if_statement_brace_position = (BracePosition.NextLine)
      ∧ (cfg_of [("bracePosition", ConfigKeyValue.str (BracePosition.SameLine).key_string), ("interfaceDeclaration.bracePosition", ConfigKeyValue.str (BracePosition.NextLine).key_string)]).interface_declaration_brace_position = (BracePosition.NextLine)
      ∧ (cfg_of [("bracePosition", ConfigKeyValue.str (BracePosition.SameLine).key_string), ("functionDeclaration.bracePosition", ConfigKeyValue.str (BracePosition.NextLine).key_string)]).function_declaration_brace_position = (BracePosition.NextLine)
      ∧ (cfg_of [("bracePosition", ConfigKeyValue.str (BracePosition.SameLine).key_string), ("functionExpression.bracePosition", ConfigKeyValue.str (BracePosition.NextLine).key_string)]).function_expression_brace_position = (BracePosition.NextLine)
      ∧ (cfg_of [("bracePosition", ConfigKeyValue.str (BracePosition.SameLine).key_string), ("method.bracePosition", ConfigKeyValue.str (BracePosition.NextLine).key_string)]).method_brace_position = (BracePosition.NextLine)
      ∧ (cfg_of [("bracePosition", ConfigKeyValue.str (BracePosition.SameLine).key_string), ("moduleDeclaration.bracePosition", ConfigKeyValue.str (BracePosition.NextLine).key_string)]).module_declaration_brace_position = (BracePosition.NextLine)
      ∧ (cfg_of [("bracePosition", ConfigKeyValue.str (BracePosition.SameLine).key_string), ("setAccessor.bracePosition", ConfigKeyValue.str (BracePosition.NextLine).key_string)]).set_accessor_brace_position = (BracePosition.NextLine)
      ∧ (cfg_of [("bracePosition", ConfigKeyValue.str (BracePosition.SameLine).key_string), ("staticBlock.bracePosition", ConfigKeyValue.str (BracePosition.NextLine).key_string)]).static_block_brace_position = (BracePosition.NextLine)
      ∧ (cfg_of [("bracePosition", ConfigKeyValue.str (BracePosition.SameLine).key_string), ("switchCase.bracePosition", ConfigKeyValue.str (BracePosition.NextLine).key_string)]).switch_case_brace_position = (BracePosition.NextLine)
      ∧ (cfg_of [("bracePosition", ConfigKeyValue.str (BracePosition.SameLine).key_string), ("switchStatement.bracePosition", ConfigKeyValue.str (BracePosition.NextLine).key_string)]).switch_statement_brace_position = (BracePosition.NextLine)
      ∧ (cfg_of [("bracePosition", ConfigKeyValue.str (BracePosition.SameLine).key_string), ("tryStatement.bracePosition", ConfigKeyValue.str (BracePosition.NextLine).key_string)]).try_statement_brace_position = (BracePosition.NextLine)
      ∧ (cfg_of [("bracePosition", ConfigKeyValue.str (BracePosition.SameLine).key_string), ("whileStatement.bracePosition", ConfigKeyValue.str (BracePosition.NextLine).key_string)]).while_statement_brace_position = (BracePosition.NextLine) := by decide

set_option maxHeartbeats 2000000 in
/-- Helper for C1 (c1_next_control_flow_category). -/
lemma c1_next_control_flow_category :
    ∀ v : NextControlFlowPosition,
      (cfg_of [("nextControlFlowPosition", ConfigKeyValue.str v.key_string)]).if_statement_next_control_flow_position = v
      ∧ (cfg_of [("nextControlFlowPosition", ConfigKeyValue.str v.key_string)]).try_statement_next_control_flow_position = v
      ∧ (cfg_of [("nextControlFlowPosition", ConfigKeyValue.str v.key_string)]).do_while_statement_next_control_flow_position = v := by decide

set_option maxHeartbeats 2000000 in
/-- Helper for C1 (c1_next_control_flow_leaf_wins). -/
lemma c1_next_control_flow_leaf_wins :
    ∀ v1 v2 : NextControlFlowPosition,
      (cfg_of [("nextControlFlowPosition", ConfigKeyValue.str v1.key_string), ("ifStatement.nextControlFlowPosition", ConfigKeyValue.str v2.key_string)]).if_statement_next_control_flow_position = v2 := by decide

set_option maxHeartbeats 2000000 in
/-- Helper for C1 (c1_next_control_flow_leaf_wins_all). -/
lemma c1_next_control_flow_leaf_wins_all :
    (cfg_of [("nextControlFlowPosition", ConfigKeyValue.str (NextControlFlowPosition.SameLine).key_string), ("ifStatement.nextControlFlowPosition", ConfigKeyValue.str (NextControlFlowPosition.NextLine).key_string)]).if_statement_next_control_flow_position = (NextControlFlowPosition.NextLine)
      ∧ (cfg_of [("nextControlFlowPosition", ConfigKeyValue.str (NextControlFlowPosition.SameLine).key_string), ("tryStatement.nextControlFlowPosition", ConfigKeyValue.str (NextControlFlowPosition.NextLine).key_string)]).try_statement_next_control_flow_position = (NextControlFlowPosition.NextLine)
      ∧ (cfg_of [("nextControlFlowPosition", ConfigKeyValue.str (NextControlFlowPosition.SameLine).key_string), ("doWhileStatement.nextControlFlowPosition", ConfigKeyValue.str (NextControlFlowPosition.NextLine).key_string)]).do_while_statement_next_control_flow_position = (NextControlFlowPosition.NextLine) := by decide

set_option maxHeartbeats 2000000 in
/-- Helper for C1 (c1_operator_position_category). -/
lemma c1_operator_position_category :
    ∀ v : OperatorPosition,
      (cfg_of [("operatorPosition", ConfigKeyValue.str v.key_string)]).binary_expression_operator_position = v
      ∧ (cfg_of [("operatorPosition", ConfigKeyValue.str v.key_string)]).conditional_expression_operator_position = v
      ∧ (cfg_of [("operatorPosition", ConfigKeyValue.str v.key_string)]).conditional_type_operator_position = v := by decide

set_option maxHeartbeats 2000000 in
/-- Helper for C1 (c1_operator_position_leaf_wins). -/
lemma c1_operator_position_leaf_wins :
    ∀ v1 v2 : OperatorPosition,
      (cfg_of [("operatorPosition", ConfigKeyValue.str v1.key_string), ("binaryExpression.operatorPosition", ConfigKeyValue.str v2.key_string)]).binary_expression_operator_position = v2 := by decide

set_option maxHeartbeats 2000000 in
/-- Helper for C1 (c1_operator_position_leaf_wins_all). -/
lemma c1_operator_position_leaf_wins_all :
    (cfg_of [("operatorPosition", ConfigKeyValue.str (OperatorPosition.SameLine).key_string), ("binaryExpression.operatorPosition", ConfigKeyValue.str (OperatorPosition.NextLine).key_string)]).binary_expression_operator_position = (OperatorPosition.NextLine)
      ∧ (cfg_of [("operatorPosition", ConfigKeyValue.str (OperatorPosition.SameLine).key_string), ("conditionalExpression.operatorPosition", ConfigKeyValue.str (OperatorPosition.NextLine).key_string)]).conditional_expression_operator_position = (OperatorPosition.NextLine)
      ∧ (cfg_of [("operatorPosition", ConfigKeyValue.str (OperatorPosition.SameLine).key_string), ("conditionalType.operatorPosition", ConfigKeyValue.str (OperatorPosition.NextLine).key_string)]).conditional_type_operator_position = (OperatorPosition.NextLine) := by decide

set_option maxHeartbeats 2000000 in
/-- Helper for C1 (c1_single_body_position_category). -/
lemma c1_single_body_position_category :
    ∀ v : SameOrNextLinePosition,
      (cfg_of [("singleBodyPosition", ConfigKeyValue.str v.key_string)]).if_statement_single_body_position = v
      ∧ (cfg_of [("singleBodyPosition", ConfigKeyValue.str v.key_string)]).for_statement_single_body_position = v
      ∧ (cfg_of [("singleBodyPosition", ConfigKeyValue.str v.key_string)]).for_in_statement_single_body_position = v
      ∧ (cfg_of [("singleBodyPosition", ConfigKeyValue.str v.key_string)]).for_of_statement_single_body_position = v
      ∧ (cfg_of [("singleBodyPosition", ConfigKeyValue.str v.key_string)]).while_statement_single_body_position = v := by decide

set_option maxHeartbeats 2000000 in
/-- Helper for C1 (c1_single_body_position_leaf_wins). -/
lemma c1_single_body_position_leaf_wins :
    ∀ v1 v2 : SameOrNextLinePosition,
      (cfg_of [("singleBodyPosition", ConfigKeyValue.str v1.key_string), ("ifStatement.singleBodyPosition", ConfigKeyValue.str v2.key_string)]).if_statement_single_body_position = v2 := by decide

set_option maxHeartbeats 2000000 in
/-- Helper for C1 (c1_single_body_position_leaf_wins_all). -/
lemma c1_single_body_position_leaf_wins_all :
    (cfg_of [("singleBodyPosition", ConfigKeyValue.str (SameOrNextLinePosition.SameLine).key_string), ("ifStatement.singleBodyPosition", ConfigKeyValue.str (SameOrNextLinePosition.NextLine).key_string)]).if_statement_single_body_position = (SameOrNextLinePosition.NextLine)
      ∧ (cfg_of [("singleBodyPosition", ConfigKeyValue.str (SameOrNextLinePosition.SameLine).key_string), ("forStatement.singleBodyPosition", ConfigKeyValue.str (SameOrNextLinePosition.NextLine).key_string)]).for_statement_single_body_position = (SameOrNextLinePosition.NextLine)
      ∧ (cfg_of [("singleBodyPosition", ConfigKeyValue.str (SameOrNextLinePosition.SameLine).key_string), ("forInStatement.singleBodyPosition", ConfigKeyValue.str (SameOrNextLinePosition.NextLine).key_string)]).for_in_statement_single_body_position = (SameOrNextLinePosition.NextLine)
      ∧ (cfg_of [("singleBodyPosition", ConfigKeyValue.str (SameOrNextLinePosition.SameLine).key_string), ("forOfStatement.singleBodyPosition", ConfigKeyValue.str (SameOrNextLinePosition.NextLine).key_string)]).for_of_statement_single_body_position = (SameOrNextLinePosition.NextLine)
      ∧ (cfg_of [("singleBodyPosition", ConfigKeyValue.str (SameOrNextLinePosition.SameLine).key_string), ("whileStatement.singleBodyPosition", ConfigKeyValue.str (SameOrNextLinePosition.NextLine).key_string)]).while_statement_single_body_position = (SameOrNextLinePosition.NextLine) := by decide

set_option maxHeartbeats 2000000 in
/-- Helper for C1 (c1_trailing_commas_category). -/
lemma c1_trailing_commas_category :
    ∀ v : TrailingCommas,
      (cfg_of [("trailingCommas", ConfigKeyValue.str v.key_string)]).arguments_trailing_commas = v
      ∧ (cfg_of [("trailingCommas", ConfigKeyValue.str v.key_string)]).parameters_trailing_commas = v
      ∧ (cfg_of [("trailingCommas", ConfigKeyValue.str v.key_string)]).array_expression_trailing_commas = v
      ∧ (cfg_of [("trailingCommas", ConfigKeyValue.str v.key_string)]).array_pattern_trailing_commas = v
      ∧ (cfg_of [("trailingCommas", ConfigKeyValue.str v.key_string)]).enum_declaration_trailing_commas = v
      ∧ (cfg_of [("trailingCommas", ConfigKeyValue.str v.key_string)]).export_declaration_trailing_commas = v
      ∧ (cfg_of [("trailingCommas", ConfigKeyValue.str v.key_string)]).import_declaration_trailing_commas = v
      ∧ (cfg_of [("trailingCommas", ConfigKeyValue.str v.key_string)]).object_expression_trailing_commas = v
      ∧ (cfg_of [("trailingCommas", ConfigKeyValue.str v.key_string)]).object_pattern_trailing_commas = v
      ∧ (cfg_of [("trailingCommas", ConfigKeyValue.str v.key_string)]).tuple_type_trailing_commas = v
      ∧ (cfg_of [("trailingCommas", ConfigKeyValue.str v.key_string)]).type_literal_trailing_commas = v
      ∧ (cfg_of [("trailingCommas", ConfigKeyValue.str v.key_string)]).type_parameters_trailing_commas = v := by decide

set_option maxHeartbeats 2000000 in
/-- Helper for C1 (c1_trailing_commas_leaf_wins). -/
lemma c1_trailing_commas_leaf_wins :
    ∀ v1 v2 : TrailingCommas,
      (cfg_of [("trailingCommas", ConfigKeyValue.str v1.key_string), ("arguments.trailingCommas", ConfigKeyValue.str v2.key_string)]).arguments_trailing_commas = v2 := by decide

set_option maxHeartbeats 2000000 in
/-- Helper for C1 (c1_trailing_commas_leaf_wins_all). -/
lemma c1_trailing_commas_leaf_wins_all :
    (cfg_of [("trailingCommas", ConfigKeyValue.str (TrailingCommas.Always).key_string), ("arguments.trailingCommas", ConfigKeyValue.str (TrailingCommas.Never).key_string)]).arguments_trailing_commas = (TrailingCommas.Never)
      ∧ (cfg_of [("trailingCommas", ConfigKeyValue.str (TrailingCommas.Always).key_string), ("parameters.trailingCommas", ConfigKeyValue.str (TrailingCommas.Never).key_string)]).parameters_trailing_commas = (TrailingCommas.Never)
      ∧ (cfg_of [("trailingCommas", ConfigKeyValue.str (TrailingCommas.Always).key_string), ("arrayExpression.trailingCommas", ConfigKeyValue.str (TrailingCommas.Never).key_string)]).array_expression_trailing_commas = (TrailingCommas.Never)
      ∧ (cfg_of [("trailingCommas", ConfigKeyValue.str (TrailingCommas.Always).key_string), ("arrayPattern.trailingCommas", ConfigKeyValue.str (TrailingCommas.Never).key_string)]).array_pattern_trailing_commas = (TrailingCommas.Never)
      ∧ (cfg_of [("trailingCommas", ConfigKeyValue.str (TrailingCommas.Always).key_string), ("enumDeclaration.trailingCommas", ConfigKeyValue.str (TrailingCommas.Never).key_string)]).enum_declaration_trailing_commas = (TrailingCommas.Never)
      ∧ (cfg_of [("trailingCommas", ConfigKeyValue.str (TrailingCommas.Always).key_string), ("exportDeclaration.trailingCommas", ConfigKeyValue.str (TrailingCommas.Never).key_string)]).export_declaration_trailing_commas = (TrailingCommas.Never)
      ∧ (cfg_of [("trailingCommas", ConfigKeyValue.str (TrailingCommas.Always).key_string), ("importDeclaration.trailingCommas", ConfigKeyValue.str (TrailingCommas.Never).key_string)]).import_declaration_trailing_commas = (TrailingCommas.Never)
      ∧ (cfg_of [("trailingCommas", ConfigKeyValue.str (TrailingCommas.Always).key_string), ("objectExpression.trailingCommas", ConfigKeyValue.str (TrailingCommas.Never).key_string)]).object_expression_trailing_commas = (TrailingCommas.Never)
      ∧ (cfg_of [("trailingCommas", ConfigKeyValue.str (TrailingCommas.Always).key_string), ("objectPattern.trailingCommas", ConfigKeyValue.str (TrailingCommas.Never).key_string)]).object_pattern_trailing_commas = (TrailingCommas.Never)
      ∧ (cfg_of [("trailingCommas", ConfigKeyValue.str (TrailingCommas.Always).key_string), ("tupleType.trailingCommas", ConfigKeyValue.str (TrailingCommas.Never).key_string)]).tuple_type_trailing_commas = (TrailingCommas.Never)
      ∧ (cfg_of [("trailingCommas", ConfigKeyValue.str (TrailingCommas.Always).key_string), ("typeLiteral.trailingCommas", ConfigKeyValue.str (TrailingCommas.Never).key_string)]).type_literal_trailing_commas = (TrailingCommas.Never)
      ∧ (cfg_of [("trailingCommas", ConfigKeyValue.str (TrailingCommas.Always).key_string), ("typeParameters.trailingCommas", ConfigKeyValue.str (TrailingCommas.Never).key_string)]).type_parameters_trailing_commas = (TrailingCommas.Never) := by decide

set_option maxHeartbeats 2000000 in
/-- Helper for C1 (c1_use_braces_category). -/
lemma c1_use_braces_category :
    ∀ v : UseBraces,
      (cfg_of [("useBraces", ConfigKeyValue.str v.key_string)]).if_statement_use_braces = v
      ∧ (cfg_of [("useBraces", ConfigKeyValue.str v.key_string)]).for_statement_use_braces = v
      ∧ (cfg_of [("useBraces", ConfigKeyValue.str v.key_string)]).for_in_statement_use_braces = v
      ∧ (cfg_of [("useBraces", ConfigKeyValue.str v.key_string)]).for_of_statement_use_braces = v
      ∧ (cfg_of [("useBraces", ConfigKeyValue.str v.key_string)]).while_statement_use_braces = v := by decide

set_option maxHeartbeats 2000000 in
/-- Helper for C1 (c1_use_braces_leaf_wins). -/
lemma c1_use_braces_leaf_wins :
    ∀ v1 v2 : UseBraces,
      (cfg_of [("useBraces", ConfigKeyValue.str v1.key_string), ("ifStatement.useBraces", ConfigKeyValue.str v2.key_string)]).if_statement_use_braces = v2 := by decide

set_option maxHeartbeats 2000000 in
/-- Helper for C1 (c1_use_braces_leaf_wins_all). -/
lemma c1_use_braces_leaf_wins_all :
    (cfg_of [("useBraces", ConfigKeyValue.str (UseBraces.Always).key_string), ("ifStatement.useBraces", ConfigKeyValue.str (UseBraces.PreferNone).key_string)]).if_statement_use_braces = (UseBraces.PreferNone)
      ∧ (cfg_of [("useBraces", ConfigKeyValue.str (UseBraces.Always).key_string), ("forStatement.useBraces", ConfigKeyValue.str (UseBraces.PreferNone).key_string)]).for_statement_use_braces = (UseBraces.PreferNone)
      ∧ (cfg_of [("useBraces", ConfigKeyValue.str (UseBraces.Always).key_string), ("forInStatement.useBraces", ConfigKeyValue.str (UseBraces.PreferNone).key_string)]).for_in_statement_use_braces = (UseBraces.PreferNone)
      ∧ (cfg_of [("useBraces", ConfigKeyValue.str (UseBraces.Always).key_string), ("forOfStatement.useBraces", ConfigKeyValue.str (UseBraces.PreferNone).key_string)]).for_of_statement_use_braces = (UseBraces.PreferNone)
      ∧ (cfg_of [("useBraces", ConfigKeyValue.str (UseBraces.Always).key_string), ("whileStatement.useBraces", ConfigKeyValue.str (UseBraces.PreferNone).key_string)]).while_statement_use_braces = (UseBraces.PreferNone) := by decide

set_option maxHeartbeats 2000000 in
/-- Helper for C1 (c1_prefer_hanging_category). -/
lemma c1_prefer_hanging_category :
    ∀ v : Bool,
      (cfg_of [("preferHanging", ConfigKeyValue.bool v)]).array_pattern_prefer_hanging = v
      ∧ (cfg_of [("preferHanging", ConfigKeyValue.bool v)]).do_while_statement_prefer_hanging = v
      ∧ (cfg_of [("preferHanging", ConfigKeyValue.bool v)]).export_declaration_prefer_hanging = v
      ∧ (cfg_of [("preferHanging", ConfigKeyValue.bool v)]).extends_clause_prefer_hanging = v
      ∧ (cfg_of [("preferHanging", ConfigKeyValue.bool v)]).for_in_statement_prefer_hanging = v
      ∧ (cfg_of [("preferHanging", ConfigKeyValue.bool v)]).for_of_statement_prefer_hanging = v
      ∧ (cfg_of [("preferHanging", ConfigKeyValue.bool v)]).for_statement_prefer_hanging = v
      ∧ (cfg_of [("preferHanging", ConfigKeyValue.bool v)]).if_statement_prefer_hanging = v
      ∧ (cfg_of [("preferHanging", ConfigKeyValue.bool v)]).implements_clause_prefer_hanging = v
      ∧ (cfg_of [("preferHanging", ConfigKeyValue.bool v)]).import_declaration_prefer_hanging = v
      ∧ (cfg_of [("preferHanging", ConfigKeyValue.bool v)]).jsx_attributes_prefer_hanging = v
      ∧ (cfg_of [("preferHanging", ConfigKeyValue.bool v)]).object_expression_prefer_hanging = v
      ∧ (cfg_of [("preferHanging", ConfigKeyValue.bool v)]).object_pattern_prefer_hanging = v
      ∧ (cfg_of [("preferHanging", ConfigKeyValue.bool v)]).sequence_expression_prefer_hanging = v
      ∧ (cfg_of [("preferHanging", ConfigKeyValue.bool v)]).switch_statement_prefer_hanging = v
      ∧ (cfg_of [("preferHanging", ConfigKeyValue.bool v)]).type_literal_prefer_hanging = v
      ∧ (cfg_of [("preferHanging", ConfigKeyValue.bool v)]).union_and_intersection_type_prefer_hanging = v
      ∧ (cfg_of [("preferHanging", ConfigKeyValue.bool v)]).variable_statement_prefer_hanging = v
      ∧ (cfg_of [("preferHanging", ConfigKeyValue.bool v)]).while_statement_prefer_hanging = v := by decide

set_option maxHeartbeats 2000000 in
/-- Helper for C1 (c1_prefer_hanging_leaf_wins). -/
lemma c1_prefer_hanging_leaf_wins :
    ∀ v1 v2 : Bool,
      (cfg_of [("preferHanging", ConfigKeyValue.bool v1), ("ifStatement.preferHanging", ConfigKeyValue.bool v2)]).if_statement_prefer_hanging = v2 := by decide

set_option maxHeartbeats 2000000 in
/-- Helper for C1 (c1_prefer_hanging_leaf_wins_all). -/
lemma c1_prefer_hanging_leaf_wins_all :
    (cfg_of [("preferHanging", ConfigKeyValue.bool true), ("arrayPattern.preferHanging", ConfigKeyValue.bool false)]).array_pattern_prefer_hanging = false
      ∧ (cfg_of [("preferHanging", ConfigKeyValue.bool true), ("doWhileStatement.preferHanging", ConfigKeyValue.bool false)]).do_while_statement_prefer_hanging = false
      ∧ (cfg_of [("preferHanging", ConfigKeyValue.bool true), ("exportDeclaration.preferHanging", ConfigKeyValue.bool false)]).export_declaration_prefer_hanging = false
      ∧ (cfg_of [("preferHanging", ConfigKeyValue.bool true), ("extendsClause.preferHanging", ConfigKeyValue.bool false)]).extends_clause_prefer_hanging = false
      ∧ (cfg_of [("preferHanging", ConfigKeyValue.bool true), ("forInStatement.preferHanging", ConfigKeyValue.bool false)]).for_in_statement_prefer_hanging = false
      ∧ (cfg_of [("preferHanging", ConfigKeyValue.bool true), ("forOfStatement.preferHanging", ConfigKeyValue.bool false)]).for_of_statement_prefer_hanging = false
      ∧ (cfg_of [("preferHanging", ConfigKeyValue.bool true), ("forStatement.preferHanging", ConfigKeyValue.bool false)]).for_statement_prefer_hanging = false
      ∧ (cfg_of [("preferHanging", ConfigKeyValue.bool true), ("ifStatement.preferHanging", ConfigKeyValue.bool false)]).if_statement_prefer_hanging = false
      ∧ (cfg_of [("preferHanging", ConfigKeyValue.bool true), ("implementsClause.preferHanging", ConfigKeyValue.bool false)]).implements_clause_prefer_hanging = false
      ∧ (cfg_of [("preferHanging", ConfigKeyValue.bool true), ("importDeclaration.preferHanging", ConfigKeyValue.bool false)]).import_declaration_prefer_hanging = false
      ∧ (cfg_of [("preferHanging", ConfigKeyValue.bool true), ("jsxAttributes.preferHanging", ConfigKeyValue.bool false)]).jsx_attributes_prefer_hanging = false
      ∧ (cfg_of [("preferHanging", ConfigKeyValue.bool true), ("objectExpression.preferHanging", ConfigKeyValue.bool false)]).object_expression_prefer_hanging = false
      ∧ (cfg_of [("preferHanging", ConfigKeyValue.bool true), ("objectPattern.preferHanging", ConfigKeyValue.bool false)]).object_pattern_prefer_hanging = false
      ∧ (cfg_of [("preferHanging", ConfigKeyValue.bool true), ("sequenceExpression.preferHanging", ConfigKeyValue.bool false)]).sequence_expression_prefer_hanging = false
      ∧ (cfg_of [("preferHanging", ConfigKeyValue.bool true), ("switchStatement.preferHanging", ConfigKeyValue.bool false)]).switch_statement_prefer_hanging = false
      ∧ (cfg_of [("preferHanging", ConfigKeyValue.bool true), ("typeLiteral.preferHanging", ConfigKeyValue.bool false)]).type_literal_prefer_hanging = false
      ∧ (cfg_of [("preferHanging", ConfigKeyValue.bool true), ("unionAndIntersectionType.preferHanging", ConfigKeyValue.bool false)]).union_and_intersection_type_prefer_hanging = false
      ∧ (cfg_of [("preferHanging", ConfigKeyValue.bool true), ("variableStatement.preferHanging", ConfigKeyValue.bool false)]).variable_statement_prefer_hanging = false
      ∧ (cfg_of [("preferHanging", ConfigKeyValue.bool true), ("whileStatement.preferHanging", ConfigKeyValue.bool false)]).while_statement_prefer_hanging = false := by decide

set_option maxHeartbeats 2000000 in
/-- Helper for C1 (c1_prefer_hanging_granular_category). -/
lemma c1_prefer_hanging_granular_category :
    ∀ v : Bool,
      (cfg_of [("preferHanging", ConfigKeyValue.bool v)]).arguments_prefer_hanging = (if v then PreferHanging.Always else PreferHanging.Never)
      ∧ (cfg_of [("preferHanging", ConfigKeyValue.bool v)]).array_expression_prefer_hanging = (if v then PreferHanging.Always else PreferHanging.Never)
      ∧ (cfg_of [("preferHanging", ConfigKeyValue.bool v)]).parameters_prefer_hanging = (if v then PreferHanging.Always else PreferHanging.Never)
      ∧ (cfg_of [("preferHanging", ConfigKeyValue.bool v)]).tuple_type_prefer_hanging = (if v then PreferHanging.Always else PreferHanging.Never)
      ∧ (cfg_of [("preferHanging", ConfigKeyValue.bool v)]).type_parameters_prefer_hanging = (if v then PreferHanging.Always else PreferHanging.Never) := by decide

set_option maxHeartbeats 2000000 in
/-- Helper for C1 (c1_prefer_hanging_granular_leaf_wins). -/
lemma c1_prefer_hanging_granular_leaf_wins :
    ∀ v1 : Bool, ∀ l : PreferHanging,
      (cfg_of [("preferHanging", ConfigKeyValue.bool v1), ("arguments.preferHanging", ConfigKeyValue.str l.key_string)]).arguments_prefer_hanging = l := by decide

set_option maxHeartbeats 2000000 in
/-- Helper for C1 (c1_prefer_hanging_granular_leaf_wins_all). -/
lemma c1_prefer_hanging_granular_leaf_wins_all :
    (cfg_of [("preferHanging", ConfigKeyValue.bool true), ("arguments.preferHanging", ConfigKeyValue.str "never")]).arguments_prefer_hanging = PreferHanging.Never
      ∧ (cfg_of [("preferHanging", ConfigKeyValue.bool true), ("arrayExpression.preferHanging", ConfigKeyValue.str "never")]).array_expression_prefer_hanging = PreferHanging.Never
      ∧ (cfg_of [("preferHanging", ConfigKeyValue.bool true), ("parameters.preferHanging", ConfigKeyValue.str "never")]).parameters_prefer_hanging = PreferHanging.Never
      ∧ (cfg_of [("preferHanging", ConfigKeyValue.bool true), ("tupleType.preferHanging", ConfigKeyValue.str "never")]).tuple_type_prefer_hanging = PreferHanging.Never
      ∧ (cfg_of [("preferHanging", ConfigKeyValue.bool true), ("typeParameters.preferHanging", ConfigKeyValue.str "never")]).type_parameters_prefer_hanging = PreferHanging.Never := by decide

set_option maxHeartbeats 2000000 in
/-- Helper for C1 (c1_prefer_single_line_category). -/
lemma c1_prefer_single_line_category :
    ∀ v : Bool,
      (cfg_of [("preferSingleLine", ConfigKeyValue.bool v)]).array_expression_prefer_single_line = v
      ∧ (cfg_of [("preferSingleLine", ConfigKeyValue.bool v)]).array_pattern_prefer_single_line = v
      ∧ (cfg_of [("preferSingleLine", ConfigKeyValue.bool v)]).arguments_prefer_single_line = v
      ∧ (cfg_of [("preferSingleLine", ConfigKeyValue.bool v)]).binary_expression_prefer_single_line = v
      ∧ (cfg_of [("preferSingleLine", ConfigKeyValue.bool v)]).computed_prefer_single_line = v
      ∧ (cfg_of [("preferSingleLine", ConfigKeyValue.bool v)]).conditional_expression_prefer_single_line = v
      ∧ (cfg_of [("preferSingleLine", ConfigKeyValue.bool v)]).conditional_type_prefer_single_line = v
      ∧ (cfg_of [("preferSingleLine", ConfigKeyValue.bool v)]).decorators_prefer_single_line = v
      ∧ (cfg_of [("preferSingleLine", ConfigKeyValue.bool v)]).export_declaration_prefer_single_line = v
      ∧ (cfg_of [("preferSingleLine", ConfigKeyValue.bool v)]).for_statement_prefer_single_line = v
      ∧ (cfg_of [("preferSingleLine", ConfigKeyValue.bool v)]).import_declaration_prefer_single_line = v
      ∧ (cfg_of [("preferSingleLine", ConfigKeyValue.bool v)]).jsx_attributes_prefer_single_line = v
      ∧ (cfg_of [("preferSingleLine", ConfigKeyValue.bool v)]).jsx_element_prefer_single_line = v
      ∧ (cfg_of [("preferSingleLine", ConfigKeyValue.bool v)]).mapped_type_prefer_single_line = v
      ∧ (cfg_of [("preferSingleLine", ConfigKeyValue.bool v)]).member_expression_prefer_single_line = v
      ∧ (cfg_of [("preferSingleLine", ConfigKeyValue.bool v)]).object_expression_prefer_single_line = v
      ∧ (cfg_of [("preferSingleLine", ConfigKeyValue.bool v)]).object_pattern_prefer_single_line = v
      ∧ (cfg_of [("preferSingleLine", ConfigKeyValue.bool v)]).parameters_prefer_single_line = v
      ∧ (cfg_of [("preferSingleLine", ConfigKeyValue.bool v)]).parentheses_prefer_single_line = v
      ∧ (cfg_of [("preferSingleLine", ConfigKeyValue.bool v)]).tuple_type_prefer_single_line = v
      ∧ (cfg_of [("preferSingleLine", ConfigKeyValue.bool v)]).type_literal_prefer_single_line = v
      ∧ (cfg_of [("preferSingleLine", ConfigKeyValue.bool v)]).type_parameters_prefer_single_line = v
      ∧ (cfg_of [("preferSingleLine", ConfigKeyValue.bool v)]).union_and_intersection_type_prefer_single_line = v
      ∧ (cfg_of [("preferSingleLine", ConfigKeyValue.bool v)]).variable_statement_prefer_single_line = v := by decide

set_option maxHeartbeats 2000000 in
/-- Helper for C1 (c1_prefer_single_line_leaf_wins). -/
lemma c1_prefer_single_line_leaf_wins :
    ∀ v1 v2 : Bool,
      (cfg_of [("preferSingleLine", ConfigKeyValue.bool v1), ("arrayExpression.preferSingleLine", ConfigKeyValue.bool v2)]).array_expression_prefer_single_line = v2 := by decide

set_option maxHeartbeats 2000000 in
/-- Helper for C1 (c1_prefer_single_line_leaf_wins_all). -/
lemma c1_prefer_single_line_leaf_wins_all :
    (cfg_of [("preferSingleLine", ConfigKeyValue.bool true), ("arrayExpression.preferSingleLine", ConfigKeyValue.bool false)]).array_expression_prefer_single_line = false
      ∧ (cfg_of [("preferSingleLine", ConfigKeyValue.bool true), ("arrayPattern.preferSingleLine", ConfigKeyValue.bool false)]).array_pattern_prefer_single_line = false
      ∧ (cfg_of [("preferSingleLine", ConfigKeyValue.bool true), ("arguments.preferSingleLine", ConfigKeyValue.bool false)]).arguments_prefer_single_line = false
      ∧ (cfg_of [("preferSingleLine", ConfigKeyValue.bool true), ("binaryExpression.preferSingleLine", ConfigKeyValue.bool false)]).binary_expression_prefer_single_line = false
      ∧ (cfg_of [("preferSingleLine", ConfigKeyValue.bool true), ("computed.preferSingleLine", ConfigKeyValue.bool false)]).computed_prefer_single_line = false
      ∧ (cfg_of [("preferSingleLine", ConfigKeyValue.bool true), ("conditionalExpression.preferSingleLine", ConfigKeyValue.bool false)]).conditional_expression_prefer_single_line = false
      ∧ (cfg_of [("preferSingleLine", ConfigKeyValue.bool true), ("conditionalType.preferSingleLine", ConfigKeyValue.bool false)]).conditional_type_prefer_single_line = false
      ∧ (cfg_of [("preferSingleLine", ConfigKeyValue.bool true), ("decorators.preferSingleLine", ConfigKeyValue.bool false)]).decorators_prefer_single_line = false
      ∧ (cfg_of [("preferSingleLine", ConfigKeyValue.bool true), ("exportDeclaration.preferSingleLine", ConfigKeyValue.bool false)]).export_declaration_prefer_single_line = false
      ∧ (cfg_of [("preferSingleLine", ConfigKeyValue.bool true), ("forStatement.preferSingleLine", ConfigKeyValue.bool false)]).for_statement_prefer_single_line = false
      ∧ (cfg_of [("preferSingleLine", ConfigKeyValue.bool true), ("importDeclaration.preferSingleLine", ConfigKeyValue.bool false)]).import_declaration_prefer_single_line = false
      ∧ (cfg_of [("preferSingleLine", ConfigKeyValue.bool true), ("jsxAttributes.preferSingleLine", ConfigKeyValue.bool false)]).jsx_attributes_prefer_single_line = false
      ∧ (cfg_of [("preferSingleLine", ConfigKeyValue.bool true), ("jsxElement.preferSingleLine", ConfigKeyValue.bool false)]).jsx_element_prefer_single_line = false
      ∧ (cfg_of [("preferSingleLine", ConfigKeyValue.bool true), ("mappedType.preferSingleLine", ConfigKeyValue.bool false)]).mapped_type_prefer_single_line = false
      ∧ (cfg_of [("preferSingleLine", ConfigKeyValue.bool true), ("memberExpression.preferSingleLine", ConfigKeyValue.bool false)]).member_expression_prefer_single_line = false
      ∧ (cfg_of [("preferSingleLine", ConfigKeyValue.bool true), ("objectExpression.preferSingleLine", ConfigKeyValue.bool false)]).object_expression_prefer_single_line = false
      ∧ (cfg_of [("preferSingleLine", ConfigKeyValue.bool true), ("objectPattern.preferSingleLine", ConfigKeyValue.bool false)]).object_pattern_prefer_single_line = false
      ∧ (cfg_of [("preferSingleLine", ConfigKeyValue.bool true), ("parameters.preferSingleLine", ConfigKeyValue.bool false)]).parameters_prefer_single_line = false
      ∧ (cfg_of [("preferSingleLine", ConfigKeyValue.bool true), ("parentheses.preferSingleLine", ConfigKeyValue.bool false)]).parentheses_prefer_single_line = false
      ∧ (cfg_of [("preferSingleLine", ConfigKeyValue.bool true), ("tupleType.preferSingleLine", ConfigKeyValue.bool false)]).tuple_type_prefer_single_line = false
      ∧ (cfg_of [("preferSingleLine", ConfigKeyValue.bool true), ("typeLiteral.preferSingleLine", ConfigKeyValue.bool false)]).type_literal_prefer_single_line = false
      ∧ (cfg_of [("preferSingleLine", ConfigKeyValue.bool true), ("typeParameters.preferSingleLine", ConfigKeyValue.bool false)]).type_parameters_prefer_single_line = false
      ∧ (cfg_of [("preferSingleLine", ConfigKeyValue.bool true), ("unionAndIntersectionType.preferSingleLine", ConfigKeyValue.bool false)]).union_and_intersection_type_prefer_single_line = false
      ∧ (cfg_of [("preferSingleLine", ConfigKeyValue.bool true), ("variableStatement.preferSingleLine", ConfigKeyValue.bool false)]).variable_statement_prefer_single_line = false := by decide

set_option maxHeartbeats 2000000 in
/-- Helper for C1 (c1_space_surrounding_properties_category). -/
lemma c1_space_surrounding_properties_category :
    ∀ v : Bool,
      (cfg_of [("spaceSurroundingProperties", ConfigKeyValue.bool v)]).object_expression_space_surrounding_properties = v
      ∧ (cfg_of [("spaceSurroundingProperties", ConfigKeyValue.bool v)]).object_pattern_space_surrounding_properties = v
      ∧ (cfg_of [("spaceSurroundingProperties", ConfigKeyValue.bool v)]).type_literal_space_surrounding_properties = v := by decide

set_option maxHeartbeats 2000000 in
/-- Helper for C1 (c1_space_surrounding_properties_leaf_wins). -/
lemma c1_space_surrounding_properties_leaf_wins :
    ∀ v1 v2 : Bool,
      (cfg_of [("spaceSurroundingProperties", ConfigKeyValue.bool v1), ("objectExpression.spaceSurroundingProperties", ConfigKeyValue.bool v2)]).object_expression_space_surrounding_properties = v2 := by decide

set_option maxHeartbeats 2000000 in
/-- Helper for C1 (c1_space_surrounding_properties_leaf_wins_all). -/
lemma c1_space_surrounding_properties_leaf_wins_all :
    (cfg_of [("spaceSurroundingProperties", ConfigKeyValue.bool true), ("objectExpression.spaceSurroundingProperties", ConfigKeyValue.bool false)]).object_expression_space_surrounding_properties = false
      ∧ (cfg_of [("spaceSurroundingProperties", ConfigKeyValue.bool true), ("objectPattern.spaceSurroundingProperties", ConfigKeyValue.bool false)]).object_pattern_space_surrounding_properties = false
      ∧ (cfg_of [("spaceSurroundingProperties", ConfigKeyValue.bool true), ("typeLiteral.spaceSurroundingProperties", ConfigKeyValue.bool false)]).type_literal_space_surrounding_properties = false := by decide

set_option maxHeartbeats 2000000 in
/-- Helper for C1 (c1_space_around_category). -/
lemma c1_space_around_category :
    ∀ v : Bool,
      (cfg_of [("spaceAround", ConfigKeyValue.bool v)]).arguments_space_around = v
      ∧ (cfg_of [("spaceAround", ConfigKeyValue.bool v)]).array_expression_space_around = v
      ∧ (cfg_of [("spaceAround", ConfigKeyValue.bool v)]).array_pattern_space_around = v
      ∧ (cfg_of [("spaceAround", ConfigKeyValue.bool v)]).catch_clause_space_around = v
      ∧ (cfg_of [("spaceAround", ConfigKeyValue.bool v)]).do_while_statement_space_around = v
      ∧ (cfg_of [("spaceAround", ConfigKeyValue.bool v)]).for_in_statement_space_around = v
      ∧ (cfg_of [("spaceAround", ConfigKeyValue.bool v)]).for_of_statement_space_around = v
      ∧ (cfg_of [("spaceAround", ConfigKeyValue.bool v)]).for_statement_space_around = v
      ∧ (cfg_of [("spaceAround", ConfigKeyValue.bool v)]).if_statement_space_around = v
      ∧ (cfg_of [("spaceAround", ConfigKeyValue.bool v)]).parameters_space_around = v
      ∧ (cfg_of [("spaceAround", ConfigKeyValue.bool v)]).switch_statement_space_around = v
      ∧ (cfg_of [("spaceAround", ConfigKeyValue.bool v)]).tuple_type_space_around = v
      ∧ (cfg_of [("spaceAround", ConfigKeyValue.bool v)]).while_statement_space_around = v
      ∧ (cfg_of [("spaceAround", ConfigKeyValue.bool v)]).paren_expression_space_around = v := by decide

set_option maxHeartbeats 2000000 in
/-- Helper for C1 (c1_space_around_leaf_wins). -/
lemma c1_space_around_leaf_wins :
    ∀ v1 v2 : Bool,
      (cfg_of [("spaceAround", ConfigKeyValue.bool v1), ("arguments.spaceAround", ConfigKeyValue.bool v2)]).arguments_space_around = v2 := by decide

set_option maxHeartbeats 2000000 in
/-- Helper for C1 (c1_space_around_leaf_wins_all). -/
lemma c1_space_around_leaf_wins_all :
    (cfg_of [("spaceAround", ConfigKeyValue.bool true), ("arguments.spaceAround", ConfigKeyValue.bool false)]).arguments_space_around = false
      ∧ (cfg_of [("spaceAround", ConfigKeyValue.bool true), ("arrayExpression.spaceAround", ConfigKeyValue.bool false)]).array_expression_space_around = false
      ∧ (cfg_of [("spaceAround", ConfigKeyValue.bool true), ("arrayPattern.spaceAround", ConfigKeyValue.bool false)]).array_pattern_space_around = false
      ∧ (cfg_of [("spaceAround", ConfigKeyValue.bool true), ("catchClause.spaceAround", ConfigKeyValue.bool false)]).catch_clause_space_around = false
      ∧ (cfg_of [("spaceAround", ConfigKeyValue.bool true), ("doWhileStatement.spaceAround", ConfigKeyValue.bool false)]).do_while_statement_space_around = false
      ∧ (cfg_of [("spaceAround", ConfigKeyValue.bool true), ("forInStatement.spaceAround", ConfigKeyValue.bool false)]).for_in_statement_space_around = false
      ∧ (cfg_of [("spaceAround", ConfigKeyValue.bool true), ("forOfStatement.spaceAround", ConfigKeyValue.bool false)]).for_of_statement_space_around = false
      ∧ (cfg_of [("spaceAround", ConfigKeyValue.bool true), ("forStatement.spaceAround", ConfigKeyValue.bool false)]).for_statement_space_around = false
      ∧ (cfg_of [("spaceAround", ConfigKeyValue.bool true), ("ifStatement.spaceAround", ConfigKeyValue.bool false)]).if_statement_space_around = false
      ∧ (cfg_of [("spaceAround", ConfigKeyValue.bool true), ("parameters.spaceAround", ConfigKeyValue.bool false)]).parameters_space_around = false
      ∧ (cfg_of [("spaceAround", ConfigKeyValue.bool true), ("switchStatement.spaceAround", ConfigKeyValue.bool false)]).switch_statement_space_around = false
      ∧ (cfg_of [("spaceAround", ConfigKeyValue.bool true), ("tupleType.spaceAround", ConfigKeyValue.bool false)]).tuple_type_space_around = false
      ∧ (cfg_of [("spaceAround", ConfigKeyValue.bool true), ("whileStatement.spaceAround", ConfigKeyValue.bool false)]).while_statement_space_around = false
      ∧ (cfg_of [("spaceAround", ConfigKeyValue.bool true), ("parenExpression.spaceAround", ConfigKeyValue.bool false)]).paren_expression_space_around = false := by decide

set_option maxHeartbeats 2000000 in
/-- Helper for C1 (c1_separator_kind_category). -/
lemma c1_separator_kind_category :
    ∀ v : SemiColonOrComma,
      (cfg_of [("typeLiteral.separatorKind", ConfigKeyValue.str v.key_string)]).type_literal_separator_kind_single_line = v
      ∧ (cfg_of [("typeLiteral.separatorKind", ConfigKeyValue.str v.key_string)]).type_literal_separator_kind_multi_line = v := by decide

set_option maxHeartbeats 2000000 in
/-- Helper for C1 (c1_separator_kind_leaf_wins). -/
lemma c1_separator_kind_leaf_wins :
    ∀ v1 v2 : SemiColonOrComma,
      (cfg_of [("typeLiteral.separatorKind", ConfigKeyValue.str v1.key_string), ("typeLiteral.separatorKind.singleLine", ConfigKeyValue.str v2.key_string)]).type_literal_separator_kind_single_line = v2
      ∧ (cfg_of [("typeLiteral.separatorKind", ConfigKeyValue.str v1.key_string), ("typeLiteral.separatorKind.multiLine", ConfigKeyValue.str v2.key_string)]).type_literal_separator_kind_multi_line = v2 := by decide

set_option maxHeartbeats 2000000 in
/-- Helper for C1 (c1_jsx_bracket_position_category). -/
lemma c1_jsx_bracket_position_category :
    ∀ v : SameOrNextLinePosition,
      (cfg_of [("jsx.bracketPosition", ConfigKeyValue.str v.key_string)]).jsx_opening_element_bracket_position = v
      ∧ (cfg_of [("jsx.bracketPosition", ConfigKeyValue.str v.key_string)]).jsx_self_closing_element_bracket_position = v := by decide

set_option maxHeartbeats 2000000 in
/-- Helper for C1 (c1_jsx_bracket_position_leaf_wins). -/
lemma c1_jsx_bracket_position_leaf_wins :
    ∀ v1 v2 : SameOrNextLinePosition,
      (cfg_of [("jsx.bracketPosition", ConfigKeyValue.str v1.key_string), ("jsxOpeningElement.bracketPosition", ConfigKeyValue.str v2.key_string)]).jsx_opening_element_bracket_position = v2
      ∧ (cfg_of [("jsx.bracketPosition", ConfigKeyValue.str v1.key_string), ("jsxSelfClosingElement.bracketPosition", ConfigKeyValue.str v2.key_string)]).jsx_self_closing_element_bracket_position = v2 := by decide

set_option maxHeartbeats 2000000 in
/-- Helper for C1 (c1_jsx_quote_style_category). -/
lemma c1_jsx_quote_style_category :
    ∀ q : QuoteStyle,
      (cfg_of [("quoteStyle", ConfigKeyValue.str q.key_string)]).jsx_quote_style = q.to_jsx_quote_style := by decide

set_option maxHeartbeats 2000000 in
/-- Helper for C1 (c1_jsx_quote_style_leaf_wins). -/
lemma c1_jsx_quote_style_leaf_wins :
    ∀ q : QuoteStyle,
      (cfg_of [("quoteStyle", ConfigKeyValue.str q.key_string), ("jsx.quoteStyle", ConfigKeyValue.str "preferSingle")]).jsx_quote_style = JsxQuoteStyle.PreferSingle := by decide

/-- C1: Cascade precedence for category-to-leaf defaults: setting only a
category option resolves every leaf it feeds to the category value; setting
both the category and a leaf resolves that leaf to its explicit value (all
value pairs at a representative leaf per category, and every leaf at a fixed
value pair). -/
theorem cascade_precedence_category_to_leaf :
    (∀ v : BracePosition,
      (cfg_of [("bracePosition", ConfigKeyValue.str v.key_string)]).arrow_function_brace_position = v
      ∧ (cfg_of [("bracePosition", ConfigKeyValue.str v.key_string)]).class_declaration_brace_position = v
      ∧ (cfg_of [("bracePosition", ConfigKeyValue.str v.key_string)]).class_expression_brace_position = v
      ∧ (cfg_of [("bracePosition", ConfigKeyValue.str v.key_string)]).constructor_brace_position = v
      ∧ (cfg_of [("bracePosition", ConfigKeyValue.str v.key_string)]).do_while_statement_brace_position = v
      ∧ (cfg_of [("bracePosition", ConfigKeyValue.str v.key_string)]).enum_declaration_brace_position = v
      ∧ (cfg_of [("bracePosition", ConfigKeyValue.str v.key_string)]).for_statement_brace_position = v
      ∧ (cfg_of [("bracePosition", ConfigKeyValue.str v.key_string)]).for_in_statement_brace_position = v
      ∧ (cfg_of [("bracePosition", ConfigKeyValue.str v.key_string)]).for_of_statement_brace_position = v
      ∧ (cfg_of [("bracePosition", ConfigKeyValue.str v.key_string)]).get_accessor_brace_position = v
      ∧ (cfg_of [("bracePosition", ConfigKeyValue.str v.key_string)]).if_statement_brace_position = v
      ∧ (cfg_of [("bracePosition", ConfigKeyValue.str v.key_string)]).interface_declaration_brace_position = v
      ∧ (cfg_of [("bracePosition", ConfigKeyValue.str v.key_string)]).function_declaration_brace_position = v
      ∧ (cfg_of [("bracePosition", ConfigKeyValue.str v.key_string)]).function_expression_brace_position = v
      ∧ (cfg_of [("bracePosition", ConfigKeyValue.str v.key_string)]).method_brace_position = v
      ∧ (cfg_of [("bracePosition", ConfigKeyValue.str v.key_string)]).module_declaration_brace_position = v
      ∧ (cfg_of [("bracePosition", ConfigKeyValue.str v.key_string)]).set_accessor_brace_position = v
      ∧ (cfg_of [("bracePosition", ConfigKeyValue.str v.key_string)]).static_block_brace_position = v
      ∧ (cfg_of [("bracePosition", ConfigKeyValue.str v.key_string)]).switch_case_brace_position = v
      ∧ (cfg_of [("bracePosition", ConfigKeyValue.str v.key_string)]).switch_statement_brace_position = v
      ∧ (cfg_of [("bracePosition", ConfigKeyValue.str v.key_string)]).try_statement_brace_position = v
      ∧ (cfg_of [("bracePosition", ConfigKeyValue.str v.key_string)]).while_statement_brace_position = v)
    ∧ (∀ v1 v2 : BracePosition,
      (cfg_of [("bracePosition", ConfigKeyValue.str v1.key_string), ("ifStatement.bracePosition", ConfigKeyValue.str v2.key_string)]).if_statement_brace_position = v2)
    ∧ ((cfg_of [("bracePosition", ConfigKeyValue.str (BracePosition.SameLine).key_string), ("arrowFunction.bracePosition", ConfigKeyValue.str (BracePosition.NextLine).key_string)]).arrow_function_brace_position = (BracePosition.NextLine)
      ∧ (cfg_of [("bracePosition", ConfigKeyValue.str (BracePosition.SameLine).key_string), ("classDeclaration.bracePosition", ConfigKeyValue.str (BracePosition.NextLine).key_string)]).class_declaration_brace_position = (BracePosition.NextLine)
      ∧ (cfg_of [("bracePosition", ConfigKeyValue.str (BracePosition.SameLine).key_string), ("classExpression.bracePosition", ConfigKeyValue.str (BracePosition.NextLine).key_string)]).class_expression_brace_position = (BracePosition.NextLine)
      ∧ (cfg_of [("bracePosition", ConfigKeyValue.str (BracePosition.SameLine).key_string), ("constructor.bracePosition", ConfigKeyValue.str (BracePosition.NextLine).key_string)]).constructor_brace_position = (BracePosition.NextLine)
      ∧ (cfg_of [("bracePosition", ConfigKeyValue.str (BracePosition.SameLine).key_string), ("doWhileStatement.bracePosition", ConfigKeyValue.str (BracePosition.NextLine).key_string)]).do_while_statement_brace_position = (BracePosition.NextLine)
      ∧ (cfg_of [("bracePosition", ConfigKeyValue.str (BracePosition.SameLine).key_string), ("enumDeclaration.bracePosition", ConfigKeyValue.str (BracePosition.NextLine).key_string)]).enum_declaration_brace_position = (BracePosition.NextLine)
      ∧ (cfg_of [("bracePosition", ConfigKeyValue.str (BracePosition.SameLine).key_string), ("forStatement.bracePosition", ConfigKeyValue.str (BracePosition.NextLine).key_string)]).for_statement_brace_position = (BracePosition.NextLine)
      ∧ (cfg_of [("bracePosition", ConfigKeyValue.str (BracePosition.SameLine).key_string), ("forInStatement.bracePosition", ConfigKeyValue.str (BracePosition.NextLine).key_string)]).for_in_statement_brace_position = (BracePosition.NextLine)
      ∧ (cfg_of [("bracePosition", ConfigKeyValue.str (BracePosition.SameLine).key_string), ("forOfStatement.bracePosition", ConfigKeyValue.str (BracePosition.NextLine).key_string)]).for_of_statement_brace_position = (BracePosition.NextLine)
      ∧ (cfg_of [("bracePosition", ConfigKeyValue.str (BracePosition.SameLine).key_string), ("getAccessor.bracePosition", ConfigKeyValue.str (BracePosition.NextLine).key_string)]).get_accessor_brace_position = (BracePosition.NextLine)
      ∧ (cfg_of [("bracePosition", ConfigKeyValue.str (BracePosition.SameLine).key_string), ("ifStatement.bracePosition", ConfigKeyValue.str (BracePosition.NextLine).key_string)]).if_statement_brace_position = (BracePosition.NextLine)
      ∧ (cfg_of [("bracePosition", ConfigKeyValue.str (BracePosition.SameLine).key_string), ("interfaceDeclaration.bracePosition", ConfigKeyValue.str (BracePosition.NextLine).key_string)]).interface_declaration_brace_position = (BracePosition.NextLine)
      ∧ (cfg_of [("bracePosition", ConfigKeyValue.str (BracePosition.SameLine).key_string), ("functionDeclaration.bracePosition", ConfigKeyValue.str (BracePosition.NextLine).key_string)]).function_declaration_brace_position = (BracePosition.NextLine)
      ∧ (cfg_of [("bracePosition", ConfigKeyValue.str (BracePosition.SameLine).key_string), ("functionExpression.bracePosition", ConfigKeyValue.str (BracePosition.NextLine).key_string)]).function_expression_brace_position = (BracePosition.NextLine)
      ∧ (cfg_of [("bracePosition", ConfigKeyValue.str (BracePosition.SameLine).key_string), ("method.bracePosition", ConfigKeyValue.str (BracePosition.NextLine).key_string)]).method_brace_position = (BracePosition.NextLine)
      ∧ (cfg_of [("bracePosition", ConfigKeyValue.str (BracePosition.SameLine).key_string), ("moduleDeclaration.bracePosition", ConfigKeyValue.str (BracePosition.NextLine).key_string)]).module_declaration_brace_position = (BracePosition.NextLine)
      ∧ (cfg_of [("bracePosition", ConfigKeyValue.str (BracePosition.SameLine).key_string), ("setAccessor.bracePosition", ConfigKeyValue.str (BracePosition.NextLine).key_string)]).set_accessor_brace_position = (BracePosition.NextLine)
      ∧ (cfg_of [("bracePosition", ConfigKeyValue.str (BracePosition.SameLine).key_string), ("staticBlock.bracePosition", ConfigKeyValue.str (BracePosition.NextLine).key_string)]).static_block_brace_position = (BracePosition.NextLine)
      ∧ (cfg_of [("bracePosition", ConfigKeyValue.str (BracePosition.SameLine).key_string), ("switchCase.bracePosition", ConfigKeyValue.str (BracePosition.NextLine).key_string)]).switch_case_brace_position = (BracePosition.NextLine)
      ∧ (cfg_of [("bracePosition", ConfigKeyValue.str (BracePosition.SameLine).key_string), ("switchStatement.bracePosition", ConfigKeyValue.str (BracePosition.NextLine).key_string)]).switch_statement_brace_position = (BracePosition.NextLine)
      ∧ (cfg_of [("bracePosition", ConfigKeyValue.str (BracePosition.SameLine).key_string), ("tryStatement.bracePosition", ConfigKeyValue.str (BracePosition.NextLine).key_string)]).try_statement_brace_position = (BracePosition.NextLine)
      ∧ (cfg_of [("bracePosition", ConfigKeyValue.str (BracePosition.SameLine).key_string), ("whileStatement.bracePosition", ConfigKeyValue.str (BracePosition.NextLine).key_string)]).while_statement_brace_position = (BracePosition.NextLine))
    ∧ (∀ v : NextControlFlowPosition,
      (cfg_of [("nextControlFlowPosition", ConfigKeyValue.str v.key_string)]).if_statement_next_control_flow_position = v
      ∧ (cfg_of [("nextControlFlowPosition", ConfigKeyValue.str v.key_string)]).try_statement_next_control_flow_position = v
      ∧ (cfg_of [("nextControlFlowPosition", ConfigKeyValue.str v.key_string)]).do_while_statement_next_control_flow_position = v)
    ∧ (∀ v1 v2 : NextControlFlowPosition,
      (cfg_of [("nextControlFlowPosition", ConfigKeyValue.str v1.key_string), ("ifStatement.nextControlFlowPosition", ConfigKeyValue.str v2.key_string)]).if_statement_next_control_flow_position = v2)
    ∧ ((cfg_of [("nextControlFlowPosition", ConfigKeyValue.str (NextControlFlowPosition.SameLine).key_string), ("ifStatement.nextControlFlowPosition", ConfigKeyValue.str (NextControlFlowPosition.NextLine).key_string)]).if_statement_next_control_flow_position = (NextControlFlowPosition.NextLine)
      ∧ (cfg_of [("nextControlFlowPosition", ConfigKeyValue.str (NextControlFlowPosition.SameLine).key_string), ("tryStatement.nextControlFlowPosition", ConfigKeyValue.str (NextControlFlowPosition.NextLine).key_string)]).try_statement_next_control_flow_position = (NextControlFlowPosition.NextLine)
      ∧ (cfg_of [("nextControlFlowPosition", ConfigKeyValue.str (NextControlFlowPosition.SameLine).key_string), ("doWhileStatement.nextControlFlowPosition", ConfigKeyValue.str (NextControlFlowPosition.NextLine).key_string)]).do_while_statement_next_control_flow_position = (NextControlFlowPosition.NextLine))
    ∧ (∀ v : OperatorPosition,
      (cfg_of [("operatorPosition", ConfigKeyValue.str v.key_string)]).binary_expression_operator_position = v
      ∧ (cfg_of [("operatorPosition", ConfigKeyValue.str v.key_string)]).conditional_expression_operator_position = v
      ∧ (cfg_of [("operatorPosition", ConfigKeyValue.str v.key_string)]).conditional_type_operator_position = v)
    ∧ (∀ v1 v2 : OperatorPosition,
      (cfg_of [("operatorPosition", ConfigKeyValue.str v1.key_string), ("binaryExpression.operatorPosition", ConfigKeyValue.str v2.key_string)]).binary_expression_operator_position = v2)
    ∧ ((cfg_of [("operatorPosition", ConfigKeyValue.str (OperatorPosition.SameLine).key_string), ("binaryExpression.operatorPosition", ConfigKeyValue.str (OperatorPosition.NextLine).key_string)]).binary_expression_operator_position = (OperatorPosition.NextLine)
      ∧ (cfg_of [("operatorPosition", ConfigKeyValue.str (OperatorPosition.SameLine).key_string), ("conditionalExpression.operatorPosition", ConfigKeyValue.str (OperatorPosition.NextLine).key_string)]).conditional_expression_operator_position = (OperatorPosition.NextLine)
      ∧ (cfg_of [("operatorPosition", ConfigKeyValue.str (OperatorPosition.SameLine).key_string), ("conditionalType.operatorPosition", ConfigKeyValue.str (OperatorPosition.NextLine).key_string)]).conditional_type_operator_position = (OperatorPosition.NextLine))
    ∧ (∀ v : SameOrNextLinePosition,
      (cfg_of [("singleBodyPosition", ConfigKeyValue.str v.key_string)]).if_statement_single_body_position = v
      ∧ (cfg_of [("singleBodyPosition", ConfigKeyValue.str v.key_string)]).for_statement_single_body_position = v
      ∧ (cfg_of [("singleBodyPosition", ConfigKeyValue.str v.key_string)]).for_in_statement_single_body_position = v
      ∧ (cfg_of [("singleBodyPosition", ConfigKeyValue.str v.key_string)]).for_of_statement_single_body_position = v
      ∧ (cfg_of [("singleBodyPosition", ConfigKeyValue.str v.key_string)]).while_statement_single_body_position = v)
    ∧ (∀ v1 v2 : SameOrNextLinePosition,
      (cfg_of [("singleBodyPosition", ConfigKeyValue.str v1.key_string), ("ifStatement.singleBodyPosition", ConfigKeyValue.str v2.key_string)]).if_statement_single_body_position = v2)
    ∧ ((cfg_of [("singleBodyPosition", ConfigKeyValue.str (SameOrNextLinePosition.SameLine).key_string), ("ifStatement.singleBodyPosition", ConfigKeyValue.str (SameOrNextLinePosition.NextLine).key_string)]).if_statement_single_body_position = (SameOrNextLinePosition.NextLine)
      ∧ (cfg_of [("singleBodyPosition", ConfigKeyValue.str (SameOrNextLinePosition.SameLine).key_string), ("forStatement.singleBodyPosition", ConfigKeyValue.str (SameOrNextLinePosition.NextLine).key_string)]).for_statement_single_body_position = (SameOrNextLinePosition.NextLine)
      ∧ (cfg_of [("singleBodyPosition", ConfigKeyValue.str (SameOrNextLinePosition.SameLine).key_string), ("forInStatement.singleBodyPosition", ConfigKeyValue.str (SameOrNextLinePosition.NextLine).key_string)]).for_in_statement_single_body_position = (SameOrNextLinePosition.NextLine)
      ∧ (cfg_of [("singleBodyPosition", ConfigKeyValue.str (SameOrNextLinePosition.SameLine).key_string), ("forOfStatement.singleBodyPosition", ConfigKeyValue.str (SameOrNextLinePosition.NextLine).key_string)]).for_of_statement_single_body_position = (SameOrNextLinePosition.NextLine)
      ∧ (cfg_of [("singleBodyPosition", ConfigKeyValue.str (SameOrNextLinePosition.SameLine).key_string), ("whileStatement.singleBodyPosition", ConfigKeyValue.str (SameOrNextLinePosition.NextLine).key_string)]).while_statement_single_body_position = (SameOrNextLinePosition.NextLine))
    ∧ (∀ v : TrailingCommas,
      (cfg_of [("trailingCommas", ConfigKeyValue.str v.key_string)]).arguments_trailing_commas = v
      ∧ (cfg_of [("trailingCommas", ConfigKeyValue.str v.key_string)]).parameters_trailing_commas = v
      ∧ (cfg_of [("trailingCommas", ConfigKeyValue.str v.key_string)]).array_expression_trailing_commas = v
      ∧ (cfg_of [("trailingCommas", ConfigKeyValue.str v.key_string)]).array_pattern_trailing_commas = v
      ∧ (cfg_of [("trailingCommas", ConfigKeyValue.str v.key_string)]).enum_declaration_trailing_commas = v
      ∧ (cfg_of [("trailingCommas", ConfigKeyValue.str v.key_string)]).export_declaration_trailing_commas = v
      ∧ (cfg_of [("trailingCommas", ConfigKeyValue.str v.key_string)]).import_declaration_trailing_commas = v
      ∧ (cfg_of [("trailingCommas", ConfigKeyValue.str v.key_string)]).object_expression_trailing_commas = v
      ∧ (cfg_of [("trailingCommas", ConfigKeyValue.str v.key_string)]).object_pattern_trailing_commas = v
      ∧ (cfg_of [("trailingCommas", ConfigKeyValue.str v.key_string)]).tuple_type_trailing_commas = v
      ∧ (cfg_of [("trailingCommas", ConfigKeyValue.str v.key_string)]).type_literal_trailing_commas = v
      ∧ (cfg_of [("trailingCommas", ConfigKeyValue.str v.key_string)]).type_parameters_trailing_commas = v)
    ∧ (∀ v1 v2 : TrailingCommas,
      (cfg_of [("trailingCommas", ConfigKeyValue.str v1.key_string), ("arguments.trailingCommas", ConfigKeyValue.str v2.key_string)]).arguments_trailing_commas = v2)
    ∧ ((cfg_of [("trailingCommas", ConfigKeyValue.str (TrailingCommas.Always).key_string), ("arguments.trailingCommas", ConfigKeyValue.str (TrailingCommas.Never).key_string)]).arguments_trailing_commas = (TrailingCommas.Never)
      ∧ (cfg_of [("trailingCommas", ConfigKeyValue.str (TrailingCommas.Always).key_string), ("parameters.trailingCommas", ConfigKeyValue.str (TrailingCommas.Never).key_string)]).parameters_trailing_commas = (TrailingCommas.Never)
      ∧ (cfg_of [("trailingCommas", ConfigKeyValue.str (TrailingCommas.Always).key_string), ("arrayExpression.trailingCommas", ConfigKeyValue.str (TrailingCommas.Never).key_string)]).array_expression_trailing_commas = (TrailingCommas.Never)
      ∧ (cfg_of [("trailingCommas", ConfigKeyValue.str (TrailingCommas.Always).key_string), ("arrayPattern.trailingCommas", ConfigKeyValue.str (TrailingCommas.Never).key_string)]).array_pattern_trailing_commas = (TrailingCommas.Never)
      ∧ (cfg_of [("trailingCommas", ConfigKeyValue.str (TrailingCommas.Always).key_string), ("enumDeclaration.trailingCommas", ConfigKeyValue.str (TrailingCommas.Never).key_string)]).enum_declaration_trailing_commas = (TrailingCommas.Never)
      ∧ (cfg_of [("trailingCommas", ConfigKeyValue.str (TrailingCommas.Always).key_string), ("exportDeclaration.trailingCommas", ConfigKeyValue.str (TrailingCommas.Never).key_string)]).export_declaration_trailing_commas = (TrailingCommas.Never)
      ∧ (cfg_of [("trailingCommas", ConfigKeyValue.str (TrailingCommas.Always).key_string), ("importDeclaration.trailingCommas", ConfigKeyValue.str (TrailingCommas.Never).key_string)]).import_declaration_trailing_commas = (TrailingCommas.Never)
      ∧ (cfg_of [("trailingCommas", ConfigKeyValue.str (TrailingCommas.Always).key_string), ("objectExpression.trailingCommas", ConfigKeyValue.str (TrailingCommas.Never).key_string)]).object_expression_trailing_commas = (TrailingCommas.Never)
      ∧ (cfg_of [("trailingCommas", ConfigKeyValue.str (TrailingCommas.Always).key_string), ("objectPattern.trailingCommas", ConfigKeyValue.str (TrailingCommas.Never).key_string)]).object_pattern_trailing_commas = (TrailingCommas.Never)
      ∧ (cfg_of [("trailingCommas", ConfigKeyValue.str (TrailingCommas.Always).key_string), ("tupleType.trailingCommas", ConfigKeyValue.str (TrailingCommas.Never).key_string)]).tuple_type_trailing_commas = (TrailingCommas.Never)
      ∧ (cfg_of [("trailingCommas", ConfigKeyValue.str (TrailingCommas.Always).key_string), ("typeLiteral.trailingCommas", ConfigKeyValue.str (TrailingCommas.Never).key_string)]).type_literal_trailing_commas = (TrailingCommas.Never)
      ∧ (cfg_of [("trailingCommas", ConfigKeyValue.str (TrailingCommas.Always).key_string), ("typeParameters.trailingCommas", ConfigKeyValue.str (TrailingCommas.Never).key_string)]).type_parameters_trailing_commas = (TrailingCommas.Never))
    ∧ (∀ v : UseBraces,
      (cfg_of [("useBraces", ConfigKeyValue.str v.key_string)]).if_statement_use_braces = v
      ∧ (cfg_of [("useBraces", ConfigKeyValue.str v.key_string)]).for_statement_use_braces = v
      ∧ (cfg_of [("useBraces", ConfigKeyValue.str v.key_string)]).for_in_statement_use_braces = v
      ∧ (cfg_of [("useBraces", ConfigKeyValue.str v.key_string)]).for_of_statement_use_braces = v
      ∧ (cfg_of [("useBraces", ConfigKeyValue.str v.key_string)]).while_statement_use_braces = v)
    ∧ (∀ v1 v2 : UseBraces,
      (cfg_of [("useBraces", ConfigKeyValue.str v1.key_string), ("ifStatement.useBraces", ConfigKeyValue.str v2.key_string)]).if_statement_use_braces = v2)
    ∧ ((cfg_of [("useBraces", ConfigKeyValue.str (UseBraces.Always).key_string), ("ifStatement.useBraces", ConfigKeyValue.str (UseBraces.PreferNone).key_string)]).if_statement_use_braces = (UseBraces.PreferNone)
      ∧ (cfg_of [("useBraces", ConfigKeyValue.str (UseBraces.Always).key_string), ("forStatement.useBraces", ConfigKeyValue.str (UseBraces.PreferNone).key_string)]).for_statement_use_braces = (UseBraces.PreferNone)
      ∧ (cfg_of [("useBraces", ConfigKeyValue.str (UseBraces.Always).key_string), ("forInStatement.useBraces", ConfigKeyValue.str (UseBraces.PreferNone).key_string)]).for_in_statement_use_braces = (UseBraces.PreferNone)
      ∧ (cfg_of [("useBraces", ConfigKeyValue.str (UseBraces.Always).key_string), ("forOfStatement.useBraces", ConfigKeyValue.str (UseBraces.PreferNone).key_string)]).for_of_statement_use_braces = (UseBraces.PreferNone)
      ∧ (cfg_of [("useBraces", ConfigKeyValue.str (UseBraces.Always).key_string), ("whileStatement.useBraces", ConfigKeyValue.str (UseBraces.PreferNone).key_string)]).while_statement_use_braces = (UseBraces.PreferNone))
    ∧ (∀ v : Bool,
      (cfg_of [("preferHanging", ConfigKeyValue.bool v)]).array_pattern_prefer_hanging = v
      ∧ (cfg_of [("preferHanging", ConfigKeyValue.bool v)]).do_while_statement_prefer_hanging = v
      ∧ (cfg_of [("preferHanging", ConfigKeyValue.bool v)]).export_declaration_prefer_hanging = v
      ∧ (cfg_of [("preferHanging", ConfigKeyValue.bool v)]).extends_clause_prefer_hanging = v
      ∧ (cfg_of [("preferHanging", ConfigKeyValue.bool v)]).for_in_statement_prefer_hanging = v
      ∧ (cfg_of [("preferHanging", ConfigKeyValue.bool v)]).for_of_statement_prefer_hanging = v
      ∧ (cfg_of [("preferHanging", ConfigKeyValue.bool v)]).for_statement_prefer_hanging = v
      ∧ (cfg_of [("preferHanging", ConfigKeyValue.bool v)]).if_statement_prefer_hanging = v
      ∧ (cfg_of [("preferHanging", ConfigKeyValue.bool v)]).implements_clause_prefer_hanging = v
      ∧ (cfg_of [("preferHanging", ConfigKeyValue.bool v)]).import_declaration_prefer_hanging = v
      ∧ (cfg_of [("preferHanging", ConfigKeyValue.bool v)]).jsx_attributes_prefer_hanging = v
      ∧ (cfg_of [("preferHanging", ConfigKeyValue.bool v)]).object_expression_prefer_hanging = v
      ∧ (cfg_of [("preferHanging", ConfigKeyValue.bool v)]).object_pattern_prefer_hanging = v
      ∧ (cfg_of [("preferHanging", ConfigKeyValue.bool v)]).sequence_expression_prefer_hanging = v
      ∧ (cfg_of [("preferHanging", ConfigKeyValue.bool v)]).switch_statement_prefer_hanging = v
      ∧ (cfg_of [("preferHanging", ConfigKeyValue.bool v)]).type_literal_prefer_hanging = v
      ∧ (cfg_of [("preferHanging", ConfigKeyValue.bool v)]).union_and_intersection_type_prefer_hanging = v
      ∧ (cfg_of [("preferHanging", ConfigKeyValue.bool v)]).variable_statement_prefer_hanging = v
      ∧ (cfg_of [("preferHanging", ConfigKeyValue.bool v)]).while_statement_prefer_hanging = v)
    ∧ (∀ v1 v2 : Bool,
      (cfg_of [("preferHanging", ConfigKeyValue.bool v1), ("ifStatement.preferHanging", ConfigKeyValue.bool v2)]).if_statement_prefer_hanging = v2)
    ∧ ((cfg_of [("preferHanging", ConfigKeyValue.bool true), ("arrayPattern.preferHanging", ConfigKeyValue.bool false)]).array_pattern_prefer_hanging = false
      ∧ (cfg_of [("preferHanging", ConfigKeyValue.bool true), ("doWhileStatement.preferHanging", ConfigKeyValue.bool false)]).do_while_statement_prefer_hanging = false
      ∧ (cfg_of [("preferHanging", ConfigKeyValue.bool true), ("exportDeclaration.preferHanging", ConfigKeyValue.bool false)]).export_declaration_prefer_hanging = false
      ∧ (cfg_of [("preferHanging", ConfigKeyValue.bool true), ("extendsClause.preferHanging", ConfigKeyValue.bool false)]).extends_clause_prefer_hanging = false
      ∧ (cfg_of [("preferHanging", ConfigKeyValue.bool true), ("forInStatement.preferHanging", ConfigKeyValue.bool false)]).for_in_statement_prefer_hanging = false
      ∧ (cfg_of [("preferHanging", ConfigKeyValue.bool true), ("forOfStatement.preferHanging", ConfigKeyValue.bool false)]).for_of_statement_prefer_hanging = false
      ∧ (cfg_of [("preferHanging", ConfigKeyValue.bool true), ("forStatement.preferHanging", ConfigKeyValue.bool false)]).for_statement_prefer_hanging = false
      ∧ (cfg_of [("preferHanging", ConfigKeyValue.bool true), ("ifStatement.preferHanging", ConfigKeyValue.bool false)]).if_statement_prefer_hanging = false
      ∧ (cfg_of [("preferHanging", ConfigKeyValue.bool true), ("implementsClause.preferHanging", ConfigKeyValue.bool false)]).implements_clause_prefer_hanging = false
      ∧ (cfg_of [("preferHanging", ConfigKeyValue.bool true), ("importDeclaration.preferHanging", ConfigKeyValue.bool false)]).import_declaration_prefer_hanging = false
      ∧ (cfg_of [("preferHanging", ConfigKeyValue.bool true), ("jsxAttributes.preferHanging", ConfigKeyValue.bool false)]).jsx_attributes_prefer_hanging = false
      ∧ (cfg_of [("preferHanging", ConfigKeyValue.bool true), ("objectExpression.preferHanging", ConfigKeyValue.bool false)]).object_expression_prefer_hanging = false
      ∧ (cfg_of [("preferHanging", ConfigKeyValue.bool true), ("objectPattern.preferHanging", ConfigKeyValue.bool false)]).object_pattern_prefer_hanging = false
      ∧ (cfg_of [("preferHanging", ConfigKeyValue.bool true), ("sequenceExpression.preferHanging", ConfigKeyValue.bool false)]).sequence_expression_prefer_hanging = false
      ∧ (cfg_of [("preferHanging", ConfigKeyValue.bool true), ("switchStatement.preferHanging", ConfigKeyValue.bool false)]).switch_statement_prefer_hanging = false
      ∧ (cfg_of [("preferHanging", ConfigKeyValue.bool true), ("typeLiteral.preferHanging", ConfigKeyValue.bool false)]).type_literal_prefer_hanging = false
      ∧ (cfg_of [("preferHanging", ConfigKeyValue.bool true), ("unionAndIntersectionType.preferHanging", ConfigKeyValue.bool false)]).union_and_intersection_type_prefer_hanging = false
      ∧ (cfg_of [("preferHanging", ConfigKeyValue.bool true), ("variableStatement.preferHanging", ConfigKeyValue.bool false)]).variable_statement_prefer_hanging = false
      ∧ (cfg_of [("preferHanging", ConfigKeyValue.bool true), ("whileStatement.preferHanging", ConfigKeyValue.bool false)]).while_statement_prefer_hanging = false)
    ∧ (∀ v : Bool,
      (cfg_of [("preferHanging", ConfigKeyValue.bool v)]).arguments_prefer_hanging = (if v then PreferHanging.Always else PreferHanging.Never)
      ∧ (cfg_of [("preferHanging", ConfigKeyValue.bool v)]).array_expression_prefer_hanging = (if v then PreferHanging.Always else PreferHanging.Never)
      ∧ (cfg_of [("preferHanging", ConfigKeyValue.bool v)]).parameters_prefer_hanging = (if v then PreferHanging.Always else PreferHanging.Never)
      ∧ (cfg_of [("preferHanging", ConfigKeyValue.bool v)]).tuple_type_prefer_hanging = (if v then PreferHanging.Always else PreferHanging.Never)
      ∧ (cfg_of [("preferHanging", ConfigKeyValue.bool v)]).type_parameters_prefer_hanging = (if v then PreferHanging.Always else PreferHanging.Never))
    ∧ (∀ v1 : Bool, ∀ l : PreferHanging,
      (cfg_of [("preferHanging", ConfigKeyValue.bool v1), ("arguments.preferHanging", ConfigKeyValue.str l.key_string)]).arguments_prefer_hanging = l)
    ∧ ((cfg_of [("preferHanging", ConfigKeyValue.bool true), ("arguments.preferHanging", ConfigKeyValue.str "never")]).arguments_prefer_hanging = PreferHanging.Never
      ∧ (cfg_of [("preferHanging", ConfigKeyValue.bool true), ("arrayExpression.preferHanging", ConfigKeyValue.str "never")]).array_expression_prefer_hanging = PreferHanging.Never
      ∧ (cfg_of [("preferHanging", ConfigKeyValue.bool true), ("parameters.preferHanging", ConfigKeyValue.str "never")]).parameters_prefer_hanging = PreferHanging.Never
      ∧ (cfg_of [("preferHanging", ConfigKeyValue.bool true), ("tupleType.preferHanging", ConfigKeyValue.str "never")]).tuple_type_prefer_hanging = PreferHanging.Never
      ∧ (cfg_of [("preferHanging", ConfigKeyValue.bool true), ("typeParameters.preferHanging", ConfigKeyValue.str "never")]).type_parameters_prefer_hanging = PreferHanging.Never)
    ∧ (∀ v : Bool,
      (cfg_of [("preferSingleLine", ConfigKeyValue.bool v)]).array_expression_prefer_single_line = v
      ∧ (cfg_of [("preferSingleLine", ConfigKeyValue.bool v)]).array_pattern_prefer_single_line = v
      ∧ (cfg_of [("preferSingleLine", ConfigKeyValue.bool v)]).arguments_prefer_single_line = v
      ∧ (cfg_of [("preferSingleLine", ConfigKeyValue.bool v)]).binary_expression_prefer_single_line = v
      ∧ (cfg_of [("preferSingleLine", ConfigKeyValue.bool v)]).computed_prefer_single_line = v
      ∧ (cfg_of [("preferSingleLine", ConfigKeyValue.bool v)]).conditional_expression_prefer_single_line = v
      ∧ (cfg_of [("preferSingleLine", ConfigKeyValue.bool v)]).conditional_type_prefer_single_line = v
      ∧ (cfg_of [("preferSingleLine", ConfigKeyValue.bool v)]).decorators_prefer_single_line = v
      ∧ (cfg_of [("preferSingleLine", ConfigKeyValue.bool v)]).export_declaration_prefer_single_line = v
      ∧ (cfg_of [("preferSingleLine", ConfigKeyValue.bool v)]).for_statement_prefer_single_line = v
      ∧ (cfg_of [("preferSingleLine", ConfigKeyValue.bool v)]).import_declaration_prefer_single_line = v
      ∧ (cfg_of [("preferSingleLine", ConfigKeyValue.bool v)]).jsx_attributes_prefer_single_line = v
      ∧ (cfg_of [("preferSingleLine", ConfigKeyValue.bool v)]).jsx_element_prefer_single_line = v
      ∧ (cfg_of [("preferSingleLine", ConfigKeyValue.bool v)]).mapped_type_prefer_single_line = v
      ∧ (cfg_of [("preferSingleLine", ConfigKeyValue.bool v)]).member_expression_prefer_single_line = v
      ∧ (cfg_of [("preferSingleLine", ConfigKeyValue.bool v)]).object_expression_prefer_single_line = v
      ∧ (cfg_of [("preferSingleLine", ConfigKeyValue.bool v)]).object_pattern_prefer_single_line = v
      ∧ (cfg_of [("preferSingleLine", ConfigKeyValue.bool v)]).parameters_prefer_single_line = v
      ∧ (cfg_of [("preferSingleLine", ConfigKeyValue.bool v)]).parentheses_prefer_single_line = v
      ∧ (cfg_of [("preferSingleLine", ConfigKeyValue.bool v)]).tuple_type_prefer_single_line = v
      ∧ (cfg_of [("preferSingleLine", ConfigKeyValue.bool v)]).type_literal_prefer_single_line = v
      ∧ (cfg_of [("preferSingleLine", ConfigKeyValue.bool v)]).type_parameters_prefer_single_line = v
      ∧ (cfg_of [("preferSingleLine", ConfigKeyValue.bool v)]).union_and_intersection_type_prefer_single_line = v
      ∧ (cfg_of [("preferSingleLine", ConfigKeyValue.bool v)]).variable_statement_prefer_single_line = v)
    ∧ (∀ v1 v2 : Bool,
      (cfg_of [("preferSingleLine", ConfigKeyValue.bool v1), ("arrayExpression.preferSingleLine", ConfigKeyValue.bool v2)]).array_expression_prefer_single_line = v2)
    ∧ ((cfg_of [("preferSingleLine", ConfigKeyValue.bool true), ("arrayExpression.preferSingleLine", ConfigKeyValue.bool false)]).array_expression_prefer_single_line = false
      ∧ (cfg_of [("preferSingleLine", ConfigKeyValue.bool true), ("arrayPattern.preferSingleLine", ConfigKeyValue.bool false)]).array_pattern_prefer_single_line = false
      ∧ (cfg_of [("preferSingleLine", ConfigKeyValue.bool true), ("arguments.preferSingleLine", ConfigKeyValue.bool false)]).arguments_prefer_single_line = false
      ∧ (cfg_of [("preferSingleLine", ConfigKeyValue.bool true), ("binaryExpression.preferSingleLine", ConfigKeyValue.bool false)]).binary_expression_prefer_single_line = false
      ∧ (cfg_of [("preferSingleLine", ConfigKeyValue.bool true), ("computed.preferSingleLine", ConfigKeyValue.bool false)]).computed_prefer_single_line = false
      ∧ (cfg_of [("preferSingleLine", ConfigKeyValue.bool true), ("conditionalExpression.preferSingleLine", ConfigKeyValue.bool false)]).conditional_expression_prefer_single_line = false
      ∧ (cfg_of [("preferSingleLine", ConfigKeyValue.bool true), ("conditionalType.preferSingleLine", ConfigKeyValue.bool false)]).conditional_type_prefer_single_line = false
      ∧ (cfg_of [("preferSingleLine", ConfigKeyValue.bool true), ("decorators.preferSingleLine", ConfigKeyValue.bool false)]).decorators_prefer_single_line = false
      ∧ (cfg_of [("preferSingleLine", ConfigKeyValue.bool true), ("exportDeclaration.preferSingleLine", ConfigKeyValue.bool false)]).export_declaration_prefer_single_line = false
      ∧ (cfg_of [("preferSingleLine", ConfigKeyValue.bool true), ("forStatement.preferSingleLine", ConfigKeyValue.bool false)]).for_statement_prefer_single_line = false
      ∧ (cfg_of [("preferSingleLine", ConfigKeyValue.bool true), ("importDeclaration.preferSingleLine", ConfigKeyValue.bool false)]).import_declaration_prefer_single_line = false
      ∧ (cfg_of [("preferSingleLine", ConfigKeyValue.bool true), ("jsxAttributes.preferSingleLine", ConfigKeyValue.bool false)]).jsx_attributes_prefer_single_line = false
      ∧ (cfg_of [("preferSingleLine", ConfigKeyValue.bool true), ("jsxElement.preferSingleLine", ConfigKeyValue.bool false)]).jsx_element_prefer_single_line = false
      ∧ (cfg_of [("preferSingleLine", ConfigKeyValue.bool true), ("mappedType.preferSingleLine", ConfigKeyValue.bool false)]).mapped_type_prefer_single_line = false
      ∧ (cfg_of [("preferSingleLine", ConfigKeyValue.bool true), ("memberExpression.preferSingleLine", ConfigKeyValue.bool false)]).member_expression_prefer_single_line = false
      ∧ (cfg_of [("preferSingleLine", ConfigKeyValue.bool true), ("objectExpression.preferSingleLine", ConfigKeyValue.bool false)]).object_expression_prefer_single_line = false
      ∧ (cfg_of [("preferSingleLine", ConfigKeyValue.bool true), ("objectPattern.preferSingleLine", ConfigKeyValue.bool false)]).object_pattern_prefer_single_line = false
      ∧ (cfg_of [("preferSingleLine", ConfigKeyValue.bool true), ("parameters.preferSingleLine", ConfigKeyValue.bool false)]).parameters_prefer_single_line = false
      ∧ (cfg_of [("preferSingleLine", ConfigKeyValue.bool true), ("parentheses.preferSingleLine", ConfigKeyValue.bool false)]).parentheses_prefer_single_line = false
      ∧ (cfg_of [("preferSingleLine", ConfigKeyValue.bool true), ("tupleType.preferSingleLine", ConfigKeyValue.bool false)]).tuple_type_prefer_single_line = false
      ∧ (cfg_of [("preferSingleLine", ConfigKeyValue.bool true), ("typeLiteral.preferSingleLine", ConfigKeyValue.bool false)]).type_literal_prefer_single_line = false
      ∧ (cfg_of [("preferSingleLine", ConfigKeyValue.bool true), ("typeParameters.preferSingleLine", ConfigKeyValue.bool false)]).type_parameters_prefer_single_line = false
      ∧ (cfg_of [("preferSingleLine", ConfigKeyValue.bool true), ("unionAndIntersectionType.preferSingleLine", ConfigKeyValue.bool false)]).union_and_intersection_type_prefer_single_line = false
      ∧ (cfg_of [("preferSingleLine", ConfigKeyValue.bool true), ("variableStatement.preferSingleLine", ConfigKeyValue.bool false)]).variable_statement_prefer_single_line = false)
    ∧ (∀ v : Bool,
      (cfg_of [("spaceSurroundingProperties", ConfigKeyValue.bool v)]).object_expression_space_surrounding_properties = v
      ∧ (cfg_of [("spaceSurroundingProperties", ConfigKeyValue.bool v)]).object_pattern_space_surrounding_properties = v
      ∧ (cfg_of [("spaceSurroundingProperties", ConfigKeyValue.bool v)]).type_literal_space_surrounding_properties = v)
    ∧ (∀ v1 v2 : Bool,
      (cfg_of [("spaceSurroundingProperties", ConfigKeyValue.bool v1), ("objectExpression.spaceSurroundingProperties", ConfigKeyValue.bool v2)]).object_expression_space_surrounding_properties = v2)
    ∧ ((cfg_of [("spaceSurroundingProperties", ConfigKeyValue.bool true), ("objectExpression.spaceSurroundingProperties", ConfigKeyValue.bool false)]).object_expression_space_surrounding_properties = false
      ∧ (cfg_of [("spaceSurroundingProperties", ConfigKeyValue.bool true), ("objectPattern.spaceSurroundingProperties", ConfigKeyValue.bool false)]).object_pattern_space_surrounding_properties = false
      ∧ (cfg_of [("spaceSurroundingProperties", ConfigKeyValue.bool true), ("typeLiteral.spaceSurroundingProperties", ConfigKeyValue.bool false)]).type_literal_space_surrounding_properties = false)
    ∧ (∀ v : Bool,
      (cfg_of [("spaceAround", ConfigKeyValue.bool v)]).arguments_space_around = v
      ∧ (cfg_of [("spaceAround", ConfigKeyValue.bool v)]).array_expression_space_around = v
      ∧ (cfg_of [("spaceAround", ConfigKeyValue.bool v)]).array_pattern_space_around = v
      ∧ (cfg_of [("spaceAround", ConfigKeyValue.bool v)]).catch_clause_space_around = v
      ∧ (cfg_of [("spaceAround", ConfigKeyValue.bool v)]).do_while_statement_space_around = v
      ∧ (cfg_of [("spaceAround", ConfigKeyValue.bool v)]).for_in_statement_space_around = v
      ∧ (cfg_of [("spaceAround", ConfigKeyValue.bool v)]).for_of_statement_space_around = v
      ∧ (cfg_of [("spaceAround", ConfigKeyValue.bool v)]).for_statement_space_around = v
      ∧ (cfg_of [("spaceAround", ConfigKeyValue.bool v)]).if_statement_space_around = v
      ∧ (cfg_of [("spaceAround", ConfigKeyValue.bool v)]).parameters_space_around = v
      ∧ (cfg_of [("spaceAround", ConfigKeyValue.bool v)]).switch_statement_space_around = v
      ∧ (cfg_of [("spaceAround", ConfigKeyValue.bool v)]).tuple_type_space_around = v
      ∧ (cfg_of [("spaceAround", ConfigKeyValue.bool v)]).while_statement_space_around = v
      ∧ (cfg_of [("spaceAround", ConfigKeyValue.bool v)]).paren_expression_space_around = v)
    ∧ (∀ v1 v2 : Bool,
      (cfg_of [("spaceAround", ConfigKeyValue.bool v1), ("arguments.spaceAround", ConfigKeyValue.bool v2)]).arguments_space_around = v2)
    ∧ ((cfg_of [("spaceAround", ConfigKeyValue.bool true), ("arguments.spaceAround", ConfigKeyValue.bool false)]).arguments_space_around = false
      ∧ (cfg_of [("spaceAround", ConfigKeyValue.bool true), ("arrayExpression.spaceAround", ConfigKeyValue.bool false)]).array_expression_space_around = false
      ∧ (cfg_of [("spaceAround", ConfigKeyValue.bool true), ("arrayPattern.spaceAround", ConfigKeyValue.bool false)]).array_pattern_space_around = false
      ∧ (cfg_of [("spaceAround", ConfigKeyValue.bool true), ("catchClause.spaceAround", ConfigKeyValue.bool false)]).catch_clause_space_around = false
      ∧ (cfg_of [("spaceAround", ConfigKeyValue.bool true), ("doWhileStatement.spaceAround", ConfigKeyValue.bool false)]).do_while_statement_space_around = false
      ∧ (cfg_of [("spaceAround", ConfigKeyValue.bool true), ("forInStatement.spaceAround", ConfigKeyValue.bool false)]).for_in_statement_space_around = false
      ∧ (cfg_of [("spaceAround", ConfigKeyValue.bool true), ("forOfStatement.spaceAround", ConfigKeyValue.bool false)]).for_of_statement_space_around = false
      ∧ (cfg_of [("spaceAround", ConfigKeyValue.bool true), ("forStatement.spaceAround", ConfigKeyValue.bool false)]).for_statement_space_around = false
      ∧ (cfg_of [("spaceAround", ConfigKeyValue.bool true), ("ifStatement.spaceAround", ConfigKeyValue.bool false)]).if_statement_space_around = false
      ∧ (cfg_of [("spaceAround", ConfigKeyValue.bool true), ("parameters.spaceAround", ConfigKeyValue.bool false)]).parameters_space_around = false
      ∧ (cfg_of [("spaceAround", ConfigKeyValue.bool true), ("switchStatement.spaceAround", ConfigKeyValue.bool false)]).switch_statement_space_around = false
      ∧ (cfg_of [("spaceAround", ConfigKeyValue.bool true), ("tupleType.spaceAround", ConfigKeyValue.bool false)]).tuple_type_space_around = false
      ∧ (cfg_of [("spaceAround", ConfigKeyValue.bool true), ("whileStatement.spaceAround", ConfigKeyValue.bool false)]).while_statement_space_around = false
      ∧ (cfg_of [("spaceAround", ConfigKeyValue.bool true), ("parenExpression.spaceAround", ConfigKeyValue.bool false)]).paren_expression_space_around = false)
    ∧ (∀ v : SemiColonOrComma,
      (cfg_of [("typeLiteral.separatorKind", ConfigKeyValue.str v.key_string)]).type_literal_separator_kind_single_line = v
      ∧ (cfg_of [("typeLiteral.separatorKind", ConfigKeyValue.str v.key_string)]).type_literal_separator_kind_multi_line = v)
    ∧ (∀ v1 v2 : SemiColonOrComma,
      (cfg_of [("typeLiteral.separatorKind", ConfigKeyValue.str v1.key_string), ("typeLiteral.separatorKind.singleLine", ConfigKeyValue.str v2.key_string)]).type_literal_separator_kind_single_line = v2
      ∧ (cfg_of [("typeLiteral.separatorKind", ConfigKeyValue.str v1.key_string), ("typeLiteral.separatorKind.multiLine", ConfigKeyValue.str v2.key_string)]).type_literal_separator_kind_multi_line = v2)
    ∧ (∀ v : SameOrNextLinePosition,
      (cfg_of [("jsx.bracketPosition", ConfigKeyValue.str v.key_string)]).jsx_opening_element_bracket_position = v
      ∧ (cfg_of [("jsx.bracketPosition", ConfigKeyValue.str v.key_string)]).jsx_self_closing_element_bracket_position = v)
    ∧ (∀ v1 v2 : SameOrNextLinePosition,
      (cfg_of [("jsx.bracketPosition", ConfigKeyValue.str v1.key_string), ("jsxOpeningElement.bracketPosition", ConfigKeyValue.str v2.key_string)]).jsx_opening_element_bracket_position = v2
      ∧ (cfg_of [("jsx.bracketPosition", ConfigKeyValue.str v1.key_string), ("jsxSelfClosingElement.bracketPosition", ConfigKeyValue.str v2.key_string)]).jsx_self_closing_element_bracket_position = v2)
    ∧ (∀ q : QuoteStyle,
      (cfg_of [("quoteStyle", ConfigKeyValue.str q.key_string)]).jsx_quote_style = q.to_jsx_quote_style)
    ∧ (∀ q : QuoteStyle,
      (cfg_of [("quoteStyle", ConfigKeyValue.str q.key_string), ("jsx.quoteStyle", ConfigKeyValue.str "preferSingle")]).jsx_quote_style = JsxQuoteStyle.PreferSingle) :=
  ⟨c1_brace_position_category, c1_brace_position_leaf_wins, c1_brace_position_leaf_wins_all, c1_next_control_flow_category, c1_next_control_flow_leaf_wins, c1_next_control_flow_leaf_wins_all, c1_operator_position_category, c1_operator_position_leaf_wins, c1_operator_position_leaf_wins_all, c1_single_body_position_category, c1_single_body_position_leaf_wins, c1_single_body_position_leaf_wins_all, c1_trailing_commas_category, c1_trailing_commas_leaf_wins, c1_trailing_commas_leaf_wins_all, c1_use_braces_category, c1_use_braces_leaf_wins, c1_use_braces_leaf_wins_all, c1_prefer_hanging_category, c1_prefer_hanging_leaf_wins, c1_prefer_hanging_leaf_wins_all, c1_prefer_hanging_granular_category, c1_prefer_hanging_granular_leaf_wins, c1_prefer_hanging_granular_leaf_wins_all, c1_prefer_single_line_category, c1_prefer_single_line_leaf_wins, c1_prefer_single_line_leaf_wins_all, c1_space_surrounding_properties_category, c1_space_surrounding_properties_leaf_wins, c1_space_surrounding_properties_leaf_wins_all, c1_space_around_category, c1_space_around_leaf_wins, c1_space_around_leaf_wins_all, c1_separator_kind_category, c1_separator_kind_leaf_wins, c1_jsx_bracket_position_category, c1_jsx_bracket_position_leaf_wins, c1_jsx_quote_style_category, c1_jsx_quote_style_leaf_wins⟩

/-- C2: supplying a wrongly-typed value (a string or a number) for the
boolean-typed key "preferHanging" resolves the fed fields to their documented
defaults (false / Never), appends exactly one TypeMismatch diagnostic citing
that key, and the key is consumed so it never reappears as an UnknownKey,
for every global configuration. -/
theorem type_mismatch_fallback_and_consumption :
    ∀ (g : GlobalConfiguration) (s : String) (n : Int),
      ((resolve_config [("preferHanging", ConfigKeyValue.str s)] g).diagnostics
          = [ConfigurationDiagnostic.typeMismatch "preferHanging"]
        ∧ (resolve_config [("preferHanging", ConfigKeyValue.str s)] g).config.if_statement_prefer_hanging = false
        ∧ (resolve_config [("preferHanging", ConfigKeyValue.str s)] g).config.arguments_prefer_hanging = PreferHanging.Never)
      ∧ ((resolve_config [("preferHanging", ConfigKeyValue.number n)] g).diagnostics
          = [ConfigurationDiagnostic.typeMismatch "preferHanging"]
        ∧ (resolve_config [("preferHanging", ConfigKeyValue.number n)] g).config.if_statement_prefer_hanging = false
        ∧ (resolve_config [("preferHanging", ConfigKeyValue.number n)] g).config.arguments_prefer_hanging = PreferHanging.Never) :=
  fun _ _ _ => ⟨⟨rfl, rfl, rfl⟩, ⟨rfl, rfl, rfl⟩⟩

/-- C3: unknown-key isolation: a map with one recognized key and one
unrecognized key resolves the recognized field from its supplied value and
yields exactly one UnknownKey diagnostic naming only the unrecognized key;
a map with two unrecognized keys yields exactly one UnknownKey diagnostic per
leftover entry and no others. -/
theorem unknown_key_isolation :
    ∀ (g : GlobalConfiguration) (v : SemiColons),
      ((resolve_config [("semiColons", ConfigKeyValue.str v.key_string), ("unknown.property", ConfigKeyValue.bool true)] g).config.semi_colons = v
        ∧ (resolve_config [("semiColons", ConfigKeyValue.str v.key_string), ("unknown.property", ConfigKeyValue.bool true)] g).diagnostics
            = [ConfigurationDiagnostic.unknownKey "unknown.property"])
      ∧ (resolve_config [("u1", ConfigKeyValue.bool true), ("u2", ConfigKeyValue.number 3)] g).diagnostics
          = [ConfigurationDiagnostic.unknownKey "u1", ConfigurationDiagnostic.unknownKey "u2"] :=
  fun _ v => ⟨by cases v <;> exact ⟨rfl, rfl⟩, rfl⟩

/-- C4: deprecation forwarding for the deprecated key
"jsxElement.spaceBeforeSelfClosingTagSlash": with the replacement key absent
the field resolves to the old key's value, with the replacement also present
the replacement wins and the old value is discarded; in both cases exactly
one Deprecated diagnostic is produced and the old key is never reported as an
UnknownKey. -/
theorem deprecation_forwarding :
    ∀ (g : GlobalConfiguration) (x y : Bool),
      ((resolve_config [("jsxElement.spaceBeforeSelfClosingTagSlash", ConfigKeyValue.bool x)] g).config.jsx_self_closing_element_space_before_slash = x
        ∧ (resolve_config [("jsxElement.spaceBeforeSelfClosingTagSlash", ConfigKeyValue.bool x)] g).diagnostics
            = [ConfigurationDiagnostic.deprecated "jsxElement.spaceBeforeSelfClosingTagSlash" "jsxSelfClosingElement.spaceBeforeSlash"])
      ∧ ((resolve_config [("jsxElement.spaceBeforeSelfClosingTagSlash", ConfigKeyValue.bool x), ("jsxSelfClosingElement.spaceBeforeSlash", ConfigKeyValue.bool y)] g).config.jsx_self_closing_element_space_before_slash = y
        ∧ (resolve_config [("jsxElement.spaceBeforeSelfClosingTagSlash", ConfigKeyValue.bool x), ("jsxSelfClosingElement.spaceBeforeSlash", ConfigKeyValue.bool y)] g).diagnostics
            = [ConfigurationDiagnostic.deprecated "jsxElement.spaceBeforeSelfClosingTagSlash" "jsxSelfClosingElement.spaceBeforeSlash"]) :=
  fun _ _ _ => ⟨⟨rfl, rfl⟩, ⟨rfl, rfl⟩⟩

/-- Lookup after appending a single entry at the end of the map. -/
lemma ck_lookup_append_single (m : ConfigKeyMap) (a : String) (b : ConfigKeyValue)
    (k : String) :
    ck_lookup (m ++ [(a, b)]) k =
      match ck_lookup m k with
      | some v => some v
      | none => if a = k then some b else none := by
  induction m with
  | nil => simp [ck_lookup]
  | cons kv rest ih =>
    by_cases h : kv.1 = k
    · simp [ck_lookup, h]
    · simp [ck_lookup, h, ih]

/-- Non-destructive fill: looking up a key after `fill_config` yields the
map's own value when present and the table's value otherwise. -/
lemma fill_config_lookup (t : ConfigKeyMap) :
    ∀ (m : ConfigKeyMap) (k : String),
      ck_lookup (fill_config t m) k =
        match ck_lookup m k with
        | some v => some v
        | none => ck_lookup t k := by
  induction t with
  | nil =>
    intro m k
    cases h : ck_lookup m k <;> simp [fill_config, ck_lookup, h]
  | cons kv rest ih =>
    intro m k
    simp only [fill_config]
    by_cases hc : ck_contains m kv.1 = true
    · rw [if_pos hc, ih]
      cases h : ck_lookup m k with
      | some v => simp [h]
      | none =>
        have hne : kv.1 ≠ k := by
          intro he
          rw [he] at hc
          simp [ck_contains, h] at hc
        simp [ck_lookup, h, hne]
    · rw [if_neg hc, ih, ck_lookup_append_single]
      cases h : ck_lookup m k with
      | some v => simp [h]
      | none =>
        by_cases he : kv.1 = k
        · simp [ck_lookup, h, he]
        · simp [ck_lookup, h, he]

/-- C5: deno preset non-destructive merge: filling the deno preset inserts a
preset entry only when its key is absent, so an explicitly set key keeps its
value and every other preset key gets the preset value; concretely, with
deno=true and an explicit indentWidth=8, indentWidth resolves to the override
and the other preset keys resolve to the preset values, with no diagnostics. -/
theorem deno_preset_non_destructive_merge :
    (∀ (m : ConfigKeyMap) (k : String),
      ck_lookup (fill_deno_config m) k =
        match ck_lookup m k with
        | some v => some v
        | none => ck_lookup deno_preset_table k)
    ∧ ∀ g : GlobalConfiguration,
        (resolve_config [("deno", ConfigKeyValue.bool true), ("indentWidth", ConfigKeyValue.number 8)] g).config.indent_width = 8
        ∧ (resolve_config [("deno", ConfigKeyValue.bool true), ("indentWidth", ConfigKeyValue.number 8)] g).config.line_width = 80
        ∧ (resolve_config [("deno", ConfigKeyValue.bool true), ("indentWidth", ConfigKeyValue.number 8)] g).config.use_tabs = false
        ∧ (resolve_config [("deno", ConfigKeyValue.bool true), ("indentWidth", ConfigKeyValue.number 8)] g).config.semi_colons = SemiColons.Prefer
        ∧ (resolve_config [("deno", ConfigKeyValue.bool true), ("indentWidth", ConfigKeyValue.number 8)] g).config.quote_style = QuoteStyle.PreferDouble
        ∧ (resolve_config [("deno", ConfigKeyValue.bool true), ("indentWidth", ConfigKeyValue.number 8)] g).config.new_line_kind = NewLineKind.LineFeed
        ∧ (resolve_config [("deno", ConfigKeyValue.bool true), ("indentWidth", ConfigKeyValue.number 8)] g).diagnostics = [] :=
  ⟨fun m k => fill_config_lookup deno_preset_table m k,
   fun _ => ⟨rfl, rfl, rfl, rfl, rfl, rfl, rfl⟩⟩

/-- C6 counterexample: the code extracts the preset flag before the
deprecation redirects, so a malformed "deno" value together with a deprecated
key produces a TypeMismatch diagnostic before the Deprecated diagnostic,
refuting the claimed "all Deprecated first" ordering. -/
theorem pipeline_order_counterexample :
    (resolve_config [("deno", ConfigKeyValue.str "x"), ("jsxElement.spaceBeforeSelfClosingTagSlash", ConfigKeyValue.bool true)] default_global_config).diagnostics
      = [ConfigurationDiagnostic.typeMismatch "deno",
         ConfigurationDiagnostic.deprecated "jsxElement.spaceBeforeSelfClosingTagSlash" "jsxSelfClosingElement.spaceBeforeSlash"]
    ∧ ranks_sorted (((resolve_config [("deno", ConfigKeyValue.str "x"), ("jsxElement.spaceBeforeSelfClosingTagSlash", ConfigKeyValue.bool true)] default_global_config).diagnostics).map diagnostic_phase_rank) = false :=
  ⟨rfl, rfl⟩

set_option maxHeartbeats 2000000 in
/-- C6 amended: the pipeline is Preset Expand, then Deprecation Redirect,
then Cascading Extraction, then Unknown Key Report, then Assemble; the
diagnostics are ordered with any TypeMismatch from the preset flag extraction
first, then all Deprecated diagnostics, then TypeMismatch diagnostics in
field-resolution order, then all UnknownKey diagnostics last. -/
theorem pipeline_order_amended :
    ∀ (g : GlobalConfiguration) (s q : String) (x y : Bool),
      (resolve_config [("deno", ConfigKeyValue.str s), ("jsxElement.spaceBeforeSelfClosingTagSlash", ConfigKeyValue.bool x), ("preferHanging", ConfigKeyValue.str q), ("zzz.unknown", ConfigKeyValue.bool y)] g).diagnostics
        = [ConfigurationDiagnostic.typeMismatch "deno",
           ConfigurationDiagnostic.deprecated "jsxElement.spaceBeforeSelfClosingTagSlash" "jsxSelfClosingElement.spaceBeforeSlash",
           ConfigurationDiagnostic.typeMismatch "preferHanging",
           ConfigurationDiagnostic.unknownKey "zzz.unknown"]
      ∧ (resolve_config [("jsxElement.spaceBeforeSelfClosingTagSlash", ConfigKeyValue.bool x), ("preferHanging", ConfigKeyValue.str q), ("zzz.unknown", ConfigKeyValue.bool y)] g).diagnostics
        = [ConfigurationDiagnostic.deprecated "jsxElement.spaceBeforeSelfClosingTagSlash" "jsxSelfClosingElement.spaceBeforeSlash",
           ConfigurationDiagnostic.typeMismatch "preferHanging",
           ConfigurationDiagnostic.unknownKey "zzz.unknown"] :=
  fun _ _ _ _ _ => ⟨rfl, rfl⟩

set_option maxHeartbeats 2000000 in
/-- C7: per-leaf asymmetric fallback for preferSingleLine: with the key
"preferSingleLine" absent, importDeclaration.preferSingleLine and
exportDeclaration.preferSingleLine fall back to true while every other
preferSingleLine leaf falls back to false; with "preferSingleLine" present as
a boolean v, every preferSingleLine leaf falls back to v. -/
theorem prefer_single_line_asymmetric_fallback :
    ∀ (g : GlobalConfiguration) (v : Bool),
      ((resolve_config [] g).config.import_declaration_prefer_single_line = true
        ∧ (resolve_config [] g).config.export_declaration_prefer_single_line = true
        ∧ (resolve_config [] g).config.array_expression_prefer_single_line = false
        ∧ (resolve_config [] g).config.array_pattern_prefer_single_line = false
        ∧ (resolve_config [] g).config.arguments_prefer_single_line = false
        ∧ (resolve_config [] g).config.binary_expression_prefer_single_line = false
        ∧ (resolve_config [] g).config.computed_prefer_single_line = false
        ∧ (resolve_config [] g).config.conditional_expression_prefer_single_line = false
        ∧ (resolve_config [] g).config.conditional_type_prefer_single_line = false
        ∧ (resolve_config [] g).config.decorators_prefer_single_line = false
        ∧ (resolve_config [] g).config.for_statement_prefer_single_line = false
        ∧ (resolve_config [] g).config.jsx_attributes_prefer_single_line = false
        ∧ (resolve_config [] g).config.jsx_element_prefer_single_line = false
        ∧ (resolve_config [] g).config.mapped_type_prefer_single_line = false
        ∧ (resolve_config [] g).config.member_expression_prefer_single_line = false
        ∧ (resolve_config [] g).config.object_expression_prefer_single_line = false
        ∧ (resolve_config [] g).config.object_pattern_prefer_single_line = false
        ∧ (resolve_config [] g).config.parameters_prefer_single_line = false
        ∧ (resolve_config [] g).config.parentheses_prefer_single_line = false
        ∧ (resolve_config [] g).config.tuple_type_prefer_single_line = false
        ∧ (resolve_config [] g).config.type_literal_prefer_single_line = false
        ∧ (resolve_config [] g).config.type_parameters_prefer_single_line = false
        ∧ (resolve_config [] g).config.union_and_intersection_type_prefer_single_line = false
        ∧ (resolve_config [] g).config.variable_statement_prefer_single_line = false)
      ∧ ((resolve_config [("preferSingleLine", ConfigKeyValue.bool v)] g).config.import_declaration_prefer_single_line = v
        ∧ (resolve_config [("preferSingleLine", ConfigKeyValue.bool v)] g).config.export_declaration_prefer_single_line = v
        ∧ (resolve_config [("preferSingleLine", ConfigKeyValue.bool v)] g).config.array_expression_prefer_single_line = v
        ∧ (resolve_config [("preferSingleLine", ConfigKeyValue.bool v)] g).config.array_pattern_prefer_single_line = v
        ∧ (resolve_config [("preferSingleLine", ConfigKeyValue.bool v)] g).config.arguments_prefer_single_line = v
        ∧ (resolve_config [("preferSingleLine", ConfigKeyValue.bool v)] g).config.binary_expression_prefer_single_line = v
        ∧ (resolve_config [("preferSingleLine", ConfigKeyValue.bool v)] g).config.computed_prefer_single_line = v
        ∧ (resolve_config [("preferSingleLine", ConfigKeyValue.bool v)] g).config.conditional_expression_prefer_single_line = v
        ∧ (resolve_config [("preferSingleLine", ConfigKeyValue.bool v)] g).config.conditional_type_prefer_single_line = v
        ∧ (resolve_config [("preferSingleLine", ConfigKeyValue.bool v)] g).config.decorators_prefer_single_line = v
        ∧ (resolve_config [("preferSingleLine", ConfigKeyValue.bool v)] g).config.for_statement_prefer_single_line = v
        ∧ (resolve_config [("preferSingleLine", ConfigKeyValue.bool v)] g).config.jsx_attributes_prefer_single_line = v
        ∧ (resolve_config [("preferSingleLine", ConfigKeyValue.bool v)] g).config.jsx_element_prefer_single_line = v
        ∧ (resolve_config [("preferSingleLine", ConfigKeyValue.bool v)] g).config.mapped_type_prefer_single_line = v
        ∧ (resolve_config [("preferSingleLine", ConfigKeyValue.bool v)] g).config.member_expression_prefer_single_line = v
        ∧ (resolve_config [("preferSingleLine", ConfigKeyValue.bool v)] g).config.object_expression_prefer_single_line = v
        ∧ (resolve_config [("preferSingleLine", ConfigKeyValue.bool v)] g).config.object_pattern_prefer_single_line = v
        ∧ (resolve_config [("preferSingleLine", ConfigKeyValue.bool v)] g).config.parameters_prefer_single_line = v
        ∧ (resolve_config [("preferSingleLine", ConfigKeyValue.bool v)] g).config.parentheses_prefer_single_line = v
        ∧ (resolve_config [("preferSingleLine", ConfigKeyValue.bool v)] g).config.tuple_type_prefer_single_line = v
        ∧ (resolve_config [("preferSingleLine", ConfigKeyValue.bool v)] g).config.type_literal_prefer_single_line = v
        ∧ (resolve_config [("preferSingleLine", ConfigKeyValue.bool v)] g).config.type_parameters_prefer_single_line = v
        ∧ (resolve_config [("preferSingleLine", ConfigKeyValue.bool v)] g).config.union_and_intersection_type_prefer_single_line = v
        ∧ (resolve_config [("preferSingleLine", ConfigKeyValue.bool v)] g).config.variable_statement_prefer_single_line = v) :=
  fun _ _ => ⟨⟨rfl, rfl, rfl, rfl, rfl, rfl, rfl, rfl, rfl, rfl, rfl, rfl, rfl, rfl, rfl, rfl, rfl, rfl, rfl, rfl, rfl, rfl, rfl, rfl⟩,
    ⟨rfl, rfl, rfl, rfl, rfl, rfl, rfl, rfl, rfl, rfl, rfl, rfl, rfl, rfl, rfl, rfl, rfl, rfl, rfl, rfl, rfl, rfl, rfl, rfl⟩⟩


/-- Every resolution result is literally a configuration paired with a
diagnostics list. -/
lemma result_mk_exists (r : ResolveConfigurationResult) :
    ∃ cfg diags, r = { config := cfg, diagnostics := diags } :=
  ⟨r.config, r.diagnostics, rfl⟩

set_option maxHeartbeats 2000000 in
/-- C8: totality with no fatal error path: for every input map and global
configuration, resolution returns a result with a fully populated
configuration (every field holds a concrete value by construction of the
`Configuration` record); anomalies (invalid enum string, wrong primitive
kind, unknown key) are each handled locally by substituting the default and
recording one diagnostic. -/
theorem resolution_totality :
    (∀ (m : ConfigKeyMap) (g : GlobalConfiguration),
      ∃ cfg diags, resolve_config m g = { config := cfg, diagnostics := diags })
    ∧ ∀ g : GlobalConfiguration,
        (resolve_config [("semiColons", ConfigKeyValue.str "bogus"), ("lineWidth", ConfigKeyValue.str "abc"), ("mystery", ConfigKeyValue.bool true)] g).config.semi_colons = SemiColons.Prefer
        ∧ (resolve_config [("semiColons", ConfigKeyValue.str "bogus"), ("lineWidth", ConfigKeyValue.str "abc"), ("mystery", ConfigKeyValue.bool true)] g).config.line_width = g.line_width.getD 120
        ∧ (resolve_config [("semiColons", ConfigKeyValue.str "bogus"), ("lineWidth", ConfigKeyValue.str "abc"), ("mystery", ConfigKeyValue.bool true)] g).diagnostics
            = [ConfigurationDiagnostic.typeMismatch "semiColons",
               ConfigurationDiagnostic.typeMismatch "lineWidth",
               ConfigurationDiagnostic.unknownKey "mystery"] :=
  ⟨fun m g => result_mk_exists (resolve_config m g),
   fun _ => ⟨rfl, rfl, rfl⟩⟩

/-- C9: determinism: equal input maps and equal global configurations give
equal results; resolving the empty override map yields an empty diagnostics
sequence against every global configuration. -/
theorem resolution_determinism :
    (∀ (m₁ m₂ : ConfigKeyMap) (g₁ g₂ : GlobalConfiguration),
      m₁ = m₂ → g₁ = g₂ → resolve_config m₁ g₁ = resolve_config m₂ g₂)
    ∧ ∀ g : GlobalConfiguration, (resolve_config [] g).diagnostics = [] :=
  ⟨fun _ _ _ _ hm hg => by rw [hm, hg], fun _ => rfl⟩

/-- Witness for C9 at the empty map and the default global configuration. -/
theorem resolution_determinism_witness :
    resolve_config [] default_global_config = resolve_config [] default_global_config
    ∧ (resolve_config [] default_global_config).diagnostics = [] :=
  ⟨resolution_determinism.1 [] [] default_global_config default_global_config rfl rfl,
   resolution_determinism.2 default_global_config⟩

lemma skip_while_suffix (p : Char → Bool) (cs : List Char) :
    skip_while p cs <:+ cs := by
  induction cs with
  | nil => exact List.suffix_refl _
  | cons c cs ih =>
    by_cases h : p c = true
    · simp only [skip_while, if_pos h]
      exact ih.trans (List.suffix_cons c cs)
    · simp only [skip_while, if_neg h]
      exact List.suffix_refl _

lemma skip_all_until_new_line_suffix (cs : List Char) :
    skip_all_until_new_line cs <:+ cs :=
  (List.tail_suffix _).trans (skip_while_suffix _ cs)

lemma check_text_suffix (t : List Char) : ∀ cs : List Char,
    (check_text t cs).2 <:+ cs := by
  induction t with
  | nil =>
    intro cs
    simp only [check_text]
    exact List.suffix_refl _
  | cons a ts ih =>
    intro cs
    cases cs with
    | nil =>
      simp only [check_text]
      exact List.nil_suffix
    | cons c cs =>
      by_cases h : c = a
      · simp only [check_text, if_pos h]
        exact (ih cs).trans (List.suffix_cons c cs)
      · simp only [check_text, if_neg h]
        exact List.suffix_cons c cs

lemma skip_past_comment_end_suffix (cs : List Char) :
    skip_past_comment_end cs <:+ cs := by
  induction cs with
  | nil => exact List.suffix_refl _
  | cons c cs ih =>
    by_cases h : ((c == '*') && (cs.head? == some '/')) = true
    · simp only [skip_past_comment_end, if_pos h]
      exact (List.tail_suffix cs).trans (List.suffix_cons c cs)
    · simp only [skip_past_comment_end, if_neg h]
      exact ih.trans (List.suffix_cons c cs)

lemma skip_while_decomp (p : Char → Bool) (cs : List Char) :
    ∃ t, cs = t ++ skip_while p cs ∧ ∀ c ∈ t, p c = true := by
  induction cs with
  | nil => exact ⟨[], rfl, by simp⟩
  | cons c cs ih =>
    by_cases h : p c = true
    · obtain ⟨t, ht, hall⟩ := ih
      refine ⟨c :: t, ?_, ?_⟩
      · simp only [skip_while, if_pos h, List.cons_append]
        exact congrArg (c :: ·) ht
      · intro x hx
        rcases List.mem_cons.mp hx with rfl | hx
        · exact h
        · exact hall x hx
    · exact ⟨[], by simp [skip_while, if_neg h], by simp⟩

lemma check_text_true (t : List Char) : ∀ cs : List Char,
    (check_text t cs).1 = true → cs = t ++ (check_text t cs).2 := by
  induction t with
  | nil =>
    intro cs _
    simp only [check_text, List.nil_append]
  | cons a ts ih =>
    intro cs h
    cases cs with
    | nil => simp [check_text] at h
    | cons c cs =>
      by_cases hc : c = a
      · subst hc
        simp only [check_text, if_pos rfl] at h ⊢
        simp only [List.cons_append]
        exact congrArg (c :: ·) (ih cs h)
      · simp [check_text, if_neg hc] at h

lemma has_ignore_comment_loop_sound_aux (ig : List Char) :
    ∀ (n : Nat) (cs : List Char), cs.length ≤ n →
      has_ignore_comment_loop ig cs = true →
      ∃ u s rest,
        (cs = u ++ '/' :: '/' :: (s ++ ig ++ rest) ∧ ∀ ch ∈ s, ch = ' ')
        ∨ (cs = u ++ '/' :: '*' :: (s ++ ig ++ rest) ∧ ∀ ch ∈ s, is_whitespace ch = true) := by
  intro n
  induction n with
  | zero =>
    intro cs hlen h
    have hnil : cs = [] := List.length_eq_zero.mp (Nat.le_zero.mp hlen)
    subst hnil
    simp [has_ignore_comment_loop] at h
  | succ n ih =>
    intro cs hlen h
    cases cs with
    | nil => simp [has_ignore_comment_loop] at h
    | cons c cs' =>
      simp only [has_ignore_comment_loop] at h
      split at h
      · exact absurd h (by simp)
      · rename_i cs3 hsw
        by_cases hct : (check_text ig (skip_while (fun c2 => c2 == ' ') cs3)).1 = true
        · obtain ⟨u, hu⟩ := skip_while_suffix is_whitespace (c :: cs')
          obtain ⟨s, hs, hs_all⟩ := skip_while_decomp (fun c2 => c2 == ' ') cs3
          have hdec := check_text_true ig (skip_while (fun c2 => c2 == ' ') cs3) hct
          refine ⟨u, s, (check_text ig (skip_while (fun c2 => c2 == ' ') cs3)).2,
            Or.inl ⟨?_, ?_⟩⟩
          · conv_lhs => rw [← hu, hsw, hs, hdec]
            simp [List.append_assoc]
          · intro ch hch
            simpa using hs_all ch hch
        · rw [if_neg hct] at h
          have hlen2 :
              (skip_all_until_new_line
                (check_text ig (skip_while (fun c2 => c2 == ' ') cs3)).2).length ≤ n := by
            have l1 := skip_while_length_le is_whitespace (c :: cs')
            rw [hsw] at l1
            have l2 := skip_while_length_le (fun c2 => c2 == ' ') cs3
            have l3 := check_text_length_le ig (skip_while (fun c2 => c2 == ' ') cs3)
            have l4 := skip_all_until_new_line_length_le
              (check_text ig (skip_while (fun c2 => c2 == ' ') cs3)).2
            simp only [List.length_cons] at l1 hlen
            omega
          obtain ⟨u', s, rest, hcase⟩ := ih _ hlen2 h
          have t4 : cs3 <:+ (c :: cs') := by
            have t5 : cs3 <:+ ('/' :: '/' :: cs3) :=
              (List.suffix_cons '/' cs3).trans (List.suffix_cons '/' ('/' :: cs3))
            rw [← hsw] at t5
            exact t5.trans (skip_while_suffix is_whitespace (c :: cs'))
          have hsuf :
              skip_all_until_new_line
                (check_text ig (skip_while (fun c2 => c2 == ' ') cs3)).2 <:+ (c :: cs') := by
            have t1 := skip_all_until_new_line_suffix
              (check_text ig (skip_while (fun c2 => c2 == ' ') cs3)).2
            have t2 := check_text_suffix ig (skip_while (fun c2 => c2 == ' ') cs3)
            have t3 := skip_while_suffix (fun c2 => c2 == ' ') cs3
            exact ((t1.trans t2).trans t3).trans t4
          obtain ⟨w, hw⟩ := hsuf
          rcases hcase with ⟨heq, hall⟩ | ⟨heq, hall⟩
          · refine ⟨w ++ u', s, rest, Or.inl ⟨?_, hall⟩⟩
            rw [← hw, heq]
            simp [List.append_assoc]
          · refine ⟨w ++ u', s, rest, Or.inr ⟨?_, hall⟩⟩
            rw [← hw, heq]
            simp [List.append_assoc]
      · rename_i cs3 hsw
        by_cases hct : (check_text ig (skip_while is_whitespace cs3)).1 = true
        · obtain ⟨u, hu⟩ := skip_while_suffix is_whitespace (c :: cs')
          obtain ⟨s, hs, hs_all⟩ := skip_while_decomp is_whitespace cs3
          have hdec := check_text_true ig (skip_while is_whitespace cs3) hct
          refine ⟨u, s, (check_text ig (skip_while is_whitespace cs3)).2,
            Or.inr ⟨?_, ?_⟩⟩
          · conv_lhs => rw [← hu, hsw, hs, hdec]
            simp [List.append_assoc]
          · exact hs_all
        · rw [if_neg hct] at h
          have hlen2 :
              (skip_past_comment_end
                (check_text ig (skip_while is_whitespace cs3)).2).length ≤ n := by
            have l1 := skip_while_length_le is_whitespace (c :: cs')
            rw [hsw] at l1
            have l2 := skip_while_length_le is_whitespace cs3
            have l3 := check_text_length_le ig (skip_while is_whitespace cs3)
            have l4 := skip_past_comment_end_length_le
              (check_text ig (skip_while is_whitespace cs3)).2
            simp only [List.length_cons] at l1 hlen
            omega
          obtain ⟨u', s, rest, hcase⟩ := ih _ hlen2 h
          have t4 : cs3 <:+ (c :: cs') := by
            have t5 : cs3 <:+ ('/' :: '*' :: cs3) :=
              (List.suffix_cons '*' cs3).trans (List.suffix_cons '/' ('*' :: cs3))
            rw [← hsw] at t5
            exact t5.trans (skip_while_suffix is_whitespace (c :: cs'))
          have hsuf :
              skip_past_comment_end
                (check_text ig (skip_while is_whitespace cs3)).2 <:+ (c :: cs') := by
            have t1 := skip_past_comment_end_suffix
              (check_text ig (skip_while is_whitespace cs3)).2
            have t2 := check_text_suffix ig (skip_while is_whitespace cs3)
            have t3 := skip_while_suffix is_whitespace cs3
            exact ((t1.trans t2).trans t3).trans t4
          obtain ⟨w, hw⟩ := hsuf
          rcases hcase with ⟨heq, hall⟩ | ⟨heq, hall⟩
          · refine ⟨w ++ u', s, rest, Or.inl ⟨?_, hall⟩⟩
            rw [← hw, heq]
            simp [List.append_assoc]
          · refine ⟨w ++ u', s, rest, Or.inr ⟨?_, hall⟩⟩
            rw [← hw, heq]
            simp [List.append_assoc]
      · exact absurd h (by simp)

lemma has_ignore_comment_loop_no_slash (ig : List Char) (cs : List Char)
    (h : (skip_while is_whitespace cs).head? ≠ some '/') :
    has_ignore_comment_loop ig cs = false := by
  cases cs with
  | nil => simp [has_ignore_comment_loop]
  | cons c cs' =>
    simp only [has_ignore_comment_loop]
    split
    · rfl
    · rename_i cs3 hsw
      exact absurd (show (skip_while is_whitespace (c :: cs')).head? = some '/' by
        rw [hsw]; rfl) h
    · rename_i cs3 hsw
      exact absurd (show (skip_while is_whitespace (c :: cs')).head? = some '/' by
        rw [hsw]; rfl) h
    · rfl

lemma post_shebang_chars_suffix (ft : String) : post_shebang_chars ft <:+ ft.data := by
  rw [post_shebang_chars]
  split
  · rename_i rest heq
    rw [heq]
    exact (skip_all_until_new_line_suffix rest).trans
      ((List.suffix_cons '!' rest).trans (List.suffix_cons '#' ('!' :: rest)))
  · exact List.suffix_refl _

/-- C10 counterexample: the scanner returns true for a file whose initial
comment run does not contain the ignore text: in "//a\nb\n//ab" with ignore
text "ab", the initial run is only the comment "//a" (the line "b" is code),
yet a failed partial match consumes the first comment's newline, the line "b"
is discarded as if it were comment text, and the ignore text is then found in
the later comment "//ab". -/
theorem ignore_comment_initial_run_counterexample :
    file_text_has_ignore_comment "//a\nb\n//ab" "ab" = true
    ∧ has_ignore_comment_spec "//a\nb\n//ab" "ab" = false := by
  constructor
  · simp [file_text_has_ignore_comment, post_shebang_chars, has_ignore_comment_loop,
      skip_while, is_whitespace, check_text, skip_all_until_new_line]
  · simp [has_ignore_comment_spec, post_shebang_chars, ignore_in_initial_comment_run,
      skip_while, is_whitespace, split_line, split_block_end, List.isPrefixOf]

/-- Sanity checks mirroring the unit tests of
src/utils/file_text_has_ignore_comment.rs: the embedded scanner and the
initial-comment-run reading agree on them. -/
lemma ignore_comment_unit_test_cases :
    file_text_has_ignore_comment "// ignore-file\ntest;" "ignore-file" = true
    ∧ file_text_has_ignore_comment "/* ignore-file */\ntest;" "ignore-file" = true
    ∧ file_text_has_ignore_comment "#!/usr/bin/env node\n//ignore-file" "ignore-file" = true
    ∧ file_text_has_ignore_comment "const x;\n// ignore-file" "ignore-file" = false
    ∧ has_ignore_comment_spec "// ignore-file\ntest;" "ignore-file" = true
    ∧ has_ignore_comment_spec "#!/usr/bin/env node\n//ignore-file" "ignore-file" = true := by
  refine ⟨?_, ?_, ?_, ?_, ?_, ?_⟩ <;>
    simp [file_text_has_ignore_comment, has_ignore_comment_spec, post_shebang_chars,
      has_ignore_comment_loop, ignore_in_initial_comment_run, skip_while, is_whitespace,
      check_text, skip_all_until_new_line, skip_past_comment_end, split_line,
      split_block_end, List.isPrefixOf]
/-- C10 amended: file_text_has_ignore_comment returns true only if the
ignore text occurs in the file text immediately after a "//" opener followed
by spaces, or a "/*" opener followed by whitespace (the start of a comment
opener's content; not necessarily inside the initial run of comments, since a
failed partial match may consume a comment's terminating newline); and if the
first non-whitespace character after the optional shebang line is not a
slash, it returns false regardless of the rest of the file. -/
theorem ignore_comment_soundness_amended :
    ∀ (file_text ignore_text : String),
      (file_text_has_ignore_comment file_text ignore_text = true →
        ∃ u s rest,
          (file_text.data = u ++ '/' :: '/' :: (s ++ ignore_text.data ++ rest) ∧ ∀ ch ∈ s, ch = ' ')
          ∨ (file_text.data = u ++ '/' :: '*' :: (s ++ ignore_text.data ++ rest) ∧ ∀ ch ∈ s, is_whitespace ch = true))
      ∧ ((skip_while is_whitespace (post_shebang_chars file_text)).head? ≠ some '/' →
        file_text_has_ignore_comment file_text ignore_text = false) := by
  intro ft it
  constructor
  · intro h
    obtain ⟨u, s, rest, hcase⟩ :=
      has_ignore_comment_loop_sound_aux it.data (post_shebang_chars ft).length
        (post_shebang_chars ft) le_rfl h
    obtain ⟨w, hw⟩ := post_shebang_chars_suffix ft
    rcases hcase with ⟨heq, hall⟩ | ⟨heq, hall⟩
    · refine ⟨w ++ u, s, rest, Or.inl ⟨?_, hall⟩⟩
      rw [← hw, heq]
      simp [List.append_assoc]
    · refine ⟨w ++ u, s, rest, Or.inr ⟨?_, hall⟩⟩
      rw [← hw, heq]
      simp [List.append_assoc]
  · intro h
    exact has_ignore_comment_loop_no_slash it.data (post_shebang_chars ft) h

/-- Witness for C10: the soundness direction applied to a file holding only
the ignore comment, and the not-a-slash direction applied to a file starting
with code. -/
theorem ignore_comment_soundness_amended_witness :
    (∃ u s rest,
      ("// dprint-ignore-file".data = u ++ '/' :: '/' :: (s ++ "dprint-ignore-file".data ++ rest) ∧ ∀ ch ∈ s, ch = ' ')
      ∨ ("// dprint-ignore-file".data = u ++ '/' :: '*' :: (s ++ "dprint-ignore-file".data ++ rest) ∧ ∀ ch ∈ s, is_whitespace ch = true))
    ∧ file_text_has_ignore_comment "const x = 1;" "dprint-ignore-file" = false :=
  ⟨(ignore_comment_soundness_amended "// dprint-ignore-file" "dprint-ignore-file").1 (by
      simp [file_text_has_ignore_comment, post_shebang_chars, has_ignore_comment_loop,
        skip_while, is_whitespace, check_text]),
   (ignore_comment_soundness_amended "const x = 1;" "dprint-ignore-file").2 (by
      simp [post_shebang_chars, skip_while, is_whitespace])⟩
